import Mathlib

/-!
# Health module of the Crazyflie firmware (`src/modules/src/health.c`)

A shallow embedding of the propeller / battery self-test sequencer.

* C `float` values are read as exact rationals (`ℚ`).
* `uint32_t`, `uint16_t` and `uint8_t` variables are natural numbers; every
  increment that can wrap is written with an explicit `% 2 ^ w`.
* Arrays are total maps from the index to the stored value; an assignment
  `a[i] = v` is `Function.update a i v`.  The model only describes the cells
  of the array itself: the C behaviour of a write outside the array is
  undefined and is not described by the map.
* Calls to the collaborators (motors, sensors, task delay) are recorded, in
  program order, in the field `cmds` of the state.  `DEBUG_PRINT` has no
  effect on the state and is left out.
* `pmGetBatteryVoltage()` is an input of each call of `healthRunTests`; the
  reads made within one call return the same value.
-/

namespace Crazyflie

/-! ## Data model -/

/-- `#define PROPTEST_NBR_OF_VARIANCE_VALUES 100`. -/
def PROPTEST_NBR_OF_VARIANCE_VALUES : Nat := 100

/-- Modelled from the spec: `NBR_OF_MOTORS` is declared in `motors.h`, which is
not part of the sources at hand.  The module addresses the four motors
`MOTOR_M1 .. MOTOR_M4` and documents four bits of `motorPass`. -/
def NBR_OF_MOTORS : Nat := 4

/-- The C enumeration `TestState`. -/
inductive TestState
  | configureAcc
  | measureNoiseFloor
  | measureProp
  | testBattery
  | restartBatTest
  | evaluatePropResult
  | evaluateBatResult
  | testDone
  deriving DecidableEq, Repr

/-- Accelerometer modes passed to `sensorsSetAccMode`. -/
inductive AccMode
  | ACC_MODE_PROPTEST
  | ACC_MODE_FLIGHT
  deriving DecidableEq, Repr

/-- Calls made to the collaborators of the module. -/
inductive Cmd
  | sensorsSetAccMode (mode : AccMode)
  | motorsStop
  | motorsSetRatio (id : Nat) (ratio : Nat)
  | motorsBeep (id : Nat) (enable : Bool)
  | vTaskDelay (ms : Nat)
  deriving DecidableEq, Repr

/-- The accelerometer part `sensors->acc` of `sensorData_t`. -/
structure Axis3f where
  x : ℚ
  y : ℚ
  z : ℚ

/-- The part of `sensorData_t` read by the module. -/
structure SensorData where
  acc : Axis3f

/-- Modelled from the spec: the motor test profile `MotorHealthTestDef` is
declared in `motors.h`, which is not part of the sources at hand.  It has the
five fields that `health.c` reads and that the specification lists for the
profile lookup; they are 16-bit unsigned values. -/
structure MotorHealthTestDef where
  onPeriodMsec : Fin 65536
  offPeriodMsec : Fin 65536
  varianceMeasurementStartMsec : Fin 65536
  onPeriodPWMRatioProp : Fin 65536
  onPeriodPWMRatioBat : Fin 65536

/-- Compile-time constants and collaborators that are declared outside
`health.c`. -/
structure Config where
  motorsGetHealthTestSettings : Nat → MotorHealthTestDef
  BAT_LOADING_SAG_THRESHOLD : ℚ
  MOTORS_TEST_ON_TIME_MS : Nat
  MOTORS_TEST_DELAY_TIME_MS : Nat
  PLAY_STARTUP_MELODY_ON_MOTORS : Bool

/-- The static variables of `health.c`, together with the record `cmds` of
the collaborator calls made so far. -/
structure Health where
  startPropTest : Bool
  startBatTest : Bool
  propTestThreshold : ℚ
  propTestPWMRatio : Nat
  batTestPWMRatio : Nat
  tick : Nat
  accX : Nat → ℚ
  accY : Nat → ℚ
  accZ : Nat → ℚ
  accVarXnf : ℚ
  accVarYnf : ℚ
  accVarZnf : ℚ
  motorToTest : Int
  nrFailedTests : Nat
  idleVoltage : ℚ
  minSingleLoadedVoltage : Nat → ℚ
  minLoadedVoltage : ℚ
  accVarX : Nat → ℚ
  accVarY : Nat → ℚ
  accVarZ : Nat → ℚ
  motorPass : Nat
  motorTestCount : Nat
  batteryPass : Nat
  batterySag : ℚ
  testState : TestState
  cmds : List Cmd

/-! ## `variance` -/

/-- The loop of `variance`: `n` iterations remain, `i` is the loop index,
`sum` and `sumSq` are the two accumulators. -/
def varianceLoop (buffer : Nat → ℚ) : Nat → Nat → ℚ → ℚ → ℚ × ℚ
  | 0, _, sum, sumSq => (sum, sumSq)
  | n + 1, i, sum, sumSq =>
    varianceLoop buffer n (i + 1) (sum + buffer i) (sumSq + buffer i * buffer i)

/-- `static float variance(float *buffer, uint32_t length)`. -/
def variance (buffer : Nat → ℚ) (length : Nat) : ℚ :=
  let r := varianceLoop buffer length 0 0 0
  r.2 - (r.1 * r.1) / (length : ℚ)

/-- The formula of the specification, computed directly:
`sum(x_i^2) - (sum(x_i))^2 / N`. -/
def varianceSpec (x : Nat → ℚ) (N : Nat) : ℚ :=
  (∑ i ∈ Finset.range N, x i ^ 2) - (∑ i ∈ Finset.range N, x i) ^ 2 / (N : ℚ)

/-! ## `evaluatePropTest` -/

/-- `static bool evaluatePropTest(float low, float high, float value, uint8_t motor)`.
Returns the C return value and the state after the call (the function may
set a bit of `motorPass`). -/
def evaluatePropTest (low high value : ℚ) (motor : Nat) (s : Health) : Bool × Health :=
  let passed : Bool × Health :=
    (true, { s with motorPass := (s.motorPass ||| (1 <<< (motor % 256))) % 256 })
  if high ≠ 0 then
    if value < low ∨ value > high then
      (false, s)
    else if value > low ∧ value < high then
      (true, s)
    else
      passed
  else
    passed

/-! ## `healthShallWeRunTest` -/

/-- `bool healthShallWeRunTest(void)`: the return value and the state after
the call. -/
def healthShallWeRunTest (s : Health) : Bool × Health :=
  let s1 : Health :=
    if s.startPropTest ≠ false then
      { s with testState := TestState.configureAcc, startPropTest := false }
    else if s.startBatTest ≠ false then
      { s with testState := TestState.testBattery, startBatTest := false, tick := 0 }
    else
      s
  (decide (s1.testState ≠ TestState.testDone), s1)

/-! ## `healthRunTests` -/

/-- The conversion `(int32_t) tick` of a `uint32_t`. -/
def toInt32 (n : Nat) : Int :=
  if n % 2 ^ 32 < 2 ^ 31 then ((n % 2 ^ 32 : Nat) : Int) else ((n % 2 ^ 32 : Nat) : Int) - 2 ^ 32

/-- Appends collaborator calls to the record. -/
def emit (cs : List Cmd) (s : Health) : Health :=
  { s with cmds := s.cmds ++ cs }

/-- Body of the branch `testState == configureAcc`. -/
def configureAccBody (vbat : ℚ) (s : Health) : Health :=
  let s : Health := { s with motorPass := 0 }
  let s : Health := emit [Cmd.sensorsSetAccMode AccMode.ACC_MODE_PROPTEST] s
  let s : Health := { s with testState := TestState.measureNoiseFloor }
  let s : Health := { s with idleVoltage := vbat, minLoadedVoltage := vbat }
  let s : Health := { s with minSingleLoadedVoltage := Function.update s.minSingleLoadedVoltage 0 s.minLoadedVoltage }
  let s : Health := { s with minSingleLoadedVoltage := Function.update s.minSingleLoadedVoltage 1 s.minLoadedVoltage }
  let s : Health := { s with minSingleLoadedVoltage := Function.update s.minSingleLoadedVoltage 2 s.minLoadedVoltage }
  let s : Health := { s with minSingleLoadedVoltage := Function.update s.minSingleLoadedVoltage 3 s.minLoadedVoltage }
  emit [Cmd.motorsStop] s

/-- Body of the branch `testState == measureNoiseFloor`. -/
def measureNoiseFloorBody (sensors : SensorData) (s : Health) : Health :=
  let s : Health := { s with accX := Function.update s.accX s.tick sensors.acc.x }
  let s : Health := { s with accY := Function.update s.accY s.tick sensors.acc.y }
  let s : Health := { s with accZ := Function.update s.accZ s.tick sensors.acc.z }
  let s : Health := { s with tick := (s.tick + 1) % 2 ^ 32 }
  if s.tick ≥ PROPTEST_NBR_OF_VARIANCE_VALUES then
    let s := { s with tick := 0 }
    let s := { s with accVarXnf := variance s.accX PROPTEST_NBR_OF_VARIANCE_VALUES }
    let s := { s with accVarYnf := variance s.accY PROPTEST_NBR_OF_VARIANCE_VALUES }
    let s := { s with accVarZnf := variance s.accZ PROPTEST_NBR_OF_VARIANCE_VALUES }
    { s with testState := TestState.measureProp }
  else
    s

/-- First part of the branch `testState == measureProp`: the sample window,
`tick++` and the variance of the motor under test. -/
def measurePropSample (healthTestSettings : MotorHealthTestDef) (sensors : SensorData)
    (vbat : ℚ) (s : Health) : Health :=
  let sampleIndex : Int := toInt32 s.tick - (healthTestSettings.varianceMeasurementStartMsec.val : Int)
  let s : Health :=
    if sampleIndex ≥ 0 ∧ sampleIndex < (PROPTEST_NBR_OF_VARIANCE_VALUES : Int) then
      let s : Health := { s with accX := Function.update s.accX sampleIndex.toNat sensors.acc.x }
      let s : Health := { s with accY := Function.update s.accY sampleIndex.toNat sensors.acc.y }
      let s : Health := { s with accZ := Function.update s.accZ sampleIndex.toNat sensors.acc.z }
      if vbat < s.minSingleLoadedVoltage s.motorToTest.toNat then
        { s with minSingleLoadedVoltage :=
            Function.update s.minSingleLoadedVoltage s.motorToTest.toNat vbat }
      else
        s
    else
      s
  let s : Health := { s with tick := (s.tick + 1) % 2 ^ 32 }
  if sampleIndex = (PROPTEST_NBR_OF_VARIANCE_VALUES : Int) then
    let varX : ℚ := variance s.accX PROPTEST_NBR_OF_VARIANCE_VALUES
    let s : Health := { s with accVarX := Function.update s.accVarX s.motorToTest.toNat varX }
    let varY : ℚ := variance s.accY PROPTEST_NBR_OF_VARIANCE_VALUES
    let s : Health := { s with accVarY := Function.update s.accVarY s.motorToTest.toNat varY }
    let varZ : ℚ := variance s.accZ PROPTEST_NBR_OF_VARIANCE_VALUES
    { s with accVarZ := Function.update s.accVarZ s.motorToTest.toNat varZ }
  else
    s

/-- Second part of the branch `testState == measureProp`: the PWM control of
the motor under test and the advance to the next motor. -/
def measurePropControl (healthTestSettings : MotorHealthTestDef) (s : Health) : Health :=
  if s.tick = 1 ∧ healthTestSettings.onPeriodMsec.val > 0 then
    emit [Cmd.motorsSetRatio s.motorToTest.toNat
      (if s.propTestPWMRatio > 0 then s.propTestPWMRatio
       else healthTestSettings.onPeriodPWMRatioProp.val)] s
  else if s.tick = healthTestSettings.onPeriodMsec.val then
    emit [Cmd.motorsSetRatio s.motorToTest.toNat 0] s
  else if s.tick ≥ healthTestSettings.onPeriodMsec.val + healthTestSettings.offPeriodMsec.val then
    let s : Health := { s with tick := 0 }
    let s : Health := { s with motorToTest := s.motorToTest + 1 }
    if s.motorToTest ≥ (NBR_OF_MOTORS : Int) then
      let s : Health := { s with tick := 0 }
      let s : Health := { s with motorToTest := 0 }
      let s : Health := { s with testState := TestState.evaluatePropResult }
      emit [Cmd.sensorsSetAccMode AccMode.ACC_MODE_FLIGHT] s
    else
      s
  else
    s

/-- Body of the branch `testState == measureProp`. -/
def measurePropBody (cfg : Config) (sensors : SensorData) (vbat : ℚ) (s : Health) : Health :=
  let healthTestSettings : MotorHealthTestDef := cfg.motorsGetHealthTestSettings s.motorToTest.toNat
  measurePropControl healthTestSettings (measurePropSample healthTestSettings sensors vbat s)

/-- Body of the branch `testState == testBattery`. -/
def testBatteryBody (cfg : Config) (vbat : ℚ) (s : Health) : Health :=
  let healthTestSettings : MotorHealthTestDef := cfg.motorsGetHealthTestSettings 0
  let s : Health :=
    if s.tick = 0 then
      let s := { s with batteryPass := 0 }
      { s with idleVoltage := vbat, minLoadedVoltage := vbat }
    else
      s
  let ratio : Nat :=
    if s.batTestPWMRatio > 0 then s.batTestPWMRatio
    else healthTestSettings.onPeriodPWMRatioBat.val
  let s : Health :=
    if s.tick = 1 then
      emit [Cmd.motorsSetRatio 0 ratio, Cmd.motorsSetRatio 1 ratio,
            Cmd.motorsSetRatio 2 ratio, Cmd.motorsSetRatio 3 ratio] s
    else if s.tick < 50 then
      if vbat < s.minLoadedVoltage then { s with minLoadedVoltage := vbat } else s
    else if s.tick = 50 then
      let s := emit [Cmd.motorsStop] s
      { s with testState := TestState.evaluateBatResult }
    else
      s
  { s with tick := (s.tick + 1) % 2 ^ 32 }

/-- Body of the branch `testState == restartBatTest`. -/
def restartBatTestBody (s : Health) : Health :=
  let old := s.tick
  let s : Health := { s with tick := (s.tick + 1) % 2 ^ 32 }
  if old > 2000 then
    let s := { s with testState := TestState.testBattery }
    { s with tick := 0 }
  else
    s

/-- Body of the branch `testState == evaluateBatResult`. -/
def evaluateBatResultBody (cfg : Config) (s : Health) : Health :=
  let s : Health := { s with batterySag := s.idleVoltage - s.minLoadedVoltage }
  let s : Health :=
    if s.batterySag > cfg.BAT_LOADING_SAG_THRESHOLD then
      { s with batteryPass := 0 }
    else
      { s with batteryPass := 1 }
  { s with testState := TestState.testDone }

/-- The three failure beeps of motor `m` (the loop over `j`; `n` iterations
remain). -/
def failBeeps (cfg : Config) (m : Nat) : Nat → Health → Health
  | 0, s => s
  | n + 1, s =>
    failBeeps cfg m n
      (emit [Cmd.motorsBeep m true, Cmd.vTaskDelay cfg.MOTORS_TEST_ON_TIME_MS,
             Cmd.motorsBeep m false, Cmd.vTaskDelay 100] s)

/-- One iteration, for motor `m`, of the loop over the motors of the branch
`evaluatePropResult`. -/
def evaluatePropIter (cfg : Config) (m : Nat) (s : Health) : Health :=
  let r := evaluatePropTest 0 s.propTestThreshold (s.accVarX m + s.accVarY m) m s
  let s : Health := r.2
  if !r.1 then
    let s : Health := { s with nrFailedTests := (s.nrFailedTests + 1) % 2 ^ 8 }
    failBeeps cfg m 3 s
  else
    s

/-- The loop over the motors of the branch `evaluatePropResult`: `n` iterations
remain and `m` is the loop index. -/
def evaluatePropLoop (cfg : Config) : Nat → Nat → Health → Health
  | 0, _, s => s
  | n + 1, m, s => evaluatePropLoop cfg n (m + 1) (evaluatePropIter cfg m s)

/-- The melody loop compiled in under `PLAY_STARTUP_MELODY_ON_MOTORS`. -/
def melodyLoop (cfg : Config) : Nat → Nat → Health → Health
  | 0, _, s => s
  | n + 1, m, s =>
    melodyLoop cfg n (m + 1)
      (emit [Cmd.motorsBeep m true, Cmd.vTaskDelay cfg.MOTORS_TEST_ON_TIME_MS,
             Cmd.motorsBeep m false, Cmd.vTaskDelay cfg.MOTORS_TEST_DELAY_TIME_MS] s)

/-- Body of the branch `testState == evaluatePropResult`. -/
def evaluatePropResultBody (cfg : Config) (s : Health) : Health :=
  let s := evaluatePropLoop cfg NBR_OF_MOTORS 0 s
  let s : Health :=
    if cfg.PLAY_STARTUP_MELODY_ON_MOTORS ∧ s.nrFailedTests = 0 then
      melodyLoop cfg NBR_OF_MOTORS 0 s
    else
      s
  let s : Health := { s with motorTestCount := (s.motorTestCount + 1) % 2 ^ 16 }
  { s with testState := TestState.testDone }

/-- `void healthRunTests(sensorData_t *sensors)`, with the battery voltage
`vbat` returned by `pmGetBatteryVoltage()` during this call. -/
def healthRunTests (cfg : Config) (sensors : SensorData) (vbat : ℚ) (s : Health) : Health :=
  let s := if s.testState = TestState.configureAcc then configureAccBody vbat s else s
  if s.testState = TestState.measureNoiseFloor then
    measureNoiseFloorBody sensors s
  else if s.testState = TestState.measureProp then
    measurePropBody cfg sensors vbat s
  else if s.testState = TestState.testBattery then
    testBatteryBody cfg vbat s
  else if s.testState = TestState.restartBatTest then
    restartBatTestBody s
  else if s.testState = TestState.evaluateBatResult then
    evaluateBatResultBody cfg s
  else if s.testState = TestState.evaluatePropResult then
    evaluatePropResultBody cfg s
  else
    s

/-! ## Executions -/

/-- The static initialisers of `health.c`.  `thr`, `propRatio` and `batRatio`
are the configured defaults `HEALTH_PROPELLER_TEST_THRESHOLD`,
`CONFIG_MOTORS_DEFAULT_PROP_TEST_PWM_RATIO` and
`CONFIG_MOTORS_DEFAULT_BAT_TEST_PWM_RATIO`; `atStartup` tells whether
`RUN_PROP_TEST_AT_STARTUP` is defined.  Variables without an initialiser are
zero. -/
def initHealth (thr : ℚ) (propRatio batRatio : Nat) (atStartup : Bool) : Health where
  startPropTest := false
  startBatTest := false
  propTestThreshold := thr
  propTestPWMRatio := propRatio
  batTestPWMRatio := batRatio
  tick := 0
  accX := fun _ => 0
  accY := fun _ => 0
  accZ := fun _ => 0
  accVarXnf := 0
  accVarYnf := 0
  accVarZnf := 0
  motorToTest := 0
  nrFailedTests := 0
  idleVoltage := 0
  minSingleLoadedVoltage := fun _ => 0
  minLoadedVoltage := 0
  accVarX := fun _ => 0
  accVarY := fun _ => 0
  accVarZ := fun _ => 0
  motorPass := 0
  motorTestCount := 0
  batteryPass := 0
  batterySag := 0
  testState := if atStartup then TestState.configureAcc else TestState.testDone
  cmds := []

/-- A profile table that gives every motor the same profile. -/
def constProfile (onP offP startP : Fin 65536) : Nat → MotorHealthTestDef :=
  fun _ =>
    { onPeriodMsec := onP, offPeriodMsec := offP, varianceMeasurementStartMsec := startP,
      onPeriodPWMRatioProp := 0, onPeriodPWMRatioBat := 0 }

/-- A configuration used for concrete evaluations: every motor has the
profile `(onP, offP, startP)` and the sag threshold is `sag`. -/
def exampleConfig (onP offP startP : Fin 65536) (sag : ℚ) : Config where
  motorsGetHealthTestSettings := constProfile onP offP startP
  BAT_LOADING_SAG_THRESHOLD := sag
  MOTORS_TEST_ON_TIME_MS := 0
  MOTORS_TEST_DELAY_TIME_MS := 0
  PLAY_STARTUP_MELODY_ON_MOTORS := false

/-- State after `n` successive calls of `healthRunTests`, the call number `k`
(counted from 0) reading the sample `sensors k` and the voltage `vbat k`. -/
def runCalls (cfg : Config) (sensors : Nat → SensorData) (vbat : Nat → ℚ) (s : Health) :
    Nat → Health
  | 0 => s
  | n + 1 => healthRunTests cfg (sensors n) (vbat n) (runCalls cfg sensors vbat s n)

/-- The surroundings of one control tick: what the parameter channel writes
to each trigger flag before the tick (`none` when it does not write the flag),
and the accelerometer sample and the battery voltage that the tick reads. -/
structure TickInput where
  startPropTest : Option Bool
  startBatTest : Option Bool
  sensors : SensorData
  vbat : ℚ

/-- Modelled from the spec: the parameter channel is not among the sources.
Between two ticks it may write either trigger flag with any value; a flag it
does not write keeps the value the module left in it. -/
def paramWrite (inp : TickInput) (s : Health) : Health :=
  { s with startPropTest := inp.startPropTest.getD s.startPropTest,
           startBatTest := inp.startBatTest.getD s.startBatTest }

/-- Modelled from the spec: the scheduler that calls the module is not among
the sources.  One control tick: `healthShallWeRunTest` is called and, when it
returns true, `healthRunTests` is called.  The scheduler does not touch the
trigger flags. -/
def schedulerTick (cfg : Config) (sensors : SensorData) (vbat : ℚ) (s : Health) : Health :=
  let r := healthShallWeRunTest s
  if r.1 then healthRunTests cfg sensors vbat r.2 else r.2

/-- State after `n` control ticks: before tick number `k` (counted from 0) the
parameter channel makes the writes of `inp k`, then the tick runs with the
sample and the voltage of `inp k`. -/
def runTicks (cfg : Config) (inp : Nat → TickInput) (s : Health) : Nat → Health
  | 0 => s
  | n + 1 =>
    schedulerTick cfg (inp n).sensors (inp n).vbat (paramWrite (inp n) (runTicks cfg inp s n))

/-! ## Auxiliary definitions used in the statements -/

/-- The condition under which a call `evaluatePropTest(0, thr, v, m)` reaches
the statement `motorPass |= (1 << motor)`: neither of the two early returns
is taken. -/
def reachesPassBit (thr v : ℚ) : Bool :=
  decide (¬ (thr ≠ 0 ∧ (v < 0 ∨ v > thr)) ∧ ¬ (thr ≠ 0 ∧ (v > 0 ∧ v < thr)))

/-- A state in `evaluatePropResult` with threshold 10 and X+Y variances
10, 2, 11 and 0 for the motors 0 to 3. -/
def evalPropExample : Health :=
  { initHealth 10 0 0 false with
    testState := TestState.evaluatePropResult
    accVarX := fun m => if m = 0 then 10 else if m = 1 then 2 else if m = 2 then 11 else 0 }

/-- The minimum of `v 0` and of the readings `v t` with `2 <= t < k`. -/
def minLoadedUpTo (v : Nat → ℚ) : Nat → ℚ
  | 0 => v 0
  | k + 1 => if 2 ≤ k then min (minLoadedUpTo v k) (v k) else minLoadedUpTo v k

/-- A state in `evaluateBatResult` with the given idle and minimum loaded
voltages. -/
def evalBatExample (idle minLoaded : ℚ) : Health :=
  { initHealth 10 0 0 false with
    testState := TestState.evaluateBatResult
    idleVoltage := idle
    minLoadedVoltage := minLoaded }

/-- The order of a test run, as a relation between the state `a` at the start
of a control tick and the state `b` at its end: a propeller test goes through
`measureNoiseFloor`, then `measureProp` starting at motor 0 and advancing one
motor at a time, then `evaluatePropResult` after the last motor, then
`testDone`; a battery test goes through `testBattery`, then
`evaluateBatResult`, then `testDone`.  From `testDone` a run may start. -/
def inOrder (a b : Health) : Prop :=
  match a.testState with
  | TestState.testDone =>
    b.testState = TestState.testDone ∨ b.testState = TestState.measureNoiseFloor
      ∨ b.testState = TestState.testBattery
  | TestState.configureAcc => b.testState = TestState.measureNoiseFloor
  | TestState.measureNoiseFloor =>
    b.testState = TestState.measureNoiseFloor
      ∨ (b.testState = TestState.measureProp ∧ b.motorToTest = 0)
  | TestState.measureProp =>
    (b.testState = TestState.measureProp
        ∧ (b.motorToTest = a.motorToTest ∨ b.motorToTest = a.motorToTest + 1)
        ∧ b.motorToTest < (NBR_OF_MOTORS : Int))
      ∨ (b.testState = TestState.evaluatePropResult
          ∧ a.motorToTest = (NBR_OF_MOTORS : Int) - 1)
  | TestState.evaluatePropResult => b.testState = TestState.testDone
  | TestState.testBattery =>
    b.testState = TestState.testBattery ∨ b.testState = TestState.evaluateBatResult
  | TestState.evaluateBatResult => b.testState = TestState.testDone
  | TestState.restartBatTest =>
    b.testState = TestState.restartBatTest ∨ b.testState = TestState.testBattery

instance inOrderDecidable (a b : Health) : Decidable (inOrder a b) := by
  unfold inOrder
  split <;> exact inferInstance

/-- What holds at the start of every control tick of an execution in which the
trigger flags are only set while the state is `testDone`. -/
def runInvariant (s : Health) : Prop :=
  s.testState ≠ TestState.restartBatTest
    ∧ 0 ≤ s.motorToTest ∧ s.motorToTest < (NBR_OF_MOTORS : Int)
    ∧ (s.testState ≠ TestState.measureProp → s.motorToTest = 0)
    ∧ (s.testState = TestState.testBattery → s.tick ≤ 50)
    ∧ (s.testState ≠ TestState.testBattery → s.testState ≠ TestState.measureProp →
        s.testState ≠ TestState.measureNoiseFloor → s.tick ≤ 51)

/-- Inputs that set `startPropTest` before tick 0 and `startBatTest` before
tick 1, and write no flag otherwise. -/
def abortInputs : Nat → TickInput :=
  fun k =>
    { startPropTest := if k = 0 then some true else none,
      startBatTest := if k = 1 then some true else none,
      sensors := ⟨⟨0, 0, 1⟩⟩, vbat := 4 }

/-- Inputs that set `startPropTest` before tick 0 and write no flag
afterwards. -/
def propOnceInputs : Nat → TickInput :=
  fun k =>
    { startPropTest := if k = 0 then some true else none, startBatTest := none,
      sensors := ⟨⟨0, 0, 1⟩⟩, vbat := 4 }

/-- Inputs that set both trigger flags before tick 0, while the state is
`testDone`, and write no flag afterwards. -/
def bothOnceInputs : Nat → TickInput :=
  fun k =>
    { startPropTest := if k = 0 then some true else none,
      startBatTest := if k = 0 then some true else none,
      sensors := ⟨⟨0, 0, 1⟩⟩, vbat := 4 }

/-- A state in `configureAcc` with `tick = 0`: the initial state when
`RUN_PROP_TEST_AT_STARTUP` is defined. -/
def propStartExample : Health := initHealth 10 0 0 true

/-- A state in `measureProp` with `tick = 0` and `motorToTest = m`. -/
def measureStartExample (m : Nat) : Health :=
  { initHealth 10 0 0 false with testState := TestState.measureProp, motorToTest := (m : Int) }

/-- A state in `testBattery` with `tick = 0`. -/
def batteryStartExample : Health :=
  { initHealth 10 0 0 false with testState := TestState.testBattery }

/-- The idle state with the trigger flags set to the given values. -/
def flagsExample (prop bat : Bool) : Health :=
  { initHealth 10 0 0 false with startPropTest := prop, startBatTest := bat, tick := 7 }

/-- Whether the call `evaluatePropTest(0, propTestThreshold, accVarX[m] +
accVarY[m], m)` made in state `s` returns false. -/
def motorFails (s : Health) (m : Nat) : Bool :=
  !(evaluatePropTest 0 s.propTestThreshold (s.accVarX m + s.accVarY m) m s).1

/-- The collaborator calls of one beep of motor `m` followed by a delay of
`pause` milliseconds. -/
def beepCmds (cfg : Config) (m pause : Nat) : List Cmd :=
  [Cmd.motorsBeep m true, Cmd.vTaskDelay cfg.MOTORS_TEST_ON_TIME_MS,
   Cmd.motorsBeep m false, Cmd.vTaskDelay pause]

/-- The three failure beeps of motor `m`. -/
def failureBeepCmds (cfg : Config) (m : Nat) : List Cmd :=
  (List.replicate 3 (beepCmds cfg m 100)).flatten

/-- One step of an arbitrary use of the module: the parameter channel writes
the two trigger flags, or one of the two entry points is called. -/
inductive Call
  | setFlags (prop bat : Bool)
  | shallWeRunTest
  | runTests (sensors : SensorData) (vbat : ℚ)

/-- The state after one step of an arbitrary use of the module. -/
def applyCall (cfg : Config) (s : Health) : Call → Health
  | Call.setFlags prop bat => { s with startPropTest := prop, startBatTest := bat }
  | Call.shallWeRunTest => (healthShallWeRunTest s).2
  | Call.runTests sensors vbat => healthRunTests cfg sensors vbat s

/-- The state after a sequence of steps, in order. -/
def applyCalls (cfg : Config) (s : Health) (cs : List Call) : Health :=
  cs.foldl (applyCall cfg) s

/-- One hundred calls of `healthRunTests` with the sample `(0, 0, 1)` and
4 V: from the startup state they carry the sequencer through the noise floor. -/
def noiseFloorCalls : List Call :=
  List.replicate 100 (Call.runTests ⟨⟨0, 0, 1⟩⟩ 4)

/-- The state in which `healthRunTests` is called during the control tick that
follows the writes of `inp` made in state `s`, when `healthShallWeRunTest`
returns true. -/
def runTestsCallState (inp : TickInput) (s : Health) : Option Health :=
  let r := healthShallWeRunTest (paramWrite inp s)
  if r.1 then some r.2 else none

/-- The index `tick` at which a call of `healthRunTests` made in state `s`
writes `accX`, `accY` and `accZ` in the branch `measureNoiseFloor`, when the
call executes that branch (directly, or after the branch `configureAcc`). -/
def noiseFloorWriteIndex (s : Health) : Option Nat :=
  let s : Health := if s.testState = TestState.configureAcc then configureAccBody 0 s else s
  if s.testState = TestState.measureNoiseFloor then some s.tick else none

/-- Inputs that set `startBatTest` before tick 0 and `startPropTest` before
tick 52, when the battery test has finished, and write no flag otherwise. -/
def batThenPropInputs : Nat → TickInput :=
  fun k =>
    { startPropTest := if k = 52 then some true else none,
      startBatTest := if k = 0 then some true else none,
      sensors := ⟨⟨0, 0, 1⟩⟩, vbat := 4 }

/-- Inputs that set `startPropTest` before tick 0 and again before tick 201,
when the first motor has been under test for 101 ticks, and write no flag
otherwise. -/
def retriggerInputs : Nat → TickInput :=
  fun k =>
    { startPropTest := if k = 0 ∨ k = 201 then some true else none, startBatTest := none,
      sensors := ⟨⟨0, 0, 1⟩⟩, vbat := 4 }

/-- Sensor readings whose x sample at call `k` is `k`, with y = 0 and z = 1. -/
def rampSensors : Nat → SensorData :=
  fun k => ⟨⟨(k : ℚ), 0, 1⟩⟩

/-- Modelled from the spec: the motor driver (`motors.c`) is not part of the
sources at hand.  `motorsSetRatio(id, ratio)` commands the ratio `ratio` for
motor `id`, `motorsStop()` commands ratio 0 for every motor, and the other
collaborator calls leave the commanded ratios as they are. -/
def applyCmd (ratios : Nat → Nat) : Cmd → (Nat → Nat)
  | Cmd.motorsSetRatio id ratio => Function.update ratios id ratio
  | Cmd.motorsStop => fun _ => 0
  | Cmd.sensorsSetAccMode _ => ratios
  | Cmd.motorsBeep _ _ => ratios
  | Cmd.vTaskDelay _ => ratios

/-- The commanded ratio of every motor after the collaborator calls `cmds`,
made in order from the commanded ratios `ratios`. -/
def motorRatios (ratios : Nat → Nat) (cmds : List Cmd) : Nat → Nat :=
  cmds.foldl applyCmd ratios

/-- The startup state `configureAcc`, `tick = 0`, with the test ratio
override `propTestPWMRatio = 30000`. -/
def propStartRatioExample : Health := initHealth 10 30000 0 true
/-- What holds after every call of an uninterrupted propeller test when each
profile has `onPeriodMsec >= 2`: outside `measureProp` every commanded ratio
is 0; in `measureProp` every motor but the one under test has ratio 0, and the
motor under test has ratio 0 when its phase begins and from the tick
`onPeriodMsec` on. -/
def ratioInvariant (cfg : Config) (ratios : Nat → Nat) (s : Health) : Prop :=
  (s.testState = TestState.measureNoiseFloor ∨ s.testState = TestState.measureProp
      ∨ s.testState = TestState.evaluatePropResult ∨ s.testState = TestState.testDone)
    ∧ (s.testState ≠ TestState.measureProp → ∀ j, motorRatios ratios s.cmds j = 0)
    ∧ (s.testState = TestState.measureProp →
        (∀ j, j ≠ s.motorToTest.toNat → motorRatios ratios s.cmds j = 0)
          ∧ s.tick ≤ (cfg.motorsGetHealthTestSettings s.motorToTest.toNat).onPeriodMsec.val
                      + (cfg.motorsGetHealthTestSettings s.motorToTest.toNat).offPeriodMsec.val
          ∧ ((s.tick = 0
                ∨ (cfg.motorsGetHealthTestSettings s.motorToTest.toNat).onPeriodMsec.val ≤ s.tick) →
              motorRatios ratios s.cmds s.motorToTest.toNat = 0))

/-- The state `s` with the sample buffers and the noise-floor variances
replaced. -/
def withScratch (s : Health) (x y z : Nat → ℚ) (nx ny nz : ℚ) : Health :=
  { s with accX := x, accY := y, accZ := z, accVarXnf := nx, accVarYnf := ny, accVarZnf := nz }

/-- The states `a` and `b` agree on every variable except the sample buffers
`accX`, `accY`, `accZ` and the noise-floor variances. -/
def sameOutcome (a b : Health) : Prop :=
  ∃ x y z nx ny nz, b = withScratch a x y z nx ny nz
/-- In `measureProp`, the sample buffers of `a` and `b` agree on the window
positions below the current `sampleIndex` of the motor under test. -/
def windowAgrees (cfg : Config) (a b : Health) : Prop :=
  a.testState = TestState.measureProp →
    ∀ i : Nat, i < PROPTEST_NBR_OF_VARIANCE_VALUES →
      (i : Int) < toInt32 a.tick
          - ((cfg.motorsGetHealthTestSettings
                a.motorToTest.toNat).varianceMeasurementStartMsec.val : Int) →
      a.accX i = b.accX i ∧ a.accY i = b.accY i ∧ a.accZ i = b.accZ i

/-- Number of calls `measureProp` spends on a motor with the profile `p`,
counted from `tick = 0`: the first call after which the branch
`tick >= onPeriodMsec + offPeriodMsec` of the else-if chain is taken. -/
def phaseCalls (p : MotorHealthTestDef) : Nat :=
  if p.onPeriodMsec.val = 0 then max 1 p.offPeriodMsec.val
  else if p.offPeriodMsec.val = 0 then p.onPeriodMsec.val + 1
  else p.onPeriodMsec.val + p.offPeriodMsec.val

/-- Accelerometer samples for a two-run comparison: during the 100 calls of
the noise floor the x axis reads `amp * k`, afterwards the samples are those of
`rampSensors` whatever `amp` is. -/
def noisySensors (amp : ℚ) : Nat → SensorData :=
  fun k => if k < PROPTEST_NBR_OF_VARIANCE_VALUES then ⟨⟨amp * (k : ℚ), 0, 1⟩⟩ else rampSensors k

/-! ## Executions: unfolding one call -/

theorem runCalls_succ (cfg : Config) (sensors : Nat → SensorData) (vbat : Nat → ℚ) (s : Health)
    (n : Nat) :
    runCalls cfg sensors vbat s (n + 1)
      = healthRunTests cfg (sensors n) (vbat n) (runCalls cfg sensors vbat s n) := rfl

/-! ## `variance` computes the formula of the specification -/

theorem varianceLoop_eq (buffer : Nat → ℚ) (n i : Nat) (sum sumSq : ℚ) :
    varianceLoop buffer n i sum sumSq =
      (sum + ∑ j ∈ Finset.range n, buffer (i + j),
       sumSq + ∑ j ∈ Finset.range n, buffer (i + j) ^ 2) := by
  induction n generalizing i sum sumSq with
  | zero => simp [varianceLoop]
  | succ n ih =>
    rw [varianceLoop, ih, Finset.sum_range_succ', Finset.sum_range_succ']
    simp only [Nat.add_zero, Prod.mk.injEq]
    constructor
    · have : ∀ j, buffer (i + 1 + j) = buffer (i + (j + 1)) := fun j => by
        rw [Nat.add_assoc, Nat.add_comm 1 j]
      simp only [this]; ring
    · have : ∀ j, buffer (i + 1 + j) = buffer (i + (j + 1)) := fun j => by
        rw [Nat.add_assoc, Nat.add_comm 1 j]
      simp only [this]; ring

theorem variance_eq (buffer : Nat → ℚ) (N : Nat) : variance buffer N = varianceSpec buffer N := by
  simp only [variance, varianceSpec, varianceLoop_eq, Nat.zero_add, zero_add]
  ring

/-- Claim C3: for a buffer of `N >= 1` samples, `variance(buffer, N)` returns
`sum(x_i^2) - (sum(x_i))^2 / N`; the two sums are the accumulators of the single
loop over the indices `0 .. N-1` in increasing order. -/
theorem variance_formula (buffer : Nat → ℚ) (N : Nat) (hN : 1 ≤ N) :
    (N : ℚ) ≠ 0
      ∧ variance buffer N
        = (∑ i ∈ Finset.range N, buffer i ^ 2) - (∑ i ∈ Finset.range N, buffer i) ^ 2 / (N : ℚ)
      ∧ varianceLoop buffer N 0 0 0
          = (∑ i ∈ Finset.range N, buffer i, ∑ i ∈ Finset.range N, buffer i ^ 2) := by
  refine ⟨?_, ?_, ?_⟩
  · exact_mod_cast (by omega : N ≠ 0)
  · rw [variance_eq]; rfl
  · simp [varianceLoop_eq]

theorem variance_formula_witness :
    (1 ≤ 3)
      ∧ ((3 : ℚ) ≠ 0
        ∧ variance (fun i => (i : ℚ)) 3
          = (∑ i ∈ Finset.range 3, ((i : ℚ)) ^ 2) - (∑ i ∈ Finset.range 3, (i : ℚ)) ^ 2 / (3 : ℚ)
        ∧ varianceLoop (fun i => (i : ℚ)) 3 0 0 0
          = (∑ i ∈ Finset.range 3, (i : ℚ), ∑ i ∈ Finset.range 3, ((i : ℚ)) ^ 2)) :=
  ⟨by decide, variance_formula (fun i => (i : ℚ)) 3 (by decide)⟩

/-! ## `evaluatePropTest` and the branch `evaluatePropResult` -/

theorem evaluatePropTest_fst (low high value : ℚ) (motor : Nat) (s : Health) :
    (evaluatePropTest low high value motor s).1 = true
      ↔ (high = 0 ∨ (low ≤ value ∧ value ≤ high)) := by
  unfold evaluatePropTest
  dsimp only
  by_cases hh : high = 0
  · simp [hh]
  · rw [if_pos hh]
    by_cases h1 : value < low ∨ value > high
    · rw [if_pos h1]
      simp only [Bool.false_eq_true, false_iff, not_or, not_and, not_le]
      refine ⟨hh, fun hl => ?_⟩
      rcases h1 with hv | hv
      · exact absurd hl (not_le.mpr hv)
      · exact hv
    · rw [if_neg h1]
      have h1b : low ≤ value ∧ value ≤ high := by
        simp only [not_or, not_lt] at h1
        exact h1
      by_cases h2 : value > low ∧ value < high
      · rw [if_pos h2]
        simp only [true_iff]
        exact Or.inr h1b
      · rw [if_neg h2]
        simp only [true_iff]
        exact Or.inr h1b

theorem evaluatePropTest_snd (thr v : ℚ) (motor : Nat) (s : Health) :
    (evaluatePropTest 0 thr v motor s).2
      = if reachesPassBit thr v then
          { s with motorPass := (s.motorPass ||| (1 <<< (motor % 256))) % 256 }
        else s := by
  unfold evaluatePropTest reachesPassBit
  dsimp only
  by_cases hh : thr = 0
  · simp [hh]
  · rw [if_pos hh]
    by_cases h1 : v < 0 ∨ v > thr
    · rw [if_pos h1]
      simp [hh, h1]
    · rw [if_neg h1]
      by_cases h2 : v > 0 ∧ v < thr
      · rw [if_pos h2]
        simp [hh, h2]
      · rw [if_neg h2]
        have : decide (¬ (thr ≠ 0 ∧ (v < 0 ∨ v > thr)) ∧ ¬ (thr ≠ 0 ∧ (v > 0 ∧ v < thr))) = true := by
          rw [decide_eq_true_iff]
          exact ⟨fun h => h1 h.2, fun h => h2 h.2⟩
        rw [this]
        rfl

theorem failBeeps_eq (cfg : Config) (m n : Nat) (s : Health) :
    failBeeps cfg m n s
      = emit (List.replicate n [Cmd.motorsBeep m true, Cmd.vTaskDelay cfg.MOTORS_TEST_ON_TIME_MS,
          Cmd.motorsBeep m false, Cmd.vTaskDelay 100]).flatten s := by
  induction n generalizing s with
  | zero => simp [failBeeps, emit]
  | succ n ih =>
    rw [failBeeps, ih]
    simp [emit, List.replicate_succ]

theorem melodyLoop_fields (cfg : Config) (n m : Nat) (s : Health) :
    ∃ cs, melodyLoop cfg n m s = emit cs s := by
  induction n generalizing m s with
  | zero => exact ⟨[], by simp [melodyLoop, emit]⟩
  | succ n ih =>
    obtain ⟨cs, hcs⟩ := ih (m + 1) (emit [Cmd.motorsBeep m true,
      Cmd.vTaskDelay cfg.MOTORS_TEST_ON_TIME_MS, Cmd.motorsBeep m false,
      Cmd.vTaskDelay cfg.MOTORS_TEST_DELAY_TIME_MS] s)
    exact ⟨_, by rw [melodyLoop, hcs]; simp [emit]; rfl⟩

theorem testBit_setBit (a m k : Nat) (hm : m < 8) (ha : a < 256) :
    ((a ||| (1 <<< (m % 256))) % 256).testBit k = (a.testBit k || decide (k = m)) := by
  have hm' : m % 256 = m := Nat.mod_eq_of_lt (by omega)
  rw [hm', show (256 : Nat) = 2 ^ 8 from rfl, Nat.testBit_mod_two_pow, Nat.testBit_or,
    Nat.one_shiftLeft, Nat.testBit_two_pow]
  by_cases hk : k < 8
  · simp [hk, eq_comm]
  · have : a.testBit k = false := Nat.testBit_lt_two_pow (by
      calc a < 256 := ha
        _ = 2 ^ 8 := rfl
        _ ≤ 2 ^ k := Nat.pow_le_pow_right (by decide) (by omega))
    have hne : ¬ m = k := by omega
    have hne' : ¬ k = m := by omega
    simp [hk, this, hne, hne']

theorem evaluatePropIter_fields (cfg : Config) (m : Nat) (s : Health) :
    (evaluatePropIter cfg m s).propTestThreshold = s.propTestThreshold
      ∧ (evaluatePropIter cfg m s).accVarX = s.accVarX
      ∧ (evaluatePropIter cfg m s).accVarY = s.accVarY
      ∧ (evaluatePropIter cfg m s).motorPass
          = if reachesPassBit s.propTestThreshold (s.accVarX m + s.accVarY m) then
              (s.motorPass ||| (1 <<< (m % 256))) % 256
            else s.motorPass := by
  unfold evaluatePropIter
  simp only [failBeeps_eq, evaluatePropTest_snd]
  split_ifs <;> simp [emit]

theorem evaluatePropLoop_motorPass (cfg : Config) (n : Nat) :
    ∀ (m0 : Nat) (s : Health), s.motorPass < 256 → m0 + n ≤ 8 →
      (evaluatePropLoop cfg n m0 s).motorPass < 256
        ∧ ∀ k, (evaluatePropLoop cfg n m0 s).motorPass.testBit k
            = (s.motorPass.testBit k
                || (decide (m0 ≤ k ∧ k < m0 + n)
                    && reachesPassBit s.propTestThreshold (s.accVarX k + s.accVarY k))) := by
  induction n with
  | zero => intro m0 s hs _; simp [evaluatePropLoop, hs]
  | succ n ih =>
    intro m0 s hs hb
    obtain ⟨h1, h2, h3, h4⟩ := evaluatePropIter_fields cfg m0 s
    have hlt : (evaluatePropIter cfg m0 s).motorPass < 256 := by
      rw [h4]; split_ifs
      · exact Nat.mod_lt _ (by decide)
      · exact hs
    obtain ⟨ih1, ih2⟩ := ih (m0 + 1) (evaluatePropIter cfg m0 s) hlt (by omega)
    rw [evaluatePropLoop]
    refine ⟨ih1, fun k => ?_⟩
    rw [ih2 k, h1, h2, h3, h4]
    by_cases hk : k = m0
    · subst hk
      by_cases hr : reachesPassBit s.propTestThreshold (s.accVarX k + s.accVarY k) = true
      · simp [hr, testBit_setBit _ _ _ (show k < 8 by omega) hs]
      · simp [hr]
    · by_cases hr : reachesPassBit s.propTestThreshold (s.accVarX m0 + s.accVarY m0) = true
      · have e1 : decide (m0 + 1 ≤ k ∧ k < m0 + 1 + n) = decide (m0 ≤ k ∧ k < m0 + (n + 1)) := by
          apply decide_eq_decide.mpr; omega
        simp [hr, testBit_setBit _ _ _ (show m0 < 8 by omega) hs, hk, e1]
      · have e1 : decide (m0 + 1 ≤ k ∧ k < m0 + 1 + n) = decide (m0 ≤ k ∧ k < m0 + (n + 1)) := by
          apply decide_eq_decide.mpr; omega
        simp [hr, e1]

theorem healthRunTests_evaluatePropResult (cfg : Config) (sensors : SensorData) (vbat : ℚ)
    (s : Health) (h : s.testState = TestState.evaluatePropResult) :
    healthRunTests cfg sensors vbat s = evaluatePropResultBody cfg s := by
  simp [healthRunTests, h]

theorem evaluatePropLoop_frame (cfg : Config) (n : Nat) :
    ∀ (m0 : Nat) (s : Health),
      (evaluatePropLoop cfg n m0 s).propTestThreshold = s.propTestThreshold
        ∧ (evaluatePropLoop cfg n m0 s).accVarX = s.accVarX
        ∧ (evaluatePropLoop cfg n m0 s).accVarY = s.accVarY := by
  induction n with
  | zero => intro m0 s; simp [evaluatePropLoop]
  | succ n ih =>
    intro m0 s
    obtain ⟨h1, h2, h3, _⟩ := evaluatePropIter_fields cfg m0 s
    obtain ⟨i1, i2, i3⟩ := ih (m0 + 1) (evaluatePropIter cfg m0 s)
    rw [evaluatePropLoop]
    exact ⟨i1.trans h1, i2.trans h2, i3.trans h3⟩

theorem evaluatePropResultBody_motorPass (cfg : Config) (s : Health) :
    (evaluatePropResultBody cfg s).motorPass
      = (evaluatePropLoop cfg NBR_OF_MOTORS 0 s).motorPass := by
  unfold evaluatePropResultBody
  obtain ⟨cs, hcs⟩ := melodyLoop_fields cfg NBR_OF_MOTORS 0 (evaluatePropLoop cfg NBR_OF_MOTORS 0 s)
  simp only [hcs]
  split_ifs <;> simp [emit]

theorem evaluatePropResult_testBit (cfg : Config) (sensors : SensorData) (vbat : ℚ)
    (s : Health) (hst : s.testState = TestState.evaluatePropResult) (hmp : s.motorPass = 0)
    (m : Nat) (hm : m < NBR_OF_MOTORS) :
    (healthRunTests cfg sensors vbat s).motorPass.testBit m
      = reachesPassBit s.propTestThreshold (s.accVarX m + s.accVarY m) := by
  rw [healthRunTests_evaluatePropResult cfg sensors vbat s hst, evaluatePropResultBody_motorPass,
    (evaluatePropLoop_motorPass cfg NBR_OF_MOTORS 0 s (by omega) (by decide)).2 m, hmp]
  simp [hm]

/-- Claim C1, as the code has it: after the branch `evaluatePropResult` has run
with `motorPass` cleared, bit `m` of `motorPass` is set when the threshold is 0,
and when the threshold is positive and the X+Y variance of motor `m` is exactly
0 or exactly the threshold; it is clear when the threshold is not 0 and the
variance is below 0 or above the threshold. -/
theorem evaluatePropResult_motorPass (cfg : Config) (sensors : SensorData) (vbat : ℚ)
    (s : Health) (hst : s.testState = TestState.evaluatePropResult) (hmp : s.motorPass = 0)
    (m : Nat) (hm : m < NBR_OF_MOTORS) :
    (s.propTestThreshold = 0 →
        (healthRunTests cfg sensors vbat s).motorPass.testBit m = true)
      ∧ (0 < s.propTestThreshold →
          (s.accVarX m + s.accVarY m = 0 ∨ s.accVarX m + s.accVarY m = s.propTestThreshold) →
          (healthRunTests cfg sensors vbat s).motorPass.testBit m = true)
      ∧ (s.propTestThreshold ≠ 0 →
          (s.accVarX m + s.accVarY m < 0 ∨ s.propTestThreshold < s.accVarX m + s.accVarY m) →
          (healthRunTests cfg sensors vbat s).motorPass.testBit m = false) := by
  rw [evaluatePropResult_testBit cfg sensors vbat s hst hmp m hm]
  unfold reachesPassBit
  refine ⟨fun h0 => ?_, fun hpos hv => ?_, fun hne hv => ?_⟩
  · simp [h0]
  · rcases hv with hv | hv
    · simp [hv, not_lt.mpr (le_of_lt hpos)]
    · simp [hv, not_lt.mpr (le_of_lt hpos)]
  · simp only [decide_eq_false_iff_not, not_and, not_not]
    intro h
    exact absurd hv (h hne)

theorem evaluatePropResult_motorPass_witness :
    evalPropExample.testState = TestState.evaluatePropResult ∧ evalPropExample.motorPass = 0
      ∧ 0 < NBR_OF_MOTORS
      ∧ (healthRunTests (exampleConfig 50 50 0 (1 / 2)) ⟨⟨0, 0, 1⟩⟩ 4 evalPropExample).motorPass.testBit 0
          = true := by
  refine ⟨rfl, rfl, by decide, ?_⟩
  exact (evaluatePropResult_motorPass (exampleConfig 50 50 0 (1 / 2)) ⟨⟨0, 0, 1⟩⟩ 4
    evalPropExample rfl rfl 0 (by decide)).2.1
    (by norm_num [evalPropExample, initHealth]) (Or.inr (by norm_num [evalPropExample, initHealth]))

/-- Claim C1 fails on the code: with threshold 10, motor 0 has X+Y variance
exactly 10, not strictly inside `(0, 10)`, and its bit is set; motor 1 has
variance 2, strictly inside `(0, 10)`, and its bit stays clear. -/
theorem evaluatePropResult_motorPass_counterexample :
    evalPropExample.testState = TestState.evaluatePropResult ∧ evalPropExample.motorPass = 0
      ∧ ((healthRunTests (exampleConfig 50 50 0 (1 / 2)) ⟨⟨0, 0, 1⟩⟩ 4
              evalPropExample).motorPass.testBit 0 = true
          ∧ ¬ (evalPropExample.propTestThreshold = 0
                ∨ (0 < evalPropExample.accVarX 0 + evalPropExample.accVarY 0
                    ∧ evalPropExample.accVarX 0 + evalPropExample.accVarY 0
                        < evalPropExample.propTestThreshold)))
      ∧ ((healthRunTests (exampleConfig 50 50 0 (1 / 2)) ⟨⟨0, 0, 1⟩⟩ 4
              evalPropExample).motorPass.testBit 1 = false
          ∧ (evalPropExample.propTestThreshold = 0
                ∨ (0 < evalPropExample.accVarX 1 + evalPropExample.accVarY 1
                    ∧ evalPropExample.accVarX 1 + evalPropExample.accVarY 1
                        < evalPropExample.propTestThreshold))) := by
  refine ⟨rfl, rfl, ⟨?_, ?_⟩, ⟨?_, ?_⟩⟩
  · rw [evaluatePropResult_testBit _ _ _ _ rfl rfl 0 (by decide)]
    norm_num [evalPropExample, initHealth, reachesPassBit]
  · norm_num [evalPropExample, initHealth]
  · rw [evaluatePropResult_testBit _ _ _ _ rfl rfl 1 (by decide)]
    norm_num [evalPropExample, initHealth, reachesPassBit]
  · norm_num [evalPropExample, initHealth]

/-- Claim C2, as the code has it: `evaluatePropTest(0, high, value, motor)`
returns true exactly when `high` is 0 or `0 <= value <= high`, so a value on a
boundary passes: `(0, 10, 10)` and `(0, 10, 9.999)` return true and
`(0, 10, 10.001)` returns false. -/
theorem evaluatePropTest_returns (s : Health) (high value : ℚ) (motor : Nat) :
    (evaluatePropTest 0 0 value motor s).1 = true
      ∧ ((evaluatePropTest 0 high value motor s).1 = true
          ↔ (high = 0 ∨ (0 ≤ value ∧ value ≤ high)))
      ∧ (evaluatePropTest 0 10 10 motor s).1 = true
      ∧ (evaluatePropTest 0 10 (9999 / 1000) motor s).1 = true
      ∧ (evaluatePropTest 0 10 (10001 / 1000) motor s).1 = false := by
  refine ⟨?_, evaluatePropTest_fst 0 high value motor s, ?_, ?_, ?_⟩
  · exact (evaluatePropTest_fst 0 0 value motor s).mpr (Or.inl rfl)
  · exact (evaluatePropTest_fst 0 10 10 motor s).mpr (Or.inr (by norm_num))
  · exact (evaluatePropTest_fst 0 10 (9999 / 1000) motor s).mpr (Or.inr (by norm_num))
  · have := (evaluatePropTest_fst 0 10 (10001 / 1000) motor s).not
    rw [Bool.not_eq_true] at this
    exact this.mpr (by norm_num)

/-- Claim C2 fails on the code at the boundary: `evaluatePropTest(0, 10, 10, 0)`
returns true although `10 < 10` is false. -/
theorem evaluatePropTest_returns_counterexample :
    (evaluatePropTest 0 10 10 0 (initHealth 10 0 0 false)).1 ≠ false
      ∧ ((10 : ℚ) ≠ 0
        ∧ ¬ ((evaluatePropTest 0 10 10 0 (initHealth 10 0 0 false)).1 = true
              ↔ ((0 : ℚ) < 10 ∧ (10 : ℚ) < 10))) := by
  have h : (evaluatePropTest 0 10 10 0 (initHealth 10 0 0 false)).1 = true :=
    (evaluatePropTest_fst 0 10 10 0 _).mpr (Or.inr (by norm_num))
  refine ⟨by rw [h]; decide, by norm_num, ?_⟩
  rw [h]; norm_num

/-! ## Battery evaluation, trigger arbiter and the idle state -/

theorem healthRunTests_evaluateBatResult (cfg : Config) (sensors : SensorData) (vbat : ℚ)
    (s : Health) (h : s.testState = TestState.evaluateBatResult) :
    healthRunTests cfg sensors vbat s = evaluateBatResultBody cfg s := by
  simp [healthRunTests, h]

theorem evaluateBatResultBody_eq (cfg : Config) (s : Health) :
    evaluateBatResultBody cfg s
      = { s with
          batterySag := s.idleVoltage - s.minLoadedVoltage
          batteryPass :=
            if s.idleVoltage - s.minLoadedVoltage > cfg.BAT_LOADING_SAG_THRESHOLD then 0 else 1
          testState := TestState.testDone } := by
  unfold evaluateBatResultBody
  dsimp only
  split_ifs <;> rfl

/-- Claim C4: in state `evaluateBatResult`, `healthRunTests` stores
`batterySag = idleVoltage - minLoadedVoltage` whatever the outcome, sets
`batteryPass` to 1 exactly when the sag is at most `BAT_LOADING_SAG_THRESHOLD`
and to 0 otherwise, and sets the state to `testDone`; with threshold 0.5, idle
4.2 and minimum 3.9 give sag 0.3 and pass, minimum 3.5 gives sag 0.7 and fail. -/
theorem evaluateBatResult_outcome (cfg : Config) (sensors : SensorData) (vbat : ℚ)
    (s : Health) (hst : s.testState = TestState.evaluateBatResult) :
    (healthRunTests cfg sensors vbat s).batterySag = s.idleVoltage - s.minLoadedVoltage
      ∧ ((healthRunTests cfg sensors vbat s).batteryPass = 1
          ↔ s.idleVoltage - s.minLoadedVoltage ≤ cfg.BAT_LOADING_SAG_THRESHOLD)
      ∧ (¬ (s.idleVoltage - s.minLoadedVoltage ≤ cfg.BAT_LOADING_SAG_THRESHOLD)
          → (healthRunTests cfg sensors vbat s).batteryPass = 0)
      ∧ (healthRunTests cfg sensors vbat s).testState = TestState.testDone
      ∧ (cfg.BAT_LOADING_SAG_THRESHOLD = 1 / 2 → s.idleVoltage = 42 / 10 →
          s.minLoadedVoltage = 39 / 10 →
          (healthRunTests cfg sensors vbat s).batterySag = 3 / 10
            ∧ (healthRunTests cfg sensors vbat s).batteryPass = 1)
      ∧ (cfg.BAT_LOADING_SAG_THRESHOLD = 1 / 2 → s.idleVoltage = 42 / 10 →
          s.minLoadedVoltage = 35 / 10 →
          (healthRunTests cfg sensors vbat s).batterySag = 7 / 10
            ∧ (healthRunTests cfg sensors vbat s).batteryPass = 0) := by
  rw [healthRunTests_evaluateBatResult cfg sensors vbat s hst, evaluateBatResultBody_eq]
  refine ⟨rfl, ?_, ?_, rfl, ?_, ?_⟩
  · by_cases h : s.idleVoltage - s.minLoadedVoltage > cfg.BAT_LOADING_SAG_THRESHOLD
    · simp only [h, if_true]
      constructor
      · intro h0; exact absurd h0 (by decide)
      · intro h0; exact absurd h (not_lt.mpr h0)
    · simp only [h, if_false, true_iff]
      exact not_lt.mp h
  · intro h
    simp only [gt_iff_lt, not_le.mp h, if_true]
  · intro h1 h2 h3
    simp only [h1, h2, h3]
    norm_num
  · intro h1 h2 h3
    simp only [h1, h2, h3]
    norm_num

theorem evaluateBatResult_outcome_witness :
    (evalBatExample (42 / 10) (39 / 10)).testState = TestState.evaluateBatResult
      ∧ (healthRunTests (exampleConfig 50 50 0 (1 / 2)) ⟨⟨0, 0, 1⟩⟩ 4
            (evalBatExample (42 / 10) (39 / 10))).batterySag = 3 / 10
      ∧ (healthRunTests (exampleConfig 50 50 0 (1 / 2)) ⟨⟨0, 0, 1⟩⟩ 4
            (evalBatExample (42 / 10) (39 / 10))).batteryPass = 1 :=
  ⟨rfl, (evaluateBatResult_outcome (exampleConfig 50 50 0 (1 / 2)) ⟨⟨0, 0, 1⟩⟩ 4
      (evalBatExample (42 / 10) (39 / 10)) rfl).2.2.2.2.1 rfl rfl rfl⟩

/-- Claim C6: `healthShallWeRunTest` gives priority to `startPropTest` (state
`configureAcc`, flag cleared, `startBatTest` and `tick` untouched), otherwise
serves `startBatTest` (state `testBattery`, flag cleared, `tick` reset to 0),
otherwise changes nothing; it returns true exactly when the resulting state
is not `testDone`. -/
theorem healthShallWeRunTest_outcome (s : Health) :
    (s.startPropTest = true →
        (healthShallWeRunTest s).2
            = { s with testState := TestState.configureAcc, startPropTest := false }
          ∧ (healthShallWeRunTest s).2.startBatTest = s.startBatTest
          ∧ (healthShallWeRunTest s).2.tick = s.tick)
      ∧ (s.startPropTest = false → s.startBatTest = true →
          (healthShallWeRunTest s).2
            = { s with testState := TestState.testBattery, startBatTest := false, tick := 0 })
      ∧ (s.startPropTest = false → s.startBatTest = false → (healthShallWeRunTest s).2 = s)
      ∧ ((healthShallWeRunTest s).1 = true
          ↔ (healthShallWeRunTest s).2.testState ≠ TestState.testDone) := by
  unfold healthShallWeRunTest
  refine ⟨fun h => ?_, fun h1 h2 => ?_, fun h1 h2 => ?_, ?_⟩
  · simp [h]
  · simp [h1, h2]
  · simp [h1, h2]
  · simp

theorem healthShallWeRunTest_outcome_witness :
    ((flagsExample true true).startPropTest = true
        ∧ (healthShallWeRunTest (flagsExample true true)).2.testState = TestState.configureAcc
        ∧ (healthShallWeRunTest (flagsExample true true)).2.startPropTest = false
        ∧ (healthShallWeRunTest (flagsExample true true)).2.startBatTest = true
        ∧ (healthShallWeRunTest (flagsExample true true)).2.tick = 7)
      ∧ ((flagsExample false true).startPropTest = false
        ∧ (flagsExample false true).startBatTest = true
        ∧ (healthShallWeRunTest (flagsExample false true)).2.testState = TestState.testBattery
        ∧ (healthShallWeRunTest (flagsExample false true)).2.startBatTest = false
        ∧ (healthShallWeRunTest (flagsExample false true)).2.tick = 0)
      ∧ ((flagsExample false false).startPropTest = false
        ∧ (flagsExample false false).startBatTest = false
        ∧ (healthShallWeRunTest (flagsExample false false)).2 = flagsExample false false
        ∧ (healthShallWeRunTest (flagsExample false false)).1 = false) := by
  have h1 := (healthShallWeRunTest_outcome (flagsExample true true)).1 rfl
  have h2 := (healthShallWeRunTest_outcome (flagsExample false true)).2.1 rfl rfl
  have h3 := (healthShallWeRunTest_outcome (flagsExample false false)).2.2.1 rfl rfl
  have h4 := (healthShallWeRunTest_outcome (flagsExample false false)).2.2.2
  refine ⟨⟨rfl, ?_, ?_, h1.2.1, h1.2.2⟩, ⟨rfl, rfl, ?_, ?_, ?_⟩, ⟨rfl, rfl, h3, ?_⟩⟩
  · rw [h1.1]
  · rw [h1.1]
  · rw [h2]
  · rw [h2]
  · rw [h2]
  · rw [h3] at h4
    simpa [flagsExample, initHealth] using h4

/-- Claim C9: in state `testDone` with neither trigger flag set,
`healthShallWeRunTest` returns false and changes nothing, and `healthRunTests`
returns the state unchanged, the record of collaborator calls included, so it
issues no motor, beep or accelerometer-mode command. -/
theorem testDone_idle (cfg : Config) (sensors : SensorData) (vbat : ℚ) (s : Health)
    (hst : s.testState = TestState.testDone) (hp : s.startPropTest = false)
    (hb : s.startBatTest = false) :
    healthShallWeRunTest s = (false, s)
      ∧ healthRunTests cfg sensors vbat s = s
      ∧ (healthRunTests cfg sensors vbat s).cmds = s.cmds
      ∧ schedulerTick cfg sensors vbat s = s := by
  have h1 : healthShallWeRunTest s = (false, s) := by
    simp [healthShallWeRunTest, hst, hp, hb]
  have h2 : healthRunTests cfg sensors vbat s = s := by
    simp [healthRunTests, hst]
  refine ⟨h1, h2, by rw [h2], ?_⟩
  simp only [schedulerTick, h1]
  simp

theorem testDone_idle_witness :
    (initHealth 10 0 0 false).testState = TestState.testDone
      ∧ (initHealth 10 0 0 false).startPropTest = false
      ∧ (initHealth 10 0 0 false).startBatTest = false
      ∧ (healthShallWeRunTest (initHealth 10 0 0 false) = (false, initHealth 10 0 0 false)
        ∧ healthRunTests (exampleConfig 50 50 0 (1 / 2)) ⟨⟨0, 0, 1⟩⟩ 4 (initHealth 10 0 0 false)
            = initHealth 10 0 0 false
        ∧ (healthRunTests (exampleConfig 50 50 0 (1 / 2)) ⟨⟨0, 0, 1⟩⟩ 4
            (initHealth 10 0 0 false)).cmds = (initHealth 10 0 0 false).cmds
        ∧ schedulerTick (exampleConfig 50 50 0 (1 / 2)) ⟨⟨0, 0, 1⟩⟩ 4
            (initHealth 10 0 0 false) = initHealth 10 0 0 false) :=
  ⟨rfl, rfl, rfl,
    testDone_idle (exampleConfig 50 50 0 (1 / 2)) ⟨⟨0, 0, 1⟩⟩ 4 (initHealth 10 0 0 false)
      rfl rfl rfl⟩

/-! ## The battery load window -/

theorem healthRunTests_testBattery (cfg : Config) (sensors : SensorData) (vbat : ℚ)
    (s : Health) (h : s.testState = TestState.testBattery) :
    healthRunTests cfg sensors vbat s = testBatteryBody cfg vbat s := by
  simp [healthRunTests, h]

theorem minLoadedUpTo_eq_foldl (v : Nat → ℚ) (k : Nat) :
    minLoadedUpTo v (k + 2) = List.foldl min (v 0) ((List.range' 2 k).map v) := by
  induction k with
  | zero => simp [minLoadedUpTo]
  | succ k ih =>
    have h : 2 ≤ k + 2 := by omega
    rw [show k + 1 + 2 = (k + 2) + 1 from rfl, minLoadedUpTo, if_pos h, ih, List.range'_1_concat,
      List.map_append, List.foldl_append]
    simp [Nat.add_comm]

theorem testBatteryBody_fields (cfg : Config) (vbat : ℚ) (s : Health) :
    (testBatteryBody cfg vbat s).tick = (s.tick + 1) % 2 ^ 32
      ∧ (testBatteryBody cfg vbat s).testState
          = (if s.tick = 50 then TestState.evaluateBatResult else s.testState)
      ∧ (testBatteryBody cfg vbat s).idleVoltage = (if s.tick = 0 then vbat else s.idleVoltage)
      ∧ (testBatteryBody cfg vbat s).minLoadedVoltage
          = (if s.tick = 0 then vbat
             else if 2 ≤ s.tick ∧ s.tick < 50 then min s.minLoadedVoltage vbat
             else s.minLoadedVoltage)
      ∧ (testBatteryBody cfg vbat s).motorToTest = s.motorToTest := by
  unfold testBatteryBody
  dsimp only
  by_cases h0 : s.tick = 0
  · simp [h0, emit]
  · by_cases h1 : s.tick = 1
    · simp [h1, emit]
    · by_cases h2 : s.tick < 50
      · have h3 : s.tick ≠ 50 := by omega
        have h4 : 2 ≤ s.tick := by omega
        by_cases hv : vbat < s.minLoadedVoltage
        · simp [h0, h1, h2, h3, h4, hv, min_eq_right (le_of_lt hv)]
        · simp [h0, h1, h2, h3, h4, hv, min_eq_left (not_lt.mp hv)]
      · by_cases h3 : s.tick = 50
        · simp [h3, emit]
        · have : ¬ (2 ≤ s.tick ∧ s.tick < 50) := by omega
          simp [h0, h1, h2, h3]

theorem testBattery_invariant (cfg : Config) (sensors : Nat → SensorData) (vbat : Nat → ℚ)
    (s : Health) (hst : s.testState = TestState.testBattery) (ht : s.tick = 0) :
    ∀ k, k ≤ 50 →
      (runCalls cfg sensors vbat s k).testState = TestState.testBattery
        ∧ (runCalls cfg sensors vbat s k).tick = k
        ∧ (1 ≤ k → (runCalls cfg sensors vbat s k).idleVoltage = vbat 0
            ∧ (runCalls cfg sensors vbat s k).minLoadedVoltage = minLoadedUpTo vbat k) := by
  intro k
  induction k with
  | zero => intro _; exact ⟨hst, ht, fun h => absurd h (by decide)⟩
  | succ k ih =>
    intro hk
    obtain ⟨i1, i2, i3⟩ := ih (by omega)
    obtain ⟨f1, f2, f3, f4, _⟩ :=
      testBatteryBody_fields cfg (vbat k) (runCalls cfg sensors vbat s k)
    rw [runCalls, healthRunTests_testBattery _ _ _ _ i1, f1, f2, f3, f4, i1, i2]
    have hne : k ≠ 50 := by omega
    refine ⟨by simp [hne], Nat.mod_eq_of_lt (by omega), fun _ => ?_⟩
    by_cases h0 : k = 0
    · subst h0
      simp [minLoadedUpTo]
    · obtain ⟨j1, j2⟩ := i3 (by omega)
      rw [minLoadedUpTo, j1, j2]
      by_cases h2 : 2 ≤ k
      · have : 2 ≤ k ∧ k < 50 := ⟨h2, by omega⟩
        simp [h0, h2, this]
      · have : ¬ (2 ≤ k ∧ k < 50) := fun h => h2 h.1
        simp [h0, h2, this]

theorem testBattery_final (cfg : Config) (sensors : Nat → SensorData) (vbat : Nat → ℚ)
    (s : Health) (hst : s.testState = TestState.testBattery) (ht : s.tick = 0) :
    (runCalls cfg sensors vbat s 51).testState = TestState.evaluateBatResult
      ∧ (runCalls cfg sensors vbat s 51).tick = 51
      ∧ (runCalls cfg sensors vbat s 51).idleVoltage = vbat 0
      ∧ (runCalls cfg sensors vbat s 51).minLoadedVoltage
          = List.foldl min (vbat 0) ((List.range' 2 48).map vbat) := by
  obtain ⟨i1, i2, i3⟩ := testBattery_invariant cfg sensors vbat s hst ht 50 (le_refl _)
  obtain ⟨j1, j2⟩ := i3 (by decide)
  obtain ⟨f1, f2, f3, f4, _⟩ :=
    testBatteryBody_fields cfg (vbat 50) (runCalls cfg sensors vbat s 50)
  rw [show (51 : Nat) = 50 + 1 from rfl, runCalls_succ, healthRunTests_testBattery _ _ _ _ i1,
    f1, f2, f3, f4, i2, j1, j2, minLoadedUpTo_eq_foldl vbat 48]
  simp

/-- Claim C5: from `testBattery` with `tick = 0`, the state is still
`testBattery` after each of the first 50 calls (those made with `tick` 0 to
49, after `k` calls `tick = k`) and the 51st call, made with `tick = 50`, sets
it to `evaluateBatResult`; then `idleVoltage = v 0` and `minLoadedVoltage` is
the minimum of `v 0, v 2, ..., v 49`, so the readings of tick 1 and tick 50 do
not influence it. -/
theorem testBattery_sequence (cfg : Config) (sensors : Nat → SensorData) (vbat : Nat → ℚ)
    (s : Health) (hst : s.testState = TestState.testBattery) (ht : s.tick = 0) :
    (∀ k, k ≤ 50 → (runCalls cfg sensors vbat s k).testState = TestState.testBattery
        ∧ (runCalls cfg sensors vbat s k).tick = k)
      ∧ (runCalls cfg sensors vbat s 51).testState = TestState.evaluateBatResult
      ∧ (runCalls cfg sensors vbat s 51).idleVoltage = vbat 0
      ∧ (runCalls cfg sensors vbat s 51).minLoadedVoltage
          = List.foldl min (vbat 0) ((List.range' 2 48).map vbat)
      ∧ (∀ v : Nat → ℚ, (∀ t, t ≠ 1 → t ≠ 50 → v t = vbat t) →
          (runCalls cfg sensors v s 51).minLoadedVoltage
            = (runCalls cfg sensors vbat s 51).minLoadedVoltage) := by
  obtain ⟨h1, _, h3, h4⟩ := testBattery_final cfg sensors vbat s hst ht
  refine ⟨fun k hk => ?_, h1, h3, h4, fun v hv => ?_⟩
  · obtain ⟨i1, i2, _⟩ := testBattery_invariant cfg sensors vbat s hst ht k hk
    exact ⟨i1, i2⟩
  · have hmap : (List.range' 2 48).map v = (List.range' 2 48).map vbat := by
      apply List.map_congr_left
      intro t htm
      rw [List.mem_range'_1] at htm
      exact hv t (by omega) (by omega)
    rw [h4, (testBattery_final cfg sensors v s hst ht).2.2.2, hv 0 (by decide) (by decide), hmap]

theorem testBattery_sequence_witness :
    batteryStartExample.testState = TestState.testBattery ∧ batteryStartExample.tick = 0
      ∧ (runCalls (exampleConfig 50 50 0 (1 / 2)) (fun _ => ⟨⟨0, 0, 1⟩⟩)
            (fun t => if t = 1 then 3 else 4) batteryStartExample 51).testState
          = TestState.evaluateBatResult
      ∧ (runCalls (exampleConfig 50 50 0 (1 / 2)) (fun _ => ⟨⟨0, 0, 1⟩⟩)
            (fun t => if t = 1 then 3 else 4) batteryStartExample 51).idleVoltage = 4 :=
  ⟨rfl, rfl,
    (testBattery_sequence (exampleConfig 50 50 0 (1 / 2)) (fun _ => ⟨⟨0, 0, 1⟩⟩)
      (fun t => if t = 1 then 3 else 4) batteryStartExample rfl rfl).2.1,
    (testBattery_sequence (exampleConfig 50 50 0 (1 / 2)) (fun _ => ⟨⟨0, 0, 1⟩⟩)
      (fun t => if t = 1 then 3 else 4) batteryStartExample rfl rfl).2.2.1⟩

/-! ## The noise-floor capture -/

theorem healthRunTests_configureAcc (cfg : Config) (sensors : SensorData) (vbat : ℚ)
    (s : Health) (h : s.testState = TestState.configureAcc) :
    healthRunTests cfg sensors vbat s = measureNoiseFloorBody sensors (configureAccBody vbat s) := by
  simp [healthRunTests, h, configureAccBody, emit]

theorem healthRunTests_measureNoiseFloor (cfg : Config) (sensors : SensorData) (vbat : ℚ)
    (s : Health) (h : s.testState = TestState.measureNoiseFloor) :
    healthRunTests cfg sensors vbat s = measureNoiseFloorBody sensors s := by
  simp [healthRunTests, h]

theorem configureAccBody_fields (vbat : ℚ) (s : Health) :
    (configureAccBody vbat s).testState = TestState.measureNoiseFloor
      ∧ (configureAccBody vbat s).tick = s.tick
      ∧ (configureAccBody vbat s).motorToTest = s.motorToTest
      ∧ (configureAccBody vbat s).accX = s.accX
      ∧ (configureAccBody vbat s).accY = s.accY
      ∧ (configureAccBody vbat s).accZ = s.accZ := by
  simp [configureAccBody, emit]

theorem measureNoiseFloorBody_fields (sensors : SensorData) (s : Health) :
    (measureNoiseFloorBody sensors s).motorToTest = s.motorToTest
      ∧ (measureNoiseFloorBody sensors s).accX = Function.update s.accX s.tick sensors.acc.x
      ∧ (measureNoiseFloorBody sensors s).accY = Function.update s.accY s.tick sensors.acc.y
      ∧ (measureNoiseFloorBody sensors s).accZ = Function.update s.accZ s.tick sensors.acc.z
      ∧ ((s.tick + 1) % 2 ^ 32 ≥ PROPTEST_NBR_OF_VARIANCE_VALUES →
          (measureNoiseFloorBody sensors s).testState = TestState.measureProp
            ∧ (measureNoiseFloorBody sensors s).tick = 0
            ∧ (measureNoiseFloorBody sensors s).accVarXnf
                = variance (Function.update s.accX s.tick sensors.acc.x)
                    PROPTEST_NBR_OF_VARIANCE_VALUES
            ∧ (measureNoiseFloorBody sensors s).accVarYnf
                = variance (Function.update s.accY s.tick sensors.acc.y)
                    PROPTEST_NBR_OF_VARIANCE_VALUES
            ∧ (measureNoiseFloorBody sensors s).accVarZnf
                = variance (Function.update s.accZ s.tick sensors.acc.z)
                    PROPTEST_NBR_OF_VARIANCE_VALUES)
      ∧ (¬ (s.tick + 1) % 2 ^ 32 ≥ PROPTEST_NBR_OF_VARIANCE_VALUES →
          (measureNoiseFloorBody sensors s).testState = s.testState
            ∧ (measureNoiseFloorBody sensors s).tick = (s.tick + 1) % 2 ^ 32) := by
  unfold measureNoiseFloorBody
  dsimp only
  refine ⟨?_, ?_, ?_, ?_, fun h => ?_, fun h => ?_⟩ <;> split_ifs <;> simp

theorem variance_congr (f g : Nat → ℚ) (N : Nat) (h : ∀ i, i < N → f i = g i) :
    variance f N = variance g N := by
  rw [variance_eq, variance_eq, varianceSpec, varianceSpec,
    Finset.sum_congr rfl (fun i hi => by rw [h i (Finset.mem_range.mp hi)] :
      ∀ i ∈ Finset.range N, f i ^ 2 = g i ^ 2),
    Finset.sum_congr rfl (fun i hi => h i (Finset.mem_range.mp hi) :
      ∀ i ∈ Finset.range N, f i = g i)]

theorem noiseFloor_invariant (cfg : Config) (sensors : Nat → SensorData) (vbat : Nat → ℚ)
    (s : Health) (hst : s.testState = TestState.configureAcc) (ht : s.tick = 0) :
    ∀ k, 1 ≤ k → k ≤ 99 →
      (runCalls cfg sensors vbat s k).testState = TestState.measureNoiseFloor
        ∧ (runCalls cfg sensors vbat s k).tick = k
        ∧ (runCalls cfg sensors vbat s k).motorToTest = s.motorToTest
        ∧ (∀ i, i < k → (runCalls cfg sensors vbat s k).accX i = (sensors i).acc.x
            ∧ (runCalls cfg sensors vbat s k).accY i = (sensors i).acc.y
            ∧ (runCalls cfg sensors vbat s k).accZ i = (sensors i).acc.z) := by
  intro k
  induction k with
  | zero => intro h; exact absurd h (by decide)
  | succ k ih =>
    intro _ hk
    by_cases h0 : k = 0
    · subst h0
      obtain ⟨c1, c2, c3, c4, c5, c6⟩ := configureAccBody_fields (vbat 0) s
      obtain ⟨f1, f2, f3, f4, _, f6⟩ :=
        measureNoiseFloorBody_fields (sensors 0) (configureAccBody (vbat 0) s)
      rw [c2, ht] at f2 f3 f4 f6
      have f5 := f6 (by decide)
      simp only [runCalls, healthRunTests_configureAcc _ _ _ _ hst]
      refine ⟨f5.1.trans c1, f5.2, f1.trans c3, fun i hi => ?_⟩
      have : i = 0 := by omega
      subst this
      rw [f2, f3, f4]
      simp
    · obtain ⟨i1, i2, i3, i4⟩ := ih (by omega) (by omega)
      obtain ⟨f1, f2, f3, f4, _, f6⟩ :=
        measureNoiseFloorBody_fields (sensors k) (runCalls cfg sensors vbat s k)
      rw [i2] at f2 f3 f4 f6
      have f5 := f6 (by
        rw [Nat.mod_eq_of_lt (by omega)]; unfold PROPTEST_NBR_OF_VARIANCE_VALUES; omega)
      simp only [runCalls, healthRunTests_measureNoiseFloor _ _ _ _ i1]
      refine ⟨f5.1.trans i1, f5.2.trans (Nat.mod_eq_of_lt (by omega)), f1.trans i3, fun i hi => ?_⟩
      rw [f2, f3, f4]
      by_cases hik : i = k
      · subst hik; simp
      · have := i4 i (by omega)
        simp [Function.update_noteq hik, this]

theorem noiseFloor_final (cfg : Config) (sensors : Nat → SensorData) (vbat : Nat → ℚ)
    (s : Health) (hst : s.testState = TestState.configureAcc) (ht : s.tick = 0) :
    (runCalls cfg sensors vbat s 100).testState = TestState.measureProp
      ∧ (runCalls cfg sensors vbat s 100).tick = 0
      ∧ (runCalls cfg sensors vbat s 100).motorToTest = s.motorToTest
      ∧ (runCalls cfg sensors vbat s 100).accVarXnf
          = variance (fun i => (sensors i).acc.x) PROPTEST_NBR_OF_VARIANCE_VALUES
      ∧ (runCalls cfg sensors vbat s 100).accVarYnf
          = variance (fun i => (sensors i).acc.y) PROPTEST_NBR_OF_VARIANCE_VALUES
      ∧ (runCalls cfg sensors vbat s 100).accVarZnf
          = variance (fun i => (sensors i).acc.z) PROPTEST_NBR_OF_VARIANCE_VALUES := by
  obtain ⟨i1, i2, i3, i4⟩ := noiseFloor_invariant cfg sensors vbat s hst ht 99 (by decide) (le_refl _)
  obtain ⟨f1, _, _, _, f5, _⟩ :=
    measureNoiseFloorBody_fields (sensors 99) (runCalls cfg sensors vbat s 99)
  rw [i2] at f5
  obtain ⟨g1, g2, g3, g4, g5⟩ := f5 (by decide)
  rw [show (100 : Nat) = 99 + 1 from rfl, runCalls_succ,
    healthRunTests_measureNoiseFloor _ _ _ _ i1]
  refine ⟨g1, g2, f1.trans i3, ?_, ?_, ?_⟩
  · rw [g3]
    apply variance_congr
    intro i hi
    by_cases hik : i = 99
    · subst hik; simp
    · rw [Function.update_noteq hik]
      exact (i4 i (by unfold PROPTEST_NBR_OF_VARIANCE_VALUES at hi; omega)).1
  · rw [g4]
    apply variance_congr
    intro i hi
    by_cases hik : i = 99
    · subst hik; simp
    · rw [Function.update_noteq hik]
      exact (i4 i (by unfold PROPTEST_NBR_OF_VARIANCE_VALUES at hi; omega)).2.1
  · rw [g5]
    apply variance_congr
    intro i hi
    by_cases hik : i = 99
    · subst hik; simp
    · rw [Function.update_noteq hik]
      exact (i4 i (by unfold PROPTEST_NBR_OF_VARIANCE_VALUES at hi; omega)).2.2

/-- Claim C7: from `configureAcc` with `tick = 0`, the state is
`measureNoiseFloor` after each of the first 99 calls of `healthRunTests` and
`measureProp` with `tick = 0` after the 100th call (the call that executes
`configureAcc` already records sample 0); at that point `accVarXnf`,
`accVarYnf`, `accVarZnf` are `variance` over the 100 x, y and z samples of
those calls, in order. -/
theorem noiseFloor_sequence (cfg : Config) (sensors : Nat → SensorData) (vbat : Nat → ℚ)
    (s : Health) (hst : s.testState = TestState.configureAcc) (ht : s.tick = 0) :
    (∀ k, 1 ≤ k → k ≤ 99 →
        (runCalls cfg sensors vbat s k).testState = TestState.measureNoiseFloor)
      ∧ (runCalls cfg sensors vbat s 100).testState = TestState.measureProp
      ∧ (runCalls cfg sensors vbat s 100).tick = 0
      ∧ (runCalls cfg sensors vbat s 100).accVarXnf = variance (fun i => (sensors i).acc.x) 100
      ∧ (runCalls cfg sensors vbat s 100).accVarYnf = variance (fun i => (sensors i).acc.y) 100
      ∧ (runCalls cfg sensors vbat s 100).accVarZnf = variance (fun i => (sensors i).acc.z) 100 := by
  obtain ⟨h1, h2, _, h4, h5, h6⟩ := noiseFloor_final cfg sensors vbat s hst ht
  exact ⟨fun k hk1 hk2 => (noiseFloor_invariant cfg sensors vbat s hst ht k hk1 hk2).1,
    h1, h2, h4, h5, h6⟩

theorem noiseFloor_sequence_witness :
    propStartExample.testState = TestState.configureAcc ∧ propStartExample.tick = 0
      ∧ (runCalls (exampleConfig 50 50 0 (1 / 2)) (fun _ => ⟨⟨0, 0, 1⟩⟩) (fun _ => 4)
            propStartExample 100).testState = TestState.measureProp
      ∧ (runCalls (exampleConfig 50 50 0 (1 / 2)) (fun _ => ⟨⟨0, 0, 1⟩⟩) (fun _ => 4)
            propStartExample 100).tick = 0 :=
  ⟨rfl, rfl,
    (noiseFloor_sequence (exampleConfig 50 50 0 (1 / 2)) (fun _ => ⟨⟨0, 0, 1⟩⟩) (fun _ => 4)
      propStartExample rfl rfl).2.1,
    (noiseFloor_sequence (exampleConfig 50 50 0 (1 / 2)) (fun _ => ⟨⟨0, 0, 1⟩⟩) (fun _ => 4)
      propStartExample rfl rfl).2.2.1⟩

/-! ## The motor phases of `measureProp` -/

theorem healthRunTests_measureProp (cfg : Config) (sensors : SensorData) (vbat : ℚ)
    (s : Health) (h : s.testState = TestState.measureProp) :
    healthRunTests cfg sensors vbat s = measurePropBody cfg sensors vbat s := by
  simp [healthRunTests, h]

theorem measurePropSample_fields (p : MotorHealthTestDef) (sensors : SensorData) (vbat : ℚ)
    (s : Health) :
    (measurePropSample p sensors vbat s).tick = (s.tick + 1) % 2 ^ 32
      ∧ (measurePropSample p sensors vbat s).testState = s.testState
      ∧ (measurePropSample p sensors vbat s).motorToTest = s.motorToTest := by
  unfold measurePropSample
  dsimp only
  refine ⟨?_, ?_, ?_⟩ <;> split_ifs <;> rfl

theorem measurePropControl_stay (p : MotorHealthTestDef) (s : Health)
    (h : (s.tick = 1 ∧ p.onPeriodMsec.val > 0) ∨ s.tick = p.onPeriodMsec.val
          ∨ s.tick < p.onPeriodMsec.val + p.offPeriodMsec.val) :
    (measurePropControl p s).tick = s.tick
      ∧ (measurePropControl p s).testState = s.testState
      ∧ (measurePropControl p s).motorToTest = s.motorToTest := by
  unfold measurePropControl
  dsimp only
  by_cases h1 : s.tick = 1 ∧ p.onPeriodMsec.val > 0
  · rw [if_pos h1]; simp [emit]
  · rw [if_neg h1]
    by_cases h2 : s.tick = p.onPeriodMsec.val
    · rw [if_pos h2]; simp [emit]
    · rw [if_neg h2]
      have h3 : ¬ s.tick ≥ p.onPeriodMsec.val + p.offPeriodMsec.val := by
        rcases h with h | h | h
        · exact absurd h h1
        · exact absurd h h2
        · omega
      rw [if_neg h3]
      exact ⟨rfl, rfl, rfl⟩

theorem measurePropControl_advance (p : MotorHealthTestDef) (s : Health)
    (h1 : ¬ (s.tick = 1 ∧ p.onPeriodMsec.val > 0)) (h2 : s.tick ≠ p.onPeriodMsec.val)
    (h3 : s.tick ≥ p.onPeriodMsec.val + p.offPeriodMsec.val) :
    (measurePropControl p s).tick = 0
      ∧ (s.motorToTest + 1 ≥ (NBR_OF_MOTORS : Int) →
          (measurePropControl p s).motorToTest = 0
            ∧ (measurePropControl p s).testState = TestState.evaluatePropResult)
      ∧ (¬ s.motorToTest + 1 ≥ (NBR_OF_MOTORS : Int) →
          (measurePropControl p s).motorToTest = s.motorToTest + 1
            ∧ (measurePropControl p s).testState = s.testState) := by
  unfold measurePropControl
  dsimp only
  rw [if_neg h1, if_neg h2, if_pos h3]
  refine ⟨?_, fun h => ?_, fun h => ?_⟩
  · split_ifs <;> simp [emit]
  · rw [if_pos h]; simp [emit]
  · rw [if_neg h]; simp

theorem measureProp_invariant (cfg : Config) (sensors : Nat → SensorData) (vbat : Nat → ℚ)
    (s : Health) (m : Nat) (hst : s.testState = TestState.measureProp) (ht : s.tick = 0)
    (hmt : s.motorToTest = (m : Int)) :
    ∀ k, k < ((cfg.motorsGetHealthTestSettings m).onPeriodMsec.val
              + (cfg.motorsGetHealthTestSettings m).offPeriodMsec.val) →
      (runCalls cfg sensors vbat s k).testState = TestState.measureProp
        ∧ (runCalls cfg sensors vbat s k).motorToTest = (m : Int)
        ∧ (runCalls cfg sensors vbat s k).tick = k := by
  intro k
  induction k with
  | zero => intro _; exact ⟨hst, hmt, ht⟩
  | succ k ih =>
    intro hk
    obtain ⟨i1, i2, i3⟩ := ih (by omega)
    have hon := (cfg.motorsGetHealthTestSettings m).onPeriodMsec.isLt
    have hoff := (cfg.motorsGetHealthTestSettings m).offPeriodMsec.isLt
    have hp : (runCalls cfg sensors vbat s k).motorToTest.toNat = m := by rw [i2]; simp
    rw [runCalls_succ, healthRunTests_measureProp _ _ _ _ i1, measurePropBody, hp]
    obtain ⟨f1, f2, f3⟩ := measurePropSample_fields (cfg.motorsGetHealthTestSettings m)
      (sensors k) (vbat k) (runCalls cfg sensors vbat s k)
    rw [i3, Nat.mod_eq_of_lt (by omega)] at f1
    obtain ⟨g1, g2, g3⟩ := measurePropControl_stay (cfg.motorsGetHealthTestSettings m)
      (measurePropSample (cfg.motorsGetHealthTestSettings m) (sensors k) (vbat k)
        (runCalls cfg sensors vbat s k)) (Or.inr (Or.inr (by rw [f1]; exact hk)))
    exact ⟨g2.trans (f2.trans i1), g3.trans (f3.trans i2), g1.trans f1⟩

theorem evaluatePropResultBody_testState (cfg : Config) (s : Health) :
    (evaluatePropResultBody cfg s).testState = TestState.testDone := by
  unfold evaluatePropResultBody
  rfl

theorem measureProp_last_call (cfg : Config) (sensors : Nat → SensorData) (vbat : Nat → ℚ)
    (s : Health) (m : Nat) (hst : s.testState = TestState.measureProp) (ht : s.tick = 0)
    (hmt : s.motorToTest = (m : Int))
    (hoff : 0 < (cfg.motorsGetHealthTestSettings m).offPeriodMsec.val) (k : Nat)
    (hk : k + 1 = (cfg.motorsGetHealthTestSettings m).onPeriodMsec.val
                    + (cfg.motorsGetHealthTestSettings m).offPeriodMsec.val) :
    (runCalls cfg sensors vbat s (k + 1)).tick = 0
      ∧ (m + 1 < NBR_OF_MOTORS →
          (runCalls cfg sensors vbat s (k + 1)).motorToTest = ((m + 1 : Nat) : Int)
            ∧ (runCalls cfg sensors vbat s (k + 1)).testState = TestState.measureProp)
      ∧ (NBR_OF_MOTORS ≤ m + 1 →
          (runCalls cfg sensors vbat s (k + 1)).motorToTest = 0
            ∧ (runCalls cfg sensors vbat s (k + 1)).testState = TestState.evaluatePropResult
            ∧ (runCalls cfg sensors vbat s (k + 1 + 1)).testState = TestState.testDone) := by
  obtain ⟨i1, i2, i3⟩ := measureProp_invariant cfg sensors vbat s m hst ht hmt k (by omega)
  have hon := (cfg.motorsGetHealthTestSettings m).onPeriodMsec.isLt
  have hoff2 := (cfg.motorsGetHealthTestSettings m).offPeriodMsec.isLt
  have hp : (runCalls cfg sensors vbat s k).motorToTest.toNat = m := by rw [i2]; simp
  have e : runCalls cfg sensors vbat s (k + 1)
      = measurePropControl (cfg.motorsGetHealthTestSettings m)
          (measurePropSample (cfg.motorsGetHealthTestSettings m) (sensors k) (vbat k)
            (runCalls cfg sensors vbat s k)) := by
    rw [runCalls_succ, healthRunTests_measureProp _ _ _ _ i1, measurePropBody, hp]
  obtain ⟨f1, f2, f3⟩ := measurePropSample_fields (cfg.motorsGetHealthTestSettings m)
    (sensors k) (vbat k) (runCalls cfg sensors vbat s k)
  rw [i3, Nat.mod_eq_of_lt (by omega)] at f1
  obtain ⟨g1, g2, g3⟩ := measurePropControl_advance (cfg.motorsGetHealthTestSettings m)
    (measurePropSample (cfg.motorsGetHealthTestSettings m) (sensors k) (vbat k)
      (runCalls cfg sensors vbat s k))
    (by rw [f1]; omega) (by rw [f1]; omega) (by rw [f1]; omega)
  rw [f3, i2] at g2 g3
  rw [f2, i1] at g3
  refine ⟨by rw [e]; exact g1, fun h => ?_, fun h => ?_⟩
  · rw [e]
    have := g3 (by unfold NBR_OF_MOTORS at h ⊢; omega)
    exact ⟨by rw [this.1]; push_cast; rfl, this.2⟩
  · have h2 := g2 (by unfold NBR_OF_MOTORS at h ⊢; omega)
    rw [← e] at h2
    refine ⟨h2.1, h2.2, ?_⟩
    rw [runCalls_succ, healthRunTests_evaluatePropResult _ _ _ _ h2.2]
    exact evaluatePropResultBody_testState cfg _

/-- Claim C8, as the code has it: for a profile with `offPeriodMsec > 0`, from
`measureProp` with `tick = 0` and `motorToTest = m`, the sequencer stays on
motor `m` (after `k` calls `tick = k`) for every `k < onPeriodMsec +
offPeriodMsec` and leaves it on exactly the call number `onPeriodMsec +
offPeriodMsec`: `tick` is reset to 0 and `motorToTest` becomes `m + 1`, or, for
the last motor, `motorToTest` becomes 0 and the state `evaluatePropResult`; one
further call then sets the state to `testDone`. -/
theorem measureProp_motor_phase (cfg : Config) (sensors : Nat → SensorData) (vbat : Nat → ℚ)
    (s : Health) (m : Nat) (hm : m < NBR_OF_MOTORS)
    (hst : s.testState = TestState.measureProp) (ht : s.tick = 0)
    (hmt : s.motorToTest = (m : Int))
    (hoff : 0 < (cfg.motorsGetHealthTestSettings m).offPeriodMsec.val) :
    (∀ k, k < (cfg.motorsGetHealthTestSettings m).onPeriodMsec.val
                + (cfg.motorsGetHealthTestSettings m).offPeriodMsec.val →
        (runCalls cfg sensors vbat s k).testState = TestState.measureProp
          ∧ (runCalls cfg sensors vbat s k).motorToTest = (m : Int)
          ∧ (runCalls cfg sensors vbat s k).tick = k)
      ∧ (runCalls cfg sensors vbat s
            ((cfg.motorsGetHealthTestSettings m).onPeriodMsec.val
              + (cfg.motorsGetHealthTestSettings m).offPeriodMsec.val)).tick = 0
      ∧ (m + 1 < NBR_OF_MOTORS →
          (runCalls cfg sensors vbat s
              ((cfg.motorsGetHealthTestSettings m).onPeriodMsec.val
                + (cfg.motorsGetHealthTestSettings m).offPeriodMsec.val)).motorToTest
              = ((m + 1 : Nat) : Int)
            ∧ (runCalls cfg sensors vbat s
                ((cfg.motorsGetHealthTestSettings m).onPeriodMsec.val
                  + (cfg.motorsGetHealthTestSettings m).offPeriodMsec.val)).testState
                = TestState.measureProp)
      ∧ (m + 1 = NBR_OF_MOTORS →
          (runCalls cfg sensors vbat s
              ((cfg.motorsGetHealthTestSettings m).onPeriodMsec.val
                + (cfg.motorsGetHealthTestSettings m).offPeriodMsec.val)).motorToTest = 0
            ∧ (runCalls cfg sensors vbat s
                ((cfg.motorsGetHealthTestSettings m).onPeriodMsec.val
                  + (cfg.motorsGetHealthTestSettings m).offPeriodMsec.val)).testState
                = TestState.evaluatePropResult
            ∧ (runCalls cfg sensors vbat s
                ((cfg.motorsGetHealthTestSettings m).onPeriodMsec.val
                  + (cfg.motorsGetHealthTestSettings m).offPeriodMsec.val + 1)).testState
                = TestState.testDone) := by
  have _ := hm
  obtain ⟨k, hk⟩ : ∃ k, k + 1 = (cfg.motorsGetHealthTestSettings m).onPeriodMsec.val
      + (cfg.motorsGetHealthTestSettings m).offPeriodMsec.val :=
    ⟨(cfg.motorsGetHealthTestSettings m).onPeriodMsec.val
      + (cfg.motorsGetHealthTestSettings m).offPeriodMsec.val - 1, by omega⟩
  obtain ⟨l1, l2, l3⟩ := measureProp_last_call cfg sensors vbat s m hst ht hmt hoff k hk
  refine ⟨measureProp_invariant cfg sensors vbat s m hst ht hmt, ?_⟩
  rw [← hk]
  exact ⟨l1, l2, fun h => l3 (le_of_eq h.symm)⟩

theorem measureProp_motor_phase_witness :
    (3 < NBR_OF_MOTORS)
      ∧ (measureStartExample 3).testState = TestState.measureProp
      ∧ (measureStartExample 3).tick = 0
      ∧ (measureStartExample 3).motorToTest = ((3 : Nat) : Int)
      ∧ 0 < ((exampleConfig 2 1 1000 (1 / 2)).motorsGetHealthTestSettings 3).offPeriodMsec.val
      ∧ (runCalls (exampleConfig 2 1 1000 (1 / 2)) (fun _ => ⟨⟨0, 0, 1⟩⟩) (fun _ => 4)
            (measureStartExample 3) (2 + 1)).testState = TestState.evaluatePropResult
      ∧ (runCalls (exampleConfig 2 1 1000 (1 / 2)) (fun _ => ⟨⟨0, 0, 1⟩⟩) (fun _ => 4)
            (measureStartExample 3) (2 + 1 + 1)).testState = TestState.testDone :=
  ⟨by decide, rfl, rfl, rfl, by decide,
    ((measureProp_motor_phase (exampleConfig 2 1 1000 (1 / 2)) (fun _ => ⟨⟨0, 0, 1⟩⟩)
      (fun _ => 4) (measureStartExample 3) 3 (by decide) rfl rfl rfl (by decide)).2.2.2
        rfl).2.1,
    ((measureProp_motor_phase (exampleConfig 2 1 1000 (1 / 2)) (fun _ => ⟨⟨0, 0, 1⟩⟩)
      (fun _ => 4) (measureStartExample 3) 3 (by decide) rfl rfl rfl (by decide)).2.2.2
        rfl).2.2⟩

/-- Claim C8 fails on the code for a profile with `offPeriodMsec = 0`: with
`onPeriodMsec = 2` the second call switches the motor off (`tick == onPeriodMsec`
is tested first), so after `onPeriodMsec + offPeriodMsec = 2` calls the
sequencer is still on motor 0 with `tick = 2`, and it leaves motor 0 on the
third call. -/
theorem measureProp_motor_phase_counterexample :
    (measureStartExample 0).testState = TestState.measureProp
      ∧ (measureStartExample 0).tick = 0
      ∧ (measureStartExample 0).motorToTest = 0
      ∧ ((exampleConfig 2 0 1000 (1 / 2)).motorsGetHealthTestSettings 0).onPeriodMsec.val
          + ((exampleConfig 2 0 1000 (1 / 2)).motorsGetHealthTestSettings 0).offPeriodMsec.val = 2
      ∧ (runCalls (exampleConfig 2 0 1000 (1 / 2)) (fun _ => ⟨⟨0, 0, 1⟩⟩) (fun _ => 4)
            (measureStartExample 0) 2).tick = 2
      ∧ (runCalls (exampleConfig 2 0 1000 (1 / 2)) (fun _ => ⟨⟨0, 0, 1⟩⟩) (fun _ => 4)
            (measureStartExample 0) 2).motorToTest = 0
      ∧ ¬ ((runCalls (exampleConfig 2 0 1000 (1 / 2)) (fun _ => ⟨⟨0, 0, 1⟩⟩) (fun _ => 4)
              (measureStartExample 0) 2).tick = 0
            ∧ (runCalls (exampleConfig 2 0 1000 (1 / 2)) (fun _ => ⟨⟨0, 0, 1⟩⟩) (fun _ => 4)
              (measureStartExample 0) 2).motorToTest = 1)
      ∧ (runCalls (exampleConfig 2 0 1000 (1 / 2)) (fun _ => ⟨⟨0, 0, 1⟩⟩) (fun _ => 4)
            (measureStartExample 0) 3).motorToTest = 1 := by
  refine ⟨rfl, rfl, rfl, by decide, by decide, by decide, by decide, by decide⟩

/-! ## A run is not aborted unless a trigger flag is set during the run -/

theorem healthShallWeRunTest_prop (s : Health) (h : s.startPropTest = true) :
    healthShallWeRunTest s
      = (true, { s with testState := TestState.configureAcc, startPropTest := false }) := by
  simp [healthShallWeRunTest, h]

theorem healthShallWeRunTest_bat (s : Health) (h1 : s.startPropTest = false)
    (h2 : s.startBatTest = true) :
    healthShallWeRunTest s
      = (true, { s with testState := TestState.testBattery, startBatTest := false, tick := 0 }) := by
  simp [healthShallWeRunTest, h1, h2]

theorem healthShallWeRunTest_none (s : Health) (h1 : s.startPropTest = false)
    (h2 : s.startBatTest = false) :
    healthShallWeRunTest s = (decide (s.testState ≠ TestState.testDone), s) := by
  simp [healthShallWeRunTest, h1, h2]

theorem evaluatePropIter_ctrl (cfg : Config) (m : Nat) (s : Health) :
    (evaluatePropIter cfg m s).testState = s.testState
      ∧ (evaluatePropIter cfg m s).tick = s.tick
      ∧ (evaluatePropIter cfg m s).motorToTest = s.motorToTest := by
  unfold evaluatePropIter
  simp only [failBeeps_eq, evaluatePropTest_snd]
  split_ifs <;> simp [emit]

theorem evaluatePropLoop_ctrl (cfg : Config) (n : Nat) :
    ∀ (m0 : Nat) (s : Health),
      (evaluatePropLoop cfg n m0 s).testState = s.testState
        ∧ (evaluatePropLoop cfg n m0 s).tick = s.tick
        ∧ (evaluatePropLoop cfg n m0 s).motorToTest = s.motorToTest := by
  induction n with
  | zero => intro m0 s; simp [evaluatePropLoop]
  | succ n ih =>
    intro m0 s
    obtain ⟨h1, h2, h3⟩ := evaluatePropIter_ctrl cfg m0 s
    obtain ⟨i1, i2, i3⟩ := ih (m0 + 1) (evaluatePropIter cfg m0 s)
    rw [evaluatePropLoop]
    exact ⟨i1.trans h1, i2.trans h2, i3.trans h3⟩

theorem evaluatePropResultBody_ctrl (cfg : Config) (s : Health) :
    (evaluatePropResultBody cfg s).testState = TestState.testDone
      ∧ (evaluatePropResultBody cfg s).tick = s.tick
      ∧ (evaluatePropResultBody cfg s).motorToTest = s.motorToTest := by
  obtain ⟨_, l2, l3⟩ := evaluatePropLoop_ctrl cfg NBR_OF_MOTORS 0 s
  obtain ⟨cs, hcs⟩ := melodyLoop_fields cfg NBR_OF_MOTORS 0 (evaluatePropLoop cfg NBR_OF_MOTORS 0 s)
  refine ⟨evaluatePropResultBody_testState cfg s, ?_, ?_⟩
  · unfold evaluatePropResultBody
    simp only [hcs]
    split_ifs <;> simp [emit, l2]
  · unfold evaluatePropResultBody
    simp only [hcs]
    split_ifs <;> simp [emit, l3]

theorem measurePropBody_ctrl (cfg : Config) (sensors : SensorData) (vbat : ℚ) (s : Health) :
    ((measurePropBody cfg sensors vbat s).testState = s.testState
        ∧ (measurePropBody cfg sensors vbat s).motorToTest = s.motorToTest)
      ∨ ((measurePropBody cfg sensors vbat s).testState = s.testState
          ∧ (measurePropBody cfg sensors vbat s).motorToTest = s.motorToTest + 1
          ∧ s.motorToTest + 1 < (NBR_OF_MOTORS : Int))
      ∨ ((measurePropBody cfg sensors vbat s).testState = TestState.evaluatePropResult
          ∧ (measurePropBody cfg sensors vbat s).motorToTest = 0
          ∧ (measurePropBody cfg sensors vbat s).tick = 0
          ∧ (NBR_OF_MOTORS : Int) ≤ s.motorToTest + 1) := by
  unfold measurePropBody
  dsimp only
  generalize cfg.motorsGetHealthTestSettings s.motorToTest.toNat = p
  obtain ⟨_, f2, f3⟩ := measurePropSample_fields p sensors vbat s
  by_cases h1 : (measurePropSample p sensors vbat s).tick = 1 ∧ p.onPeriodMsec.val > 0
  · obtain ⟨_, g2, g3⟩ := measurePropControl_stay p _ (Or.inl h1)
    exact Or.inl ⟨g2.trans f2, g3.trans f3⟩
  · by_cases h2 : (measurePropSample p sensors vbat s).tick = p.onPeriodMsec.val
    · obtain ⟨_, g2, g3⟩ := measurePropControl_stay p _ (Or.inr (Or.inl h2))
      exact Or.inl ⟨g2.trans f2, g3.trans f3⟩
    · by_cases h3 : (measurePropSample p sensors vbat s).tick
          ≥ p.onPeriodMsec.val + p.offPeriodMsec.val
      · obtain ⟨g1, g2, g3⟩ := measurePropControl_advance p _ h1 h2 h3
        rw [f3] at g2 g3
        rw [f2] at g3
        by_cases h4 : s.motorToTest + 1 ≥ (NBR_OF_MOTORS : Int)
        · exact Or.inr (Or.inr ⟨(g2 h4).2, (g2 h4).1, g1, h4⟩)
        · exact Or.inr (Or.inl ⟨(g3 h4).2, (g3 h4).1, not_le.mp h4⟩)
      · obtain ⟨_, g2, g3⟩ := measurePropControl_stay p _ (Or.inr (Or.inr (not_le.mp h3)))
        exact Or.inl ⟨g2.trans f2, g3.trans f3⟩

theorem healthRunTests_step (cfg : Config) (sensors : SensorData) (vbat : ℚ) (s : Health)
    (hinv : runInvariant s) (hnd : s.testState ≠ TestState.testDone) :
    runInvariant (healthRunTests cfg sensors vbat s)
      ∧ inOrder s (healthRunTests cfg sensors vbat s) := by
  obtain ⟨v1, v2, v3, v4, v5, v6⟩ := hinv
  have hN : (NBR_OF_MOTORS : Int) = 4 := rfl
  cases hst : s.testState with
  | testDone => exact absurd hst hnd
  | restartBatTest => exact absurd hst v1
  | configureAcc =>
    obtain ⟨c1, c2, c3, _⟩ := configureAccBody_fields vbat s
    obtain ⟨f1, _, _, _, _, f6⟩ := measureNoiseFloorBody_fields sensors (configureAccBody vbat s)
    have ht : s.tick ≤ 51 := v6 (by simp [hst]) (by simp [hst]) (by simp [hst])
    have hm : s.motorToTest = 0 := v4 (by simp [hst])
    rw [c2] at f6
    obtain ⟨g1, _⟩ := f6 (by
      rw [Nat.mod_eq_of_lt (by omega)]; unfold PROPTEST_NBR_OF_VARIANCE_VALUES; omega)
    rw [c1] at g1
    rw [c3, hm] at f1
    rw [healthRunTests_configureAcc _ _ _ _ hst]
    refine ⟨⟨by simp [g1], by simp [f1], by simp [f1, hN], fun _ => f1, by simp [g1],
      by simp [g1]⟩, ?_⟩
    simp [inOrder, hst, g1]
  | measureNoiseFloor =>
    obtain ⟨f1, _, _, _, f5, f6⟩ := measureNoiseFloorBody_fields sensors s
    have hm : s.motorToTest = 0 := v4 (by simp [hst])
    rw [hm] at f1
    rw [healthRunTests_measureNoiseFloor _ _ _ _ hst]
    by_cases hc : (s.tick + 1) % 2 ^ 32 ≥ PROPTEST_NBR_OF_VARIANCE_VALUES
    · obtain ⟨g1, g2, _⟩ := f5 hc
      refine ⟨⟨by simp [g1], by simp [f1], by simp [f1, hN], fun _ => f1, by simp [g1],
        by simp [g1]⟩, ?_⟩
      simp [inOrder, hst, g1, f1]
    · obtain ⟨g1, _⟩ := f6 hc
      rw [hst] at g1
      refine ⟨⟨by simp [g1], by simp [f1], by simp [f1, hN], fun _ => f1, by simp [g1],
        by simp [g1]⟩, ?_⟩
      simp [inOrder, hst, g1]
  | measureProp =>
    rw [healthRunTests_measureProp _ _ _ _ hst]
    rcases measurePropBody_ctrl cfg sensors vbat s with ⟨g1, g2⟩ | ⟨g1, g2, g3⟩ | ⟨g1, g2, g3, g4⟩
    · rw [hst] at g1
      refine ⟨⟨by simp [g1], by rw [g2]; exact v2, by rw [g2]; exact v3, by simp [g1],
        by simp [g1], by simp [g1]⟩, ?_⟩
      simp only [inOrder, hst, g1, g2]
      exact Or.inl ⟨trivial, Or.inl trivial, v3⟩
    · rw [hst] at g1
      refine ⟨⟨by simp [g1], by rw [g2]; omega, by rw [g2]; exact g3, by simp [g1],
        by simp [g1], by simp [g1]⟩, ?_⟩
      simp only [inOrder, hst, g1, g2]
      exact Or.inl ⟨trivial, Or.inr trivial, g3⟩
    · refine ⟨⟨by simp [g1], by simp [g2], by simp [g2, hN], fun _ => g2, by simp [g1],
        fun _ _ _ => by rw [g3]; omega⟩, ?_⟩
      simp only [inOrder, hst, g1]
      refine Or.inr ⟨trivial, ?_⟩
      rw [hN] at g4 v3 ⊢
      omega
  | testBattery =>
    obtain ⟨f1, f2, _, _, f5⟩ := testBatteryBody_fields cfg vbat s
    have ht : s.tick ≤ 50 := v5 hst
    have hm : s.motorToTest = 0 := v4 (by simp [hst])
    rw [hm] at f5
    rw [hst] at f2
    rw [Nat.mod_eq_of_lt (by omega)] at f1
    rw [healthRunTests_testBattery _ _ _ _ hst]
    by_cases h50 : s.tick = 50
    · rw [if_pos h50] at f2
      refine ⟨⟨by simp [f2], by simp [f5], by simp [f5, hN], fun _ => f5, by simp [f2],
        fun _ _ _ => by rw [f1]; omega⟩, ?_⟩
      simp [inOrder, hst, f2]
    · rw [if_neg h50] at f2
      refine ⟨⟨by simp [f2], by simp [f5], by simp [f5, hN], fun _ => f5,
        fun _ => by rw [f1]; omega, fun h => absurd f2 h⟩, ?_⟩
      simp [inOrder, hst, f2]
  | evaluatePropResult =>
    obtain ⟨f1, f2, f3⟩ := evaluatePropResultBody_ctrl cfg s
    have ht : s.tick ≤ 51 := v6 (by simp [hst]) (by simp [hst]) (by simp [hst])
    have hm : s.motorToTest = 0 := v4 (by simp [hst])
    rw [hm] at f3
    rw [healthRunTests_evaluatePropResult _ _ _ _ hst]
    refine ⟨⟨by simp [f1], by simp [f3], by simp [f3, hN], fun _ => f3, by simp [f1],
      fun _ _ _ => by rw [f2]; exact ht⟩, ?_⟩
    simp [inOrder, hst, f1]
  | evaluateBatResult =>
    have ht : s.tick ≤ 51 := v6 (by simp [hst]) (by simp [hst]) (by simp [hst])
    have hm : s.motorToTest = 0 := v4 (by simp [hst])
    rw [healthRunTests_evaluateBatResult _ _ _ _ hst, evaluateBatResultBody_eq]
    refine ⟨⟨by simp, by simp [hm], by simp [hm, hN], fun _ => hm, by simp,
      fun _ _ _ => ht⟩, ?_⟩
    simp [inOrder, hst]

/-! ## `variance` as a sum of squared deviations -/

theorem varianceSpec_eq_sum_sq_dev (x : Nat → ℚ) (N : Nat) (hN : 1 ≤ N) :
    varianceSpec x N
      = ∑ i ∈ Finset.range N, (x i - (∑ j ∈ Finset.range N, x j) / (N : ℚ)) ^ 2 := by
  have hN0 : (N : ℚ) ≠ 0 := by exact_mod_cast (by omega : N ≠ 0)
  have hexp : ∀ i, (x i - (∑ j ∈ Finset.range N, x j) / (N : ℚ)) ^ 2
      = x i ^ 2 - 2 * ((∑ j ∈ Finset.range N, x j) / (N : ℚ)) * x i
        + ((∑ j ∈ Finset.range N, x j) / (N : ℚ)) ^ 2 := fun i => by ring
  simp only [hexp, Finset.sum_add_distrib, Finset.sum_sub_distrib, ← Finset.mul_sum,
    Finset.sum_const, Finset.card_range, nsmul_eq_mul, varianceSpec]
  field_simp
  ring

theorem variance_nonneg (x : Nat → ℚ) (N : Nat) (hN : 1 ≤ N) : 0 ≤ variance x N := by
  rw [variance_eq, varianceSpec_eq_sum_sq_dev x N hN]
  exact Finset.sum_nonneg (fun i _ => sq_nonneg _)

theorem variance_eq_zero_iff (x : Nat → ℚ) (N : Nat) (hN : 1 ≤ N) :
    variance x N = 0 ↔ ∀ i, i < N → ∀ j, j < N → x i = x j := by
  have hN0 : (N : ℚ) ≠ 0 := by exact_mod_cast (by omega : N ≠ 0)
  rw [variance_eq, varianceSpec_eq_sum_sq_dev x N hN,
    Finset.sum_eq_zero_iff_of_nonneg (fun i _ => sq_nonneg _)]
  constructor
  · intro h i hi j hj
    have h1 := h i (Finset.mem_range.mpr hi)
    have h2 := h j (Finset.mem_range.mpr hj)
    rw [sq_eq_zero_iff, sub_eq_zero] at h1 h2
    rw [h1, h2]
  · intro h i hi
    have hi' := Finset.mem_range.mp hi
    have hsum : ∑ j ∈ Finset.range N, x j = (N : ℚ) * x i := by
      rw [Finset.sum_congr rfl (fun j hj => (h i hi' j (Finset.mem_range.mp hj)).symm :
        ∀ j ∈ Finset.range N, x j = x i)]
      simp
    rw [hsum, mul_div_cancel_left₀ _ hN0]
    simp

/-- Claim C12: for `N >= 1` samples, `variance(buffer, N)` is the sum of the
squared deviations from the mean `(sum of x_i) / N`, that is `N` times the
population variance; it is not divided by `N`. -/
theorem variance_sum_sq_dev (buffer : Nat → ℚ) (N : Nat) (hN : 1 ≤ N) :
    variance buffer N
        = ∑ i ∈ Finset.range N, (buffer i - (∑ j ∈ Finset.range N, buffer j) / (N : ℚ)) ^ 2
      ∧ variance buffer N
        = (N : ℚ) * ((∑ i ∈ Finset.range N,
              (buffer i - (∑ j ∈ Finset.range N, buffer j) / (N : ℚ)) ^ 2) / (N : ℚ)) := by
  have hN0 : (N : ℚ) ≠ 0 := by exact_mod_cast (by omega : N ≠ 0)
  have h := varianceSpec_eq_sum_sq_dev buffer N hN
  rw [variance_eq]
  refine ⟨h, ?_⟩
  rw [mul_div_cancel₀ _ hN0]
  exact h

theorem variance_sum_sq_dev_witness :
    (1 ≤ 2)
      ∧ (variance (fun i => if i = 0 then 1 else 3) 2
          = ∑ i ∈ Finset.range 2, ((fun i => if i = 0 then (1 : ℚ) else 3) i
              - (∑ j ∈ Finset.range 2, (fun i => if i = 0 then (1 : ℚ) else 3) j) / ((2 : Nat) : ℚ)) ^ 2
        ∧ variance (fun i => if i = 0 then 1 else 3) 2
          = ((2 : Nat) : ℚ) * ((∑ i ∈ Finset.range 2, ((fun i => if i = 0 then (1 : ℚ) else 3) i
              - (∑ j ∈ Finset.range 2, (fun i => if i = 0 then (1 : ℚ) else 3) j) / ((2 : Nat) : ℚ)) ^ 2)
                / ((2 : Nat) : ℚ))) :=
  ⟨by decide, variance_sum_sq_dev (fun i => if i = 0 then 1 else 3) 2 (by decide)⟩

/-- Claim C18: for `N >= 1` samples, `variance(buffer, N)` is non-negative and
is 0 exactly when all `N` samples are equal; 100 identical samples (such as
x = 0, y = 0, z = 1 on every tick) give variance 0 on each axis, and 0 is not
strictly inside `(0, threshold)` for any threshold. -/
theorem variance_nonneg_zero_iff (buffer : Nat → ℚ) (N : Nat) (hN : 1 ≤ N) :
    0 ≤ variance buffer N
      ∧ (variance buffer N = 0 ↔ ∀ i, i < N → ∀ j, j < N → buffer i = buffer j)
      ∧ (∀ c : ℚ, variance (fun _ => c) PROPTEST_NBR_OF_VARIANCE_VALUES = 0)
      ∧ variance (fun _ => 0) 100 = 0 ∧ variance (fun _ => 1) 100 = 0
      ∧ (∀ c thr : ℚ, ¬ (0 < variance (fun _ => c) 100 ∧ variance (fun _ => c) 100 < thr)) := by
  have hc : ∀ c : ℚ, variance (fun _ => c) 100 = 0 := fun c =>
    (variance_eq_zero_iff (fun _ => c) 100 (by decide)).mpr (fun _ _ _ _ => rfl)
  refine ⟨variance_nonneg buffer N hN, variance_eq_zero_iff buffer N hN, hc, hc 0, hc 1, ?_⟩
  intro c thr h
  rw [hc c] at h
  exact lt_irrefl _ h.1

theorem variance_nonneg_zero_iff_witness :
    (1 ≤ 2) ∧ 0 ≤ variance (fun i => if i = 0 then 1 else 3) 2
      ∧ ¬ (variance (fun i => if i = 0 then 1 else 3) 2 = 0) := by
  refine ⟨by decide,
    (variance_nonneg_zero_iff (fun i => if i = 0 then 1 else 3) 2 (by decide)).1, ?_⟩
  rw [(variance_nonneg_zero_iff (fun i => if i = 0 then 1 else 3) 2 (by decide)).2.1]
  intro h
  have := h 0 (by decide) 1 (by decide)
  norm_num at this

/-! ## The evaluation of all motors in `evaluatePropResult` -/

theorem evaluatePropTest_fst_indep (low high value : ℚ) (motor : Nat) (s t : Health) :
    (evaluatePropTest low high value motor s).1 = (evaluatePropTest low high value motor t).1 := by
  rw [Bool.eq_iff_iff, evaluatePropTest_fst, evaluatePropTest_fst]

theorem motorFails_congr (s t : Health) (m : Nat) (h1 : t.propTestThreshold = s.propTestThreshold)
    (h2 : t.accVarX = s.accVarX) (h3 : t.accVarY = s.accVarY) :
    motorFails t m = motorFails s m := by
  unfold motorFails
  rw [h1, h2, h3, evaluatePropTest_fst_indep _ _ _ _ t s]

theorem evaluatePropIter_counts (cfg : Config) (m : Nat) (s : Health) :
    (evaluatePropIter cfg m s).nrFailedTests
        = (if motorFails s m then (s.nrFailedTests + 1) % 2 ^ 8 else s.nrFailedTests)
      ∧ (evaluatePropIter cfg m s).cmds
        = s.cmds ++ (if motorFails s m then failureBeepCmds cfg m else [])
      ∧ (evaluatePropIter cfg m s).motorTestCount = s.motorTestCount := by
  unfold evaluatePropIter motorFails
  simp only [failBeeps_eq, evaluatePropTest_snd]
  by_cases h : (evaluatePropTest 0 s.propTestThreshold (s.accVarX m + s.accVarY m) m s).1 = true
  · simp only [h, Bool.not_true, Bool.false_eq_true, if_false]
    split_ifs <;> simp
  · simp only [Bool.not_eq_true] at h
    simp only [h, Bool.not_false, if_true]
    split_ifs <;> simp [emit, failureBeepCmds, beepCmds]



theorem evaluatePropLoop_counts (cfg : Config) (n : Nat) :
    ∀ (m0 : Nat) (s : Health), s.nrFailedTests < 2 ^ 8 →
      (evaluatePropLoop cfg n m0 s).nrFailedTests
          = (s.nrFailedTests + (List.range' m0 n).countP (motorFails s)) % 2 ^ 8
        ∧ (evaluatePropLoop cfg n m0 s).cmds
          = s.cmds ++ ((List.range' m0 n).map
              (fun m => if motorFails s m then failureBeepCmds cfg m else [])).flatten
        ∧ (evaluatePropLoop cfg n m0 s).motorTestCount = s.motorTestCount := by
  induction n with
  | zero =>
    intro m0 s hs
    have h256 : s.nrFailedTests % 256 = s.nrFailedTests := Nat.mod_eq_of_lt hs
    simp [evaluatePropLoop, h256]
  | succ n ih =>
    intro m0 s hs
    obtain ⟨c1, c2, c3⟩ := evaluatePropIter_counts cfg m0 s
    obtain ⟨f1, f2, f3, _⟩ := evaluatePropIter_fields cfg m0 s
    have hlt : (evaluatePropIter cfg m0 s).nrFailedTests < 2 ^ 8 := by
      rw [c1]; split_ifs
      · exact Nat.mod_lt _ (by decide)
      · exact hs
    obtain ⟨i1, i2, i3⟩ := ih (m0 + 1) (evaluatePropIter cfg m0 s) hlt
    have hcongr : motorFails (evaluatePropIter cfg m0 s) = motorFails s :=
      funext (fun m => motorFails_congr s _ m f1 f2 f3)
    rw [evaluatePropLoop, i1, i2, i3, hcongr, c1, c2, c3, List.range'_succ, List.countP_cons,
      List.map_cons, List.flatten_cons, List.append_assoc]
    refine ⟨?_, rfl, rfl⟩
    by_cases hf : motorFails s m0 = true
    · simp only [hf, if_true]
      omega
    · simp only [hf, if_false, Bool.false_eq_true]
      omega

theorem melodyLoop_eq (cfg : Config) (n : Nat) :
    ∀ (m : Nat) (s : Health),
      melodyLoop cfg n m s
        = emit ((List.range' m n).map
            (fun k => beepCmds cfg k cfg.MOTORS_TEST_DELAY_TIME_MS)).flatten s := by
  induction n with
  | zero => intro m s; simp [melodyLoop, emit]
  | succ n ih =>
    intro m s
    rw [melodyLoop, ih, List.range'_succ]
    simp [emit, beepCmds]

/-- Claim C15: one call of `healthRunTests` in `evaluatePropResult` evaluates
all `NBR_OF_MOTORS` motors: `nrFailedTests` grows (modulo 2^8) by the number of
motors whose `evaluatePropTest` call returns false, the loop issues the three
failure beeps for each of these motors, in motor order, and nothing for the
other motors, `motorTestCount` grows by 1 (modulo 2^16) and the state becomes
`testDone`.  The only other calls are those of the melody compiled in under
`PLAY_STARTUP_MELODY_ON_MOTORS`, played after the loop when `nrFailedTests`
is 0. -/
theorem evaluatePropResult_counts (cfg : Config) (sensors : SensorData) (vbat : ℚ) (s : Health)
    (hst : s.testState = TestState.evaluatePropResult) (hnr : s.nrFailedTests < 2 ^ 8) :
    (healthRunTests cfg sensors vbat s).nrFailedTests
        = (s.nrFailedTests + (List.range NBR_OF_MOTORS).countP (motorFails s)) % 2 ^ 8
      ∧ (healthRunTests cfg sensors vbat s).cmds
        = s.cmds
          ++ ((List.range NBR_OF_MOTORS).map
                (fun m => if motorFails s m then failureBeepCmds cfg m else [])).flatten
          ++ (if cfg.PLAY_STARTUP_MELODY_ON_MOTORS = true
                  ∧ (healthRunTests cfg sensors vbat s).nrFailedTests = 0 then
                ((List.range NBR_OF_MOTORS).map
                  (fun m => beepCmds cfg m cfg.MOTORS_TEST_DELAY_TIME_MS)).flatten
              else [])
      ∧ (cfg.PLAY_STARTUP_MELODY_ON_MOTORS = false →
          (healthRunTests cfg sensors vbat s).cmds
            = s.cmds
              ++ ((List.range NBR_OF_MOTORS).map
                    (fun m => if motorFails s m then failureBeepCmds cfg m else [])).flatten)
      ∧ (healthRunTests cfg sensors vbat s).motorTestCount = (s.motorTestCount + 1) % 2 ^ 16
      ∧ (healthRunTests cfg sensors vbat s).testState = TestState.testDone := by
  obtain ⟨l1, l2, l3⟩ := evaluatePropLoop_counts cfg NBR_OF_MOTORS 0 s hnr
  rw [← List.range_eq_range'] at l1 l2
  have e : healthRunTests cfg sensors vbat s = evaluatePropResultBody cfg s :=
    healthRunTests_evaluatePropResult cfg sensors vbat s hst
  have hnr' : (evaluatePropResultBody cfg s).nrFailedTests
      = (evaluatePropLoop cfg NBR_OF_MOTORS 0 s).nrFailedTests := by
    unfold evaluatePropResultBody
    simp only [melodyLoop_eq]
    split_ifs <;> simp [emit]
  have hcm : (evaluatePropResultBody cfg s).cmds
      = (evaluatePropLoop cfg NBR_OF_MOTORS 0 s).cmds
          ++ (if cfg.PLAY_STARTUP_MELODY_ON_MOTORS = true
                  ∧ (evaluatePropLoop cfg NBR_OF_MOTORS 0 s).nrFailedTests = 0 then
                ((List.range NBR_OF_MOTORS).map
                  (fun m => beepCmds cfg m cfg.MOTORS_TEST_DELAY_TIME_MS)).flatten
              else []) := by
    unfold evaluatePropResultBody
    simp only [melodyLoop_eq, ← List.range_eq_range']
    split_ifs <;> simp [emit]
  have htc : (evaluatePropResultBody cfg s).motorTestCount
      = ((evaluatePropLoop cfg NBR_OF_MOTORS 0 s).motorTestCount + 1) % 2 ^ 16 := by
    unfold evaluatePropResultBody
    simp only [melodyLoop_eq]
    split_ifs <;> simp [emit]
  rw [e, hnr', hcm, htc, l1, l2, l3]
  refine ⟨rfl, rfl, fun h => ?_, rfl, evaluatePropResultBody_testState cfg s⟩
  simp [h]

theorem evaluatePropResult_counts_witness :
    evalPropExample.testState = TestState.evaluatePropResult
      ∧ evalPropExample.nrFailedTests < 2 ^ 8
      ∧ (healthRunTests (exampleConfig 50 50 0 (1 / 2)) ⟨⟨0, 0, 1⟩⟩ 4 evalPropExample).nrFailedTests
          = (evalPropExample.nrFailedTests
              + (List.range NBR_OF_MOTORS).countP (motorFails evalPropExample)) % 2 ^ 8
      ∧ (healthRunTests (exampleConfig 50 50 0 (1 / 2)) ⟨⟨0, 0, 1⟩⟩ 4 evalPropExample).motorTestCount
          = (evalPropExample.motorTestCount + 1) % 2 ^ 16
      ∧ (healthRunTests (exampleConfig 50 50 0 (1 / 2)) ⟨⟨0, 0, 1⟩⟩ 4 evalPropExample).testState
          = TestState.testDone :=
  ⟨rfl, by decide,
    (evaluatePropResult_counts (exampleConfig 50 50 0 (1 / 2)) ⟨⟨0, 0, 1⟩⟩ 4 evalPropExample rfl
      (by decide)).1,
    (evaluatePropResult_counts (exampleConfig 50 50 0 (1 / 2)) ⟨⟨0, 0, 1⟩⟩ 4 evalPropExample rfl
      (by decide)).2.2.2.1,
    (evaluatePropResult_counts (exampleConfig 50 50 0 (1 / 2)) ⟨⟨0, 0, 1⟩⟩ 4 evalPropExample rfl
      (by decide)).2.2.2.2⟩

/-! ## Invariants of every use of the module -/

theorem healthRunTests_testDone (cfg : Config) (sensors : SensorData) (vbat : ℚ) (s : Health)
    (h : s.testState = TestState.testDone) : healthRunTests cfg sensors vbat s = s := by
  simp [healthRunTests, h]

theorem healthRunTests_weak (cfg : Config) (sensors : SensorData) (vbat : ℚ) (s : Health)
    (h1 : s.testState ≠ TestState.restartBatTest)
    (h2 : 0 ≤ s.motorToTest ∧ s.motorToTest < (NBR_OF_MOTORS : Int)) :
    (healthRunTests cfg sensors vbat s).testState ≠ TestState.restartBatTest
      ∧ 0 ≤ (healthRunTests cfg sensors vbat s).motorToTest
      ∧ (healthRunTests cfg sensors vbat s).motorToTest < (NBR_OF_MOTORS : Int) := by
  have hN : (NBR_OF_MOTORS : Int) = 4 := rfl
  cases hst : s.testState with
  | restartBatTest => exact absurd hst h1
  | testDone =>
    rw [healthRunTests_testDone _ _ _ _ hst]
    exact ⟨h1, h2.1, h2.2⟩
  | configureAcc =>
    obtain ⟨c1, _, c3, _⟩ := configureAccBody_fields vbat s
    obtain ⟨f1, _, _, _, f5, f6⟩ := measureNoiseFloorBody_fields sensors (configureAccBody vbat s)
    rw [healthRunTests_configureAcc _ _ _ _ hst, f1, c3]
    refine ⟨?_, h2.1, h2.2⟩
    by_cases hc : ((configureAccBody vbat s).tick + 1) % 2 ^ 32 ≥ PROPTEST_NBR_OF_VARIANCE_VALUES
    · rw [(f5 hc).1]; simp
    · rw [(f6 hc).1, c1]; simp
  | measureNoiseFloor =>
    obtain ⟨f1, _, _, _, f5, f6⟩ := measureNoiseFloorBody_fields sensors s
    rw [healthRunTests_measureNoiseFloor _ _ _ _ hst, f1]
    refine ⟨?_, h2.1, h2.2⟩
    by_cases hc : (s.tick + 1) % 2 ^ 32 ≥ PROPTEST_NBR_OF_VARIANCE_VALUES
    · rw [(f5 hc).1]; simp
    · rw [(f6 hc).1, hst]; simp
  | measureProp =>
    rw [healthRunTests_measureProp _ _ _ _ hst]
    rcases measurePropBody_ctrl cfg sensors vbat s with ⟨g1, g2⟩ | ⟨g1, g2, g3⟩ | ⟨g1, g2, _, _⟩
    · rw [g1, g2]; exact ⟨h1, h2.1, h2.2⟩
    · rw [g1, g2]; exact ⟨h1, by omega, g3⟩
    · rw [g1, g2, hN]; simp
  | testBattery =>
    obtain ⟨_, f2, _, _, f5⟩ := testBatteryBody_fields cfg vbat s
    rw [healthRunTests_testBattery _ _ _ _ hst, f2, f5]
    refine ⟨?_, h2.1, h2.2⟩
    split_ifs
    · simp
    · exact h1
  | evaluatePropResult =>
    obtain ⟨f1, _, f3⟩ := evaluatePropResultBody_ctrl cfg s
    rw [healthRunTests_evaluatePropResult _ _ _ _ hst, f1, f3]
    exact ⟨by simp, h2.1, h2.2⟩
  | evaluateBatResult =>
    rw [healthRunTests_evaluateBatResult _ _ _ _ hst, evaluateBatResultBody_eq]
    exact ⟨by simp, h2.1, h2.2⟩

theorem healthShallWeRunTest_weak (s : Health)
    (h1 : s.testState ≠ TestState.restartBatTest) :
    (healthShallWeRunTest s).2.testState ≠ TestState.restartBatTest
      ∧ (healthShallWeRunTest s).2.motorToTest = s.motorToTest := by
  unfold healthShallWeRunTest
  dsimp only
  split_ifs <;> simp [h1]

theorem applyCall_weak (cfg : Config) (s : Health) (c : Call)
    (h1 : s.testState ≠ TestState.restartBatTest)
    (h2 : 0 ≤ s.motorToTest ∧ s.motorToTest < (NBR_OF_MOTORS : Int)) :
    (applyCall cfg s c).testState ≠ TestState.restartBatTest
      ∧ 0 ≤ (applyCall cfg s c).motorToTest
      ∧ (applyCall cfg s c).motorToTest < (NBR_OF_MOTORS : Int) := by
  cases c with
  | setFlags prop bat => exact ⟨h1, h2.1, h2.2⟩
  | shallWeRunTest =>
    obtain ⟨w1, w2⟩ := healthShallWeRunTest_weak s h1
    simp only [applyCall]
    rw [w2]
    exact ⟨w1, h2.1, h2.2⟩
  | runTests sensors vbat => exact healthRunTests_weak cfg sensors vbat s h1 h2

theorem applyCalls_weak (cfg : Config) (cs : List Call) :
    ∀ s : Health, s.testState ≠ TestState.restartBatTest →
      (0 ≤ s.motorToTest ∧ s.motorToTest < (NBR_OF_MOTORS : Int)) →
      (applyCalls cfg s cs).testState ≠ TestState.restartBatTest
        ∧ 0 ≤ (applyCalls cfg s cs).motorToTest
        ∧ (applyCalls cfg s cs).motorToTest < (NBR_OF_MOTORS : Int) := by
  induction cs with
  | nil => intro s h1 h2; exact ⟨h1, h2.1, h2.2⟩
  | cons c cs ih =>
    intro s h1 h2
    obtain ⟨w1, w2, w3⟩ := applyCall_weak cfg s c h1 h2
    exact ih (applyCall cfg s c) w1 ⟨w2, w3⟩

theorem initHealth_weak (thr : ℚ) (propRatio batRatio : Nat) (atStartup : Bool) :
    (initHealth thr propRatio batRatio atStartup).testState ≠ TestState.restartBatTest
      ∧ 0 ≤ (initHealth thr propRatio batRatio atStartup).motorToTest
      ∧ (initHealth thr propRatio batRatio atStartup).motorToTest < (NBR_OF_MOTORS : Int) := by
  cases atStartup <;> simp [initHealth, NBR_OF_MOTORS]

theorem runTicks_eq_applyCalls (cfg : Config) (inp : Nat → TickInput) (s : Health) (n : Nat) :
    ∃ cs, runTicks cfg inp s n = applyCalls cfg s cs := by
  induction n with
  | zero => exact ⟨[], rfl⟩
  | succ n ih =>
    obtain ⟨cs, hcs⟩ := ih
    by_cases hr : (healthShallWeRunTest (paramWrite (inp n) (runTicks cfg inp s n))).1 = true
    · refine ⟨cs ++ [Call.setFlags (paramWrite (inp n) (runTicks cfg inp s n)).startPropTest
          (paramWrite (inp n) (runTicks cfg inp s n)).startBatTest,
        Call.shallWeRunTest, Call.runTests (inp n).sensors (inp n).vbat], ?_⟩
      simp only [applyCalls, List.foldl_append, List.foldl_cons, List.foldl_nil, applyCall]
      rw [runTicks, schedulerTick, if_pos hr]
      have e : applyCalls cfg s cs = List.foldl (applyCall cfg) s cs := rfl
      rw [← e, ← hcs]
      rfl
    · refine ⟨cs ++ [Call.setFlags (paramWrite (inp n) (runTicks cfg inp s n)).startPropTest
          (paramWrite (inp n) (runTicks cfg inp s n)).startBatTest,
        Call.shallWeRunTest], ?_⟩
      simp only [applyCalls, List.foldl_append, List.foldl_cons, List.foldl_nil, applyCall]
      rw [runTicks, schedulerTick, if_neg hr]
      have e : applyCalls cfg s cs = List.foldl (applyCall cfg) s cs := rfl
      rw [← e, ← hcs]
      rfl

/-- Claim C20: the state `restartBatTest` is never reached.  From either
initial state (`testDone`, or `configureAcc` when the test runs at startup),
after any sequence of writes of the trigger flags and calls of
`healthShallWeRunTest` and `healthRunTests` with any inputs, `testState` is not
`restartBatTest`; the same holds after any number of control ticks. -/
theorem restartBatTest_unreachable (cfg : Config) (thr : ℚ) (propRatio batRatio : Nat)
    (atStartup : Bool) (cs : List Call) (inp : Nat → TickInput) (n : Nat) :
    (applyCalls cfg (initHealth thr propRatio batRatio atStartup) cs).testState
        ≠ TestState.restartBatTest
      ∧ (runTicks cfg inp (initHealth thr propRatio batRatio atStartup) n).testState
        ≠ TestState.restartBatTest := by
  obtain ⟨h1, h2, h3⟩ := initHealth_weak thr propRatio batRatio atStartup
  refine ⟨(applyCalls_weak cfg cs _ h1 ⟨h2, h3⟩).1, ?_⟩
  obtain ⟨cs2, hcs2⟩ := runTicks_eq_applyCalls cfg inp (initHealth thr propRatio batRatio atStartup) n
  rw [hcs2]
  exact (applyCalls_weak cfg cs2 _ h1 ⟨h2, h3⟩).1

/-! ## Array indices of the branches `measureProp` and `evaluatePropResult` -/

theorem measurePropSample_arrays (p : MotorHealthTestDef) (sensors : SensorData) (vbat : ℚ)
    (s : Health) :
    ((measurePropSample p sensors vbat s).accX = s.accX
        ∧ (measurePropSample p sensors vbat s).accY = s.accY
        ∧ (measurePropSample p sensors vbat s).accZ = s.accZ
        ∧ (measurePropSample p sensors vbat s).minSingleLoadedVoltage = s.minSingleLoadedVoltage
      ∨ ∃ i : Nat, i < PROPTEST_NBR_OF_VARIANCE_VALUES
          ∧ (i : Int) = toInt32 s.tick - (p.varianceMeasurementStartMsec.val : Int)
          ∧ (measurePropSample p sensors vbat s).accX = Function.update s.accX i sensors.acc.x
          ∧ (measurePropSample p sensors vbat s).accY = Function.update s.accY i sensors.acc.y
          ∧ (measurePropSample p sensors vbat s).accZ = Function.update s.accZ i sensors.acc.z
          ∧ ((measurePropSample p sensors vbat s).minSingleLoadedVoltage = s.minSingleLoadedVoltage
              ∨ (measurePropSample p sensors vbat s).minSingleLoadedVoltage
                  = Function.update s.minSingleLoadedVoltage s.motorToTest.toNat vbat))
      ∧ (((measurePropSample p sensors vbat s).accVarX = s.accVarX
            ∧ (measurePropSample p sensors vbat s).accVarY = s.accVarY
            ∧ (measurePropSample p sensors vbat s).accVarZ = s.accVarZ)
          ∨ (toInt32 s.tick - (p.varianceMeasurementStartMsec.val : Int)
                = (PROPTEST_NBR_OF_VARIANCE_VALUES : Int)
              ∧ (measurePropSample p sensors vbat s).accVarX
                = Function.update s.accVarX s.motorToTest.toNat
                    (variance s.accX PROPTEST_NBR_OF_VARIANCE_VALUES)
              ∧ (measurePropSample p sensors vbat s).accVarY
                = Function.update s.accVarY s.motorToTest.toNat
                    (variance s.accY PROPTEST_NBR_OF_VARIANCE_VALUES)
              ∧ (measurePropSample p sensors vbat s).accVarZ
                = Function.update s.accVarZ s.motorToTest.toNat
                    (variance s.accZ PROPTEST_NBR_OF_VARIANCE_VALUES))) := by
  unfold measurePropSample
  dsimp only
  by_cases hw : toInt32 s.tick - (p.varianceMeasurementStartMsec.val : Int) ≥ 0
      ∧ toInt32 s.tick - (p.varianceMeasurementStartMsec.val : Int)
          < (PROPTEST_NBR_OF_VARIANCE_VALUES : Int)
  · have hne : ¬ toInt32 s.tick - (p.varianceMeasurementStartMsec.val : Int)
        = (PROPTEST_NBR_OF_VARIANCE_VALUES : Int) := fun h => by omega
    rw [if_pos hw, if_neg hne]
    refine ⟨Or.inr ⟨(toInt32 s.tick - (p.varianceMeasurementStartMsec.val : Int)).toNat,
      ?_, ?_, ?_⟩, Or.inl ?_⟩
    · have := hw.2
      unfold PROPTEST_NBR_OF_VARIANCE_VALUES at this ⊢
      omega
    · rw [Int.toNat_of_nonneg hw.1]
    · split_ifs <;> simp
    · split_ifs <;> simp
  · by_cases he : toInt32 s.tick - (p.varianceMeasurementStartMsec.val : Int)
        = (PROPTEST_NBR_OF_VARIANCE_VALUES : Int)
    · rw [if_neg hw, if_pos he]
      exact ⟨Or.inl ⟨rfl, rfl, rfl, rfl⟩, Or.inr ⟨he, rfl, rfl, rfl⟩⟩
    · rw [if_neg hw, if_neg he]
      exact ⟨Or.inl ⟨rfl, rfl, rfl, rfl⟩, Or.inl ⟨rfl, rfl, rfl⟩⟩

theorem measurePropControl_arrays (p : MotorHealthTestDef) (s : Health) :
    (measurePropControl p s).accX = s.accX
      ∧ (measurePropControl p s).accY = s.accY
      ∧ (measurePropControl p s).accZ = s.accZ
      ∧ (measurePropControl p s).accVarX = s.accVarX
      ∧ (measurePropControl p s).accVarY = s.accVarY
      ∧ (measurePropControl p s).accVarZ = s.accVarZ
      ∧ (measurePropControl p s).minSingleLoadedVoltage = s.minSingleLoadedVoltage := by
  unfold measurePropControl
  dsimp only
  split_ifs <;> simp [emit]

theorem evaluatePropIter_arrays (cfg : Config) (m : Nat) (s : Health) :
    (evaluatePropIter cfg m s).accX = s.accX
      ∧ (evaluatePropIter cfg m s).accY = s.accY
      ∧ (evaluatePropIter cfg m s).accZ = s.accZ
      ∧ (evaluatePropIter cfg m s).accVarX = s.accVarX
      ∧ (evaluatePropIter cfg m s).accVarY = s.accVarY
      ∧ (evaluatePropIter cfg m s).accVarZ = s.accVarZ
      ∧ (evaluatePropIter cfg m s).minSingleLoadedVoltage = s.minSingleLoadedVoltage := by
  unfold evaluatePropIter
  simp only [failBeeps_eq, evaluatePropTest_snd]
  split_ifs <;> simp [emit]

theorem evaluatePropLoop_eq_foldl (cfg : Config) (n : Nat) :
    ∀ (m0 : Nat) (s : Health),
      evaluatePropLoop cfg n m0 s
        = (List.range' m0 n).foldl (fun st m => evaluatePropIter cfg m st) s := by
  induction n with
  | zero => intro m0 s; simp [evaluatePropLoop]
  | succ n ih =>
    intro m0 s
    rw [evaluatePropLoop, ih, List.range'_succ, List.foldl_cons]

theorem evaluatePropLoop_arrays (cfg : Config) (n : Nat) :
    ∀ (m0 : Nat) (s : Health),
      (evaluatePropLoop cfg n m0 s).accX = s.accX
        ∧ (evaluatePropLoop cfg n m0 s).accY = s.accY
        ∧ (evaluatePropLoop cfg n m0 s).accZ = s.accZ
        ∧ (evaluatePropLoop cfg n m0 s).accVarX = s.accVarX
        ∧ (evaluatePropLoop cfg n m0 s).accVarY = s.accVarY
        ∧ (evaluatePropLoop cfg n m0 s).accVarZ = s.accVarZ
        ∧ (evaluatePropLoop cfg n m0 s).minSingleLoadedVoltage = s.minSingleLoadedVoltage := by
  induction n with
  | zero => intro m0 s; simp [evaluatePropLoop]
  | succ n ih =>
    intro m0 s
    obtain ⟨a1, a2, a3, a4, a5, a6, a7⟩ := evaluatePropIter_arrays cfg m0 s
    obtain ⟨b1, b2, b3, b4, b5, b6, b7⟩ := ih (m0 + 1) (evaluatePropIter cfg m0 s)
    rw [evaluatePropLoop]
    exact ⟨b1.trans a1, b2.trans a2, b3.trans a3, b4.trans a4, b5.trans a5, b6.trans a6,
      b7.trans a7⟩

theorem evaluatePropResultBody_arrays (cfg : Config) (s : Health) :
    (evaluatePropResultBody cfg s).accX = s.accX
      ∧ (evaluatePropResultBody cfg s).accY = s.accY
      ∧ (evaluatePropResultBody cfg s).accZ = s.accZ
      ∧ (evaluatePropResultBody cfg s).accVarX = s.accVarX
      ∧ (evaluatePropResultBody cfg s).accVarY = s.accVarY
      ∧ (evaluatePropResultBody cfg s).accVarZ = s.accVarZ
      ∧ (evaluatePropResultBody cfg s).minSingleLoadedVoltage = s.minSingleLoadedVoltage := by
  obtain ⟨b1, b2, b3, b4, b5, b6, b7⟩ := evaluatePropLoop_arrays cfg NBR_OF_MOTORS 0 s
  unfold evaluatePropResultBody
  simp only [melodyLoop_eq]
  refine ⟨?_, ?_, ?_, ?_, ?_, ?_, ?_⟩ <;> split_ifs <;> simp [emit, *]

theorem measurePropBody_frames (cfg : Config) (sensors : SensorData) (vbat : ℚ) (s : Health)
    (hm : s.motorToTest.toNat < NBR_OF_MOTORS) :
    (∀ i, PROPTEST_NBR_OF_VARIANCE_VALUES ≤ i →
        (measurePropBody cfg sensors vbat s).accX i = s.accX i
          ∧ (measurePropBody cfg sensors vbat s).accY i = s.accY i
          ∧ (measurePropBody cfg sensors vbat s).accZ i = s.accZ i)
      ∧ (∀ j, NBR_OF_MOTORS ≤ j →
          (measurePropBody cfg sensors vbat s).accVarX j = s.accVarX j
            ∧ (measurePropBody cfg sensors vbat s).accVarY j = s.accVarY j
            ∧ (measurePropBody cfg sensors vbat s).accVarZ j = s.accVarZ j
            ∧ (measurePropBody cfg sensors vbat s).minSingleLoadedVoltage j
                = s.minSingleLoadedVoltage j) := by
  unfold measurePropBody
  dsimp only
  generalize cfg.motorsGetHealthTestSettings s.motorToTest.toNat = p
  obtain ⟨c1, c2, c3, c4, c5, c6, c7⟩ :=
    measurePropControl_arrays p (measurePropSample p sensors vbat s)
  obtain ⟨hA, hB⟩ := measurePropSample_arrays p sensors vbat s
  rw [c1, c2, c3, c4, c5, c6, c7]
  constructor
  · intro i hi
    rcases hA with ⟨a1, a2, a3, _⟩ | ⟨k, hk, _, a1, a2, a3, _⟩
    · rw [a1, a2, a3]; exact ⟨rfl, rfl, rfl⟩
    · have hne : i ≠ k := by omega
      rw [a1, a2, a3]
      simp [Function.update_noteq hne]
  · intro j hj
    have hne : j ≠ s.motorToTest.toNat := by omega
    refine ⟨?_, ?_, ?_, ?_⟩
    · rcases hB with ⟨b1, _, _⟩ | ⟨_, b1, _, _⟩
      · rw [b1]
      · rw [b1, Function.update_noteq hne]
    · rcases hB with ⟨_, b2, _⟩ | ⟨_, _, b2, _⟩
      · rw [b2]
      · rw [b2, Function.update_noteq hne]
    · rcases hB with ⟨_, _, b3⟩ | ⟨_, _, _, b3⟩
      · rw [b3]
      · rw [b3, Function.update_noteq hne]
    · rcases hA with ⟨_, _, _, a4⟩ | ⟨_, _, _, _, _, _, a4 | a4⟩
      · rw [a4]
      · rw [a4]
      · rw [a4, Function.update_noteq hne]

/-- Claim C19: in every state reached from the initial state by any sequence
of flag writes and calls of `healthShallWeRunTest` and `healthRunTests`,
`0 <= motorToTest < NBR_OF_MOTORS`.  In such a state the branch `measureProp`
writes the sample buffers either not at all or at the index `sampleIndex`, with
`0 <= sampleIndex < 100`; it leaves every cell outside the 100-element sample
buffers and outside the `NBR_OF_MOTORS`-element per-motor arrays unchanged.
The branch `evaluatePropResult` writes none of the arrays and its loop visits
the motors `0 .. NBR_OF_MOTORS - 1`. -/
theorem indices_in_bounds (cfg : Config) (thr : ℚ) (propRatio batRatio : Nat) (atStartup : Bool)
    (cs : List Call) (sensors : SensorData) (vbat : ℚ) :
    0 ≤ (applyCalls cfg (initHealth thr propRatio batRatio atStartup) cs).motorToTest
      ∧ (applyCalls cfg (initHealth thr propRatio batRatio atStartup) cs).motorToTest
          < (NBR_OF_MOTORS : Int)
      ∧ (applyCalls cfg (initHealth thr propRatio batRatio atStartup) cs).motorToTest.toNat
          < NBR_OF_MOTORS
      ∧ ((applyCalls cfg (initHealth thr propRatio batRatio atStartup) cs).testState
            = TestState.measureProp →
          (∀ p : MotorHealthTestDef,
            ((measurePropSample p sensors vbat
                  (applyCalls cfg (initHealth thr propRatio batRatio atStartup) cs)).accX
                = (applyCalls cfg (initHealth thr propRatio batRatio atStartup) cs).accX
              ∨ ∃ i : Nat, i < PROPTEST_NBR_OF_VARIANCE_VALUES
                  ∧ (i : Int)
                    = toInt32 (applyCalls cfg (initHealth thr propRatio batRatio atStartup) cs).tick
                        - (p.varianceMeasurementStartMsec.val : Int)
                  ∧ (measurePropSample p sensors vbat
                        (applyCalls cfg (initHealth thr propRatio batRatio atStartup) cs)).accX
                      = Function.update
                          (applyCalls cfg (initHealth thr propRatio batRatio atStartup) cs).accX
                          i sensors.acc.x))
            ∧ (∀ i, PROPTEST_NBR_OF_VARIANCE_VALUES ≤ i →
                (healthRunTests cfg sensors vbat
                    (applyCalls cfg (initHealth thr propRatio batRatio atStartup) cs)).accX i
                  = (applyCalls cfg (initHealth thr propRatio batRatio atStartup) cs).accX i
                ∧ (healthRunTests cfg sensors vbat
                    (applyCalls cfg (initHealth thr propRatio batRatio atStartup) cs)).accY i
                  = (applyCalls cfg (initHealth thr propRatio batRatio atStartup) cs).accY i
                ∧ (healthRunTests cfg sensors vbat
                    (applyCalls cfg (initHealth thr propRatio batRatio atStartup) cs)).accZ i
                  = (applyCalls cfg (initHealth thr propRatio batRatio atStartup) cs).accZ i)
            ∧ (∀ j, NBR_OF_MOTORS ≤ j →
                (healthRunTests cfg sensors vbat
                    (applyCalls cfg (initHealth thr propRatio batRatio atStartup) cs)).accVarX j
                  = (applyCalls cfg (initHealth thr propRatio batRatio atStartup) cs).accVarX j
                ∧ (healthRunTests cfg sensors vbat
                    (applyCalls cfg (initHealth thr propRatio batRatio atStartup) cs)).accVarY j
                  = (applyCalls cfg (initHealth thr propRatio batRatio atStartup) cs).accVarY j
                ∧ (healthRunTests cfg sensors vbat
                    (applyCalls cfg (initHealth thr propRatio batRatio atStartup) cs)).accVarZ j
                  = (applyCalls cfg (initHealth thr propRatio batRatio atStartup) cs).accVarZ j
                ∧ (healthRunTests cfg sensors vbat
                    (applyCalls cfg (initHealth thr propRatio batRatio atStartup)
                      cs)).minSingleLoadedVoltage j
                  = (applyCalls cfg (initHealth thr propRatio batRatio atStartup)
                      cs).minSingleLoadedVoltage j))
      ∧ ((applyCalls cfg (initHealth thr propRatio batRatio atStartup) cs).testState
            = TestState.evaluatePropResult →
          (healthRunTests cfg sensors vbat
              (applyCalls cfg (initHealth thr propRatio batRatio atStartup) cs)).accVarX
            = (applyCalls cfg (initHealth thr propRatio batRatio atStartup) cs).accVarX
          ∧ (healthRunTests cfg sensors vbat
              (applyCalls cfg (initHealth thr propRatio batRatio atStartup) cs)).accVarY
            = (applyCalls cfg (initHealth thr propRatio batRatio atStartup) cs).accVarY
          ∧ evaluatePropLoop cfg NBR_OF_MOTORS 0
              (applyCalls cfg (initHealth thr propRatio batRatio atStartup) cs)
            = (List.range NBR_OF_MOTORS).foldl (fun st m => evaluatePropIter cfg m st)
                (applyCalls cfg (initHealth thr propRatio batRatio atStartup) cs)
          ∧ ∀ m, m ∈ List.range NBR_OF_MOTORS → m < NBR_OF_MOTORS) := by
  obtain ⟨h1, h2, h3⟩ := initHealth_weak thr propRatio batRatio atStartup
  obtain ⟨_, w2, w3⟩ := applyCalls_weak cfg cs _ h1 ⟨h2, h3⟩
  generalize applyCalls cfg (initHealth thr propRatio batRatio atStartup) cs = s at w2 w3 ⊢
  have hN : (NBR_OF_MOTORS : Int) = 4 := rfl
  have hm : s.motorToTest.toNat < NBR_OF_MOTORS := by
    unfold NBR_OF_MOTORS
    omega
  refine ⟨w2, w3, hm, fun hst => ⟨fun p => ?_, ?_⟩, fun hst => ?_⟩
  · rcases (measurePropSample_arrays p sensors vbat s).1 with ⟨a1, _⟩ | ⟨i, hi, hidx, a1, _⟩
    · exact Or.inl a1
    · exact Or.inr ⟨i, hi, hidx, a1⟩
  · rw [healthRunTests_measureProp _ _ _ _ hst]
    exact measurePropBody_frames cfg sensors vbat s hm
  · obtain ⟨_, _, _, b4, b5, _, _⟩ := evaluatePropResultBody_arrays cfg s
    rw [healthRunTests_evaluatePropResult _ _ _ _ hst, List.range_eq_range']
    exact ⟨b4, b5, evaluatePropLoop_eq_foldl cfg NBR_OF_MOTORS 0 s,
      fun m hm' => (List.mem_range'_1.mp hm').2.trans_eq (Nat.zero_add _)⟩

/-! ## Control ticks without a trigger are calls of `healthRunTests` -/

theorem evaluatePropLoop_flags (cfg : Config) (n : Nat) :
    ∀ (m0 : Nat) (s : Health),
      (evaluatePropLoop cfg n m0 s).startPropTest = s.startPropTest
        ∧ (evaluatePropLoop cfg n m0 s).startBatTest = s.startBatTest := by
  induction n with
  | zero => intro m0 s; simp [evaluatePropLoop]
  | succ n ih =>
    intro m0 s
    obtain ⟨i1, i2⟩ := ih (m0 + 1) (evaluatePropIter cfg m0 s)
    have h : (evaluatePropIter cfg m0 s).startPropTest = s.startPropTest
        ∧ (evaluatePropIter cfg m0 s).startBatTest = s.startBatTest := by
      unfold evaluatePropIter
      simp only [failBeeps_eq, evaluatePropTest_snd]
      split_ifs <;> simp [emit]
    rw [evaluatePropLoop]
    exact ⟨i1.trans h.1, i2.trans h.2⟩

theorem healthRunTests_flags (cfg : Config) (sensors : SensorData) (vbat : ℚ) (s : Health) :
    (healthRunTests cfg sensors vbat s).startPropTest = s.startPropTest
      ∧ (healthRunTests cfg sensors vbat s).startBatTest = s.startBatTest := by
  have hnf : ∀ t : Health, (measureNoiseFloorBody sensors t).startPropTest = t.startPropTest
      ∧ (measureNoiseFloorBody sensors t).startBatTest = t.startBatTest := by
    intro t
    unfold measureNoiseFloorBody
    dsimp only
    split_ifs <;> exact ⟨rfl, rfl⟩
  cases hst : s.testState with
  | testDone => rw [healthRunTests_testDone _ _ _ _ hst]; exact ⟨rfl, rfl⟩
  | configureAcc =>
    rw [healthRunTests_configureAcc _ _ _ _ hst]
    exact ⟨(hnf _).1.trans (by simp [configureAccBody, emit]),
      (hnf _).2.trans (by simp [configureAccBody, emit])⟩
  | measureNoiseFloor =>
    rw [healthRunTests_measureNoiseFloor _ _ _ _ hst]
    exact hnf s
  | measureProp =>
    have hs : ∀ p : MotorHealthTestDef,
        (measurePropSample p sensors vbat s).startPropTest = s.startPropTest
          ∧ (measurePropSample p sensors vbat s).startBatTest = s.startBatTest := by
      intro p
      unfold measurePropSample
      dsimp only
      constructor <;> split_ifs <;> rfl
    have hc : ∀ (p : MotorHealthTestDef) (t : Health),
        (measurePropControl p t).startPropTest = t.startPropTest
          ∧ (measurePropControl p t).startBatTest = t.startBatTest := by
      intro p t
      unfold measurePropControl
      dsimp only
      constructor <;> split_ifs <;> simp [emit]
    rw [healthRunTests_measureProp _ _ _ _ hst, measurePropBody]
    exact ⟨(hc _ _).1.trans (hs _).1, (hc _ _).2.trans (hs _).2⟩
  | testBattery =>
    rw [healthRunTests_testBattery _ _ _ _ hst]
    unfold testBatteryBody
    dsimp only
    constructor <;> split_ifs <;> simp [emit]
  | restartBatTest =>
    have e : healthRunTests cfg sensors vbat s = restartBatTestBody s := by
      simp [healthRunTests, hst]
    rw [e]
    unfold restartBatTestBody
    dsimp only
    constructor <;> split_ifs <;> rfl
  | evaluatePropResult =>
    obtain ⟨l1, l2⟩ := evaluatePropLoop_flags cfg NBR_OF_MOTORS 0 s
    rw [healthRunTests_evaluatePropResult _ _ _ _ hst]
    unfold evaluatePropResultBody
    simp only [melodyLoop_eq]
    constructor <;> split_ifs <;> simp [emit, l1, l2]
  | evaluateBatResult =>
    rw [healthRunTests_evaluateBatResult _ _ _ _ hst, evaluateBatResultBody_eq]
    exact ⟨rfl, rfl⟩

theorem paramWrite_fields (inp : TickInput) (s : Health) :
    (paramWrite inp s).testState = s.testState ∧ (paramWrite inp s).tick = s.tick
      ∧ (paramWrite inp s).motorToTest = s.motorToTest :=
  ⟨rfl, rfl, rfl⟩

theorem paramWrite_none (inp : TickInput) (s : Health) (hp : inp.startPropTest = none)
    (hb : inp.startBatTest = none) : paramWrite inp s = s := by
  unfold paramWrite
  rw [hp, hb]
  rfl

theorem schedulerTick_quiet (cfg : Config) (sensors : SensorData) (vbat : ℚ) (s : Health)
    (hsp : s.startPropTest = false) (hsb : s.startBatTest = false) :
    schedulerTick cfg sensors vbat s = healthRunTests cfg sensors vbat s := by
  unfold schedulerTick
  dsimp only
  rw [healthShallWeRunTest_none _ hsp hsb]
  by_cases hst : s.testState = TestState.testDone
  · simp [hst, healthRunTests_testDone]
  · simp [hst]

theorem schedulerTick_prop (cfg : Config) (sensors : SensorData) (vbat : ℚ) (s : Health)
    (hp : s.startPropTest = true) :
    schedulerTick cfg sensors vbat s
      = healthRunTests cfg sensors vbat
          { s with testState := TestState.configureAcc, startPropTest := false } := by
  unfold schedulerTick
  dsimp only
  rw [healthShallWeRunTest_prop _ hp]
  rfl

theorem schedulerTick_bat (cfg : Config) (sensors : SensorData) (vbat : ℚ) (s : Health)
    (hp : s.startPropTest = false) (hb : s.startBatTest = true) :
    schedulerTick cfg sensors vbat s
      = healthRunTests cfg sensors vbat
          { s with testState := TestState.testBattery, startBatTest := false, tick := 0 } := by
  unfold schedulerTick
  dsimp only
  rw [healthShallWeRunTest_bat _ hp hb]
  rfl

theorem runCalls_flags (cfg : Config) (sensors : Nat → SensorData) (vbat : Nat → ℚ) (s : Health)
    (n : Nat) :
    (runCalls cfg sensors vbat s n).startPropTest = s.startPropTest
      ∧ (runCalls cfg sensors vbat s n).startBatTest = s.startBatTest := by
  induction n with
  | zero => exact ⟨rfl, rfl⟩
  | succ n ih =>
    obtain ⟨f1, f2⟩ := healthRunTests_flags cfg (sensors n) (vbat n) (runCalls cfg sensors vbat s n)
    rw [runCalls_succ]
    exact ⟨f1.trans ih.1, f2.trans ih.2⟩

/-! ## Control ticks: a run is not aborted unless a trigger flag is pending -/

theorem paramWrite_quiet (inp : TickInput) (s : Health)
    (hsp : s.startPropTest = false) (hsb : s.startBatTest = false)
    (hp : inp.startPropTest ≠ some true) (hb : inp.startBatTest ≠ some true) :
    (paramWrite inp s).startPropTest = false ∧ (paramWrite inp s).startBatTest = false := by
  unfold paramWrite
  dsimp only
  constructor
  · cases h : inp.startPropTest with
    | none => exact hsp
    | some b =>
      cases b with
      | false => rfl
      | true => exact absurd h hp
  · cases h : inp.startBatTest with
    | none => exact hsb
    | some b =>
      cases b with
      | false => rfl
      | true => exact absurd h hb

theorem paramWrite_not_both (inp : TickInput) (s : Health)
    (hsp : s.startPropTest = false) (hsb : s.startBatTest = false)
    (hb : ¬ (inp.startPropTest = some true ∧ inp.startBatTest = some true)) :
    ¬ ((paramWrite inp s).startPropTest = true ∧ (paramWrite inp s).startBatTest = true) := by
  unfold paramWrite
  dsimp only
  intro h
  apply hb
  constructor
  · cases h1 : inp.startPropTest with
    | none =>
      have h2 := h.1
      rw [h1] at h2
      exact absurd (hsp.symm.trans h2) (by decide)
    | some b =>
      have h2 := h.1
      rw [h1] at h2
      exact congrArg some h2
  · cases h1 : inp.startBatTest with
    | none =>
      have h2 := h.2
      rw [h1] at h2
      exact absurd (hsb.symm.trans h2) (by decide)
    | some b =>
      have h2 := h.2
      rw [h1] at h2
      exact congrArg some h2

theorem schedulerTick_step (cfg : Config) (sensors : SensorData) (vbat : ℚ) (s : Health)
    (hinv : runInvariant s)
    (hd : s.testState ≠ TestState.testDone → s.startPropTest = false ∧ s.startBatTest = false)
    (hb : ¬ (s.startPropTest = true ∧ s.startBatTest = true)) :
    runInvariant (schedulerTick cfg sensors vbat s)
      ∧ inOrder s (schedulerTick cfg sensors vbat s)
      ∧ (schedulerTick cfg sensors vbat s).startPropTest = false
      ∧ (schedulerTick cfg sensors vbat s).startBatTest = false := by
  have hN : (NBR_OF_MOTORS : Int) = 4 := rfl
  by_cases hst : s.testState = TestState.testDone
  · obtain ⟨v1, v2, v3, v4, v5, v6⟩ := hinv
    have ht : s.tick ≤ 51 := v6 (by simp [hst]) (by simp [hst]) (by simp [hst])
    have hm : s.motorToTest = 0 := v4 (by simp [hst])
    by_cases hp : s.startPropTest = true
    · have hbf : s.startBatTest = false := by
        cases h : s.startBatTest with
        | false => rfl
        | true => exact absurd ⟨hp, h⟩ hb
      have hinv2 : runInvariant
          { s with testState := TestState.configureAcc, startPropTest := false } :=
        ⟨by simp, by simp [hm], by simp [hm, hN], fun _ => hm, by simp, fun _ _ _ => ht⟩
      obtain ⟨r1, r2⟩ := healthRunTests_step cfg sensors vbat _ hinv2 (by simp)
      obtain ⟨g1, g2⟩ := healthRunTests_flags cfg sensors vbat
        { s with testState := TestState.configureAcc, startPropTest := false }
      rw [schedulerTick_prop cfg sensors vbat s hp]
      refine ⟨r1, ?_, g1, g2.trans hbf⟩
      simp only [inOrder] at r2
      simp only [inOrder, hst]
      exact Or.inr (Or.inl r2)
    · have hp2 : s.startPropTest = false := by simpa using hp
      by_cases hbt : s.startBatTest = true
      · have e : schedulerTick cfg sensors vbat s
            = testBatteryBody cfg vbat
                { s with testState := TestState.testBattery, startBatTest := false,
                         tick := 0 } := by
          rw [schedulerTick_bat cfg sensors vbat s hp2 hbt]
          exact healthRunTests_testBattery cfg sensors vbat _ rfl
        obtain ⟨g1, g2⟩ := healthRunTests_flags cfg sensors vbat
          { s with testState := TestState.testBattery, startBatTest := false, tick := 0 }
        rw [← schedulerTick_bat cfg sensors vbat s hp2 hbt] at g1 g2
        obtain ⟨f1, f2, _, _, f5⟩ := testBatteryBody_fields cfg vbat
          { s with testState := TestState.testBattery, startBatTest := false, tick := 0 }
        rw [← e] at f1 f2 f5
        simp only [] at f1 f2 f5
        have f2b : (schedulerTick cfg sensors vbat s).testState = TestState.testBattery := by
          rw [f2]; simp
        have f1b : (schedulerTick cfg sensors vbat s).tick = 1 := by rw [f1]; rfl
        rw [hm] at f5
        refine ⟨⟨by simp [f2b], by simp [f5], by simp [f5, hN], fun _ => f5,
          fun _ => by rw [f1b]; omega, fun h => absurd f2b h⟩, ?_, g1.trans hp2, g2⟩
        simp [inOrder, hst, f2b]
      · have hb2 : s.startBatTest = false := by simpa using hbt
        rw [schedulerTick_quiet cfg sensors vbat s hp2 hb2,
          healthRunTests_testDone cfg sensors vbat s hst]
        refine ⟨⟨v1, v2, v3, v4, v5, v6⟩, ?_, hp2, hb2⟩
        simp [inOrder, hst]
  · obtain ⟨hp, hbf⟩ := hd hst
    obtain ⟨r1, r2⟩ := healthRunTests_step cfg sensors vbat s hinv hst
    obtain ⟨g1, g2⟩ := healthRunTests_flags cfg sensors vbat s
    rw [schedulerTick_quiet cfg sensors vbat s hp hbf]
    exact ⟨r1, r2, g1.trans hp, g2.trans hbf⟩

theorem runInvariant_init (thr : ℚ) (propRatio batRatio : Nat) (atStartup : Bool) :
    runInvariant (initHealth thr propRatio batRatio atStartup) := by
  cases atStartup <;> simp [runInvariant, initHealth, NBR_OF_MOTORS]

theorem runTicks_invariant (cfg : Config) (inp : Nat → TickInput) (s : Health)
    (hinv : runInvariant s) (hsp : s.startPropTest = false) (hsb : s.startBatTest = false)
    (hd : ∀ k, (runTicks cfg inp s k).testState ≠ TestState.testDone →
      (inp k).startPropTest ≠ some true ∧ (inp k).startBatTest ≠ some true)
    (hb : ∀ k, ¬ ((inp k).startPropTest = some true ∧ (inp k).startBatTest = some true)) :
    ∀ k, runInvariant (runTicks cfg inp s k)
      ∧ (runTicks cfg inp s k).startPropTest = false
      ∧ (runTicks cfg inp s k).startBatTest = false
      ∧ inOrder (runTicks cfg inp s k) (runTicks cfg inp s (k + 1)) := by
  have step : ∀ k, runInvariant (runTicks cfg inp s k)
      ∧ (runTicks cfg inp s k).startPropTest = false
      ∧ (runTicks cfg inp s k).startBatTest = false →
      runInvariant (runTicks cfg inp s (k + 1))
        ∧ inOrder (runTicks cfg inp s k) (runTicks cfg inp s (k + 1))
        ∧ (runTicks cfg inp s (k + 1)).startPropTest = false
        ∧ (runTicks cfg inp s (k + 1)).startBatTest = false := by
    intro k ⟨i1, i2, i3⟩
    have hinv2 : runInvariant (paramWrite (inp k) (runTicks cfg inp s k)) := i1
    exact schedulerTick_step cfg (inp k).sensors (inp k).vbat
      (paramWrite (inp k) (runTicks cfg inp s k)) hinv2
      (fun hnd => paramWrite_quiet (inp k) _ i2 i3 (hd k hnd).1 (hd k hnd).2)
      (paramWrite_not_both (inp k) _ i2 i3 (hb k))
  have base : ∀ k, runInvariant (runTicks cfg inp s k)
      ∧ (runTicks cfg inp s k).startPropTest = false
      ∧ (runTicks cfg inp s k).startBatTest = false := by
    intro k
    induction k with
    | zero => exact ⟨hinv, hsp, hsb⟩
    | succ k ih =>
      obtain ⟨s1, _, s3, s4⟩ := step k ih
      exact ⟨s1, s3, s4⟩
  intro k
  obtain ⟨b1, b2, b3⟩ := base k
  exact ⟨b1, b2, b3, (step k ⟨b1, b2, b3⟩).2.1⟩

/-- Claim C10, as the code has it: in every execution from the initial state
in which each tick calls `healthShallWeRunTest` and then, when it returns true,
`healthRunTests`, and in which the parameter channel sets a trigger flag only
before a tick that starts in `testDone` and never sets both flags before the
same tick (it may clear a flag at any time), a started test is not aborted:
every tick follows the order of a run (`measureNoiseFloor`, `measureProp` from
motor 0 through the last motor, `evaluatePropResult`, `testDone`; or
`testBattery`, `evaluateBatResult`, `testDone`), the state `measureProp` always
has a motor index in `0 .. NBR_OF_MOTORS - 1`, and no trigger flag is left
pending after a tick. -/
theorem run_not_aborted (cfg : Config) (thr : ℚ) (propRatio batRatio : Nat) (atStartup : Bool)
    (inp : Nat → TickInput)
    (hd : ∀ k, (runTicks cfg inp (initHealth thr propRatio batRatio atStartup) k).testState
          ≠ TestState.testDone →
      (inp k).startPropTest ≠ some true ∧ (inp k).startBatTest ≠ some true)
    (hb : ∀ k, ¬ ((inp k).startPropTest = some true ∧ (inp k).startBatTest = some true)) :
    ∀ k,
      inOrder (runTicks cfg inp (initHealth thr propRatio batRatio atStartup) k)
          (runTicks cfg inp (initHealth thr propRatio batRatio atStartup) (k + 1))
        ∧ 0 ≤ (runTicks cfg inp (initHealth thr propRatio batRatio atStartup) k).motorToTest
        ∧ (runTicks cfg inp (initHealth thr propRatio batRatio atStartup) k).motorToTest
            < (NBR_OF_MOTORS : Int)
        ∧ (runTicks cfg inp (initHealth thr propRatio batRatio atStartup) k).startPropTest
            = false
        ∧ (runTicks cfg inp (initHealth thr propRatio batRatio atStartup) k).startBatTest
            = false := by
  intro k
  obtain ⟨h1, h2, h3, h4⟩ := runTicks_invariant cfg inp _
    (runInvariant_init thr propRatio batRatio atStartup) rfl rfl hd hb k
  exact ⟨h4, h1.2.1, h1.2.2.1, h2, h3⟩

theorem run_not_aborted_witness :
    (∀ k, (runTicks (exampleConfig 2 1 1000 (1 / 2)) propOnceInputs
              (initHealth 10 0 0 false) k).testState ≠ TestState.testDone →
          (propOnceInputs k).startPropTest ≠ some true
            ∧ (propOnceInputs k).startBatTest ≠ some true)
      ∧ (∀ k, ¬ ((propOnceInputs k).startPropTest = some true
            ∧ (propOnceInputs k).startBatTest = some true))
      ∧ (runTicks (exampleConfig 2 1 1000 (1 / 2)) propOnceInputs
            (initHealth 10 0 0 false) 1).testState = TestState.measureNoiseFloor
      ∧ (inOrder
            (runTicks (exampleConfig 2 1 1000 (1 / 2)) propOnceInputs (initHealth 10 0 0 false) 1)
            (runTicks (exampleConfig 2 1 1000 (1 / 2)) propOnceInputs (initHealth 10 0 0 false)
              (1 + 1))
          ∧ 0 ≤ (runTicks (exampleConfig 2 1 1000 (1 / 2)) propOnceInputs
                  (initHealth 10 0 0 false) 1).motorToTest
          ∧ (runTicks (exampleConfig 2 1 1000 (1 / 2)) propOnceInputs
                (initHealth 10 0 0 false) 1).motorToTest < (NBR_OF_MOTORS : Int)
          ∧ (runTicks (exampleConfig 2 1 1000 (1 / 2)) propOnceInputs
                (initHealth 10 0 0 false) 1).startPropTest = false
          ∧ (runTicks (exampleConfig 2 1 1000 (1 / 2)) propOnceInputs
                (initHealth 10 0 0 false) 1).startBatTest = false) := by
  have hd : ∀ k, (runTicks (exampleConfig 2 1 1000 (1 / 2)) propOnceInputs
              (initHealth 10 0 0 false) k).testState ≠ TestState.testDone →
          (propOnceInputs k).startPropTest ≠ some true
            ∧ (propOnceInputs k).startBatTest ≠ some true := by
    intro k hk
    cases k with
    | zero => exact absurd rfl hk
    | succ k => simp [propOnceInputs]
  have hb : ∀ k, ¬ ((propOnceInputs k).startPropTest = some true
            ∧ (propOnceInputs k).startBatTest = some true) := by
    intro k h
    simp [propOnceInputs] at h
  exact ⟨hd, hb, by decide,
    run_not_aborted (exampleConfig 2 1 1000 (1 / 2)) 10 0 0 false propOnceInputs hd hb 1⟩

/-- Claim C10 fails on the code in two ways.  A trigger flag set during a run:
`startPropTest` before tick 0 starts a propeller test (state
`measureNoiseFloor` after the tick), and `startBatTest` before tick 1 makes
`healthShallWeRunTest` force the state to `testBattery`, so the propeller test
is abandoned before `measureProp`.  Both flags set together while the state is
`testDone`: `healthShallWeRunTest` consumes `startPropTest` only, the propeller
test starts, `startBatTest` stays set, and at the next tick the state is forced
to `testBattery`. -/
theorem run_not_aborted_counterexample :
    ((runTicks (exampleConfig 50 50 0 (1 / 2)) abortInputs (initHealth 10 0 0 false) 0).testState
        = TestState.testDone
      ∧ (runTicks (exampleConfig 50 50 0 (1 / 2)) abortInputs (initHealth 10 0 0 false)
            1).testState = TestState.measureNoiseFloor
      ∧ (runTicks (exampleConfig 50 50 0 (1 / 2)) abortInputs (initHealth 10 0 0 false)
            2).testState = TestState.testBattery
      ∧ ¬ inOrder
            (runTicks (exampleConfig 50 50 0 (1 / 2)) abortInputs (initHealth 10 0 0 false) 1)
            (runTicks (exampleConfig 50 50 0 (1 / 2)) abortInputs (initHealth 10 0 0 false) 2))
    ∧ ((runTicks (exampleConfig 50 50 0 (1 / 2)) bothOnceInputs (initHealth 10 0 0 false)
            0).testState = TestState.testDone
      ∧ (runTicks (exampleConfig 50 50 0 (1 / 2)) bothOnceInputs (initHealth 10 0 0 false)
            1).testState = TestState.measureNoiseFloor
      ∧ (runTicks (exampleConfig 50 50 0 (1 / 2)) bothOnceInputs (initHealth 10 0 0 false)
            1).startBatTest = true
      ∧ (runTicks (exampleConfig 50 50 0 (1 / 2)) bothOnceInputs (initHealth 10 0 0 false)
            2).testState = TestState.testBattery
      ∧ ¬ inOrder
            (runTicks (exampleConfig 50 50 0 (1 / 2)) bothOnceInputs (initHealth 10 0 0 false) 1)
            (runTicks (exampleConfig 50 50 0 (1 / 2)) bothOnceInputs (initHealth 10 0 0 false)
              2)) := by
  refine ⟨⟨by decide, by decide, by decide, by decide⟩,
    ⟨by decide, by decide, by decide, by decide, by decide⟩⟩

theorem runCalls_congr (cfg : Config) (sensors sensors2 : Nat → SensorData)
    (vbat vbat2 : Nat → ℚ) (s : Health) (n : Nat)
    (h : ∀ k, k < n → sensors k = sensors2 k ∧ vbat k = vbat2 k) :
    runCalls cfg sensors vbat s n = runCalls cfg sensors2 vbat2 s n := by
  induction n with
  | zero => rfl
  | succ n ih =>
    rw [runCalls_succ, runCalls_succ, ih (fun k hk => h k (by omega)), (h n (by omega)).1,
      (h n (by omega)).2]

theorem runCalls_add (cfg : Config) (sensors : Nat → SensorData) (vbat : Nat → ℚ) (s : Health)
    (a b : Nat) :
    runCalls cfg sensors vbat s (a + b)
      = runCalls cfg (fun k => sensors (a + k)) (fun k => vbat (a + k))
          (runCalls cfg sensors vbat s a) b := by
  induction b with
  | zero => rfl
  | succ b ih => rw [← Nat.add_assoc, runCalls_succ, runCalls_succ, ih]

/-- After a tick that sets a trigger, the ticks without a trigger are calls of
`healthRunTests`: the state after tick 0 and `n` further ticks is the state
after `n + 1` calls made from the state that `healthShallWeRunTest` produced at
tick 0. -/
theorem runTicks_after_trigger (cfg : Config) (inp : Nat → TickInput) (s t : Health) (n : Nat)
    (h0 : schedulerTick cfg (inp 0).sensors (inp 0).vbat (paramWrite (inp 0) s)
      = healthRunTests cfg (inp 0).sensors (inp 0).vbat t)
    (htp : t.startPropTest = false) (htb : t.startBatTest = false)
    (hq : ∀ k, 1 ≤ k → k ≤ n → (inp k).startPropTest = none ∧ (inp k).startBatTest = none) :
    runTicks cfg inp s (n + 1)
      = runCalls cfg (fun k => (inp k).sensors) (fun k => (inp k).vbat) t (n + 1) := by
  induction n with
  | zero => exact h0
  | succ n ih =>
    have ih' := ih (fun k h1 h2 => hq k h1 (by omega))
    obtain ⟨f1, f2⟩ := runCalls_flags cfg (fun k => (inp k).sensors) (fun k => (inp k).vbat) t
      (n + 1)
    obtain ⟨q1, q2⟩ := hq (n + 1) (by omega) (le_refl _)
    rw [runTicks, ih', runCalls_succ (n := n + 1), paramWrite_none _ _ q1 q2,
      schedulerTick_quiet cfg _ _ _ (f1.trans htp) (f2.trans htb)]

theorem runTestsCallState_prop (inp : TickInput) (s : Health)
    (hp : (paramWrite inp s).startPropTest = true) :
    runTestsCallState inp s
      = some { paramWrite inp s with testState := TestState.configureAcc,
                                     startPropTest := false } := by
  unfold runTestsCallState
  dsimp only
  rw [healthShallWeRunTest_prop _ hp]
  rfl

theorem noiseFloorWriteIndex_configureAcc (s : Health)
    (h : s.testState = TestState.configureAcc) : noiseFloorWriteIndex s = some s.tick := by
  obtain ⟨c1, c2, _⟩ := configureAccBody_fields 0 s
  unfold noiseFloorWriteIndex
  dsimp only
  rw [if_pos h, if_pos c1, c2]

/-! ## The tick counter at the start of the noise-floor capture -/

theorem runTicks_batThenProp :
    (runTicks (exampleConfig 50 950 0 (1 / 2)) batThenPropInputs (initHealth 10 0 0 false)
          52).testState = TestState.testDone
      ∧ (runTicks (exampleConfig 50 950 0 (1 / 2)) batThenPropInputs (initHealth 10 0 0 false)
          52).tick = 51 := by
  have e := runTicks_after_trigger (exampleConfig 50 950 0 (1 / 2)) batThenPropInputs
    (initHealth 10 0 0 false)
    batteryStartExample 51
    (schedulerTick_bat _ _ _ _ rfl rfl) rfl rfl
    (fun k h1 h2 => by
      unfold batThenPropInputs
      dsimp only
      rw [if_neg (by omega), if_neg (by omega)]
      exact ⟨rfl, rfl⟩)
  obtain ⟨b1, b2, _, _⟩ := testBattery_final (exampleConfig 50 950 0 (1 / 2))
    (fun k => (batThenPropInputs k).sensors) (fun k => (batThenPropInputs k).vbat)
    batteryStartExample rfl rfl
  rw [e, runCalls_succ, healthRunTests_evaluateBatResult _ _ _ _ b1, evaluateBatResultBody_eq]
  refine ⟨rfl, ?_⟩
  dsimp only
  exact b2

/-- Claim C13 on the code, after a battery test: the battery test started at
tick 0 ends in `testDone` with `tick = 51`; `startPropTest` at tick 52 makes
`healthShallWeRunTest` enter `configureAcc` without resetting `tick`, so the call
of `healthRunTests` that executes `configureAcc` and begins the noise-floor
capture is made with `tick = 51`, and its first sample is written at index
51. -/
theorem noiseFloor_starts_at_tick_51 :
    (runTicks (exampleConfig 50 950 0 (1 / 2)) batThenPropInputs (initHealth 10 0 0 false)
          52).testState = TestState.testDone
      ∧ (runTicks (exampleConfig 50 950 0 (1 / 2)) batThenPropInputs (initHealth 10 0 0 false)
          52).tick = 51
      ∧ (runTestsCallState (batThenPropInputs 52)
            (runTicks (exampleConfig 50 950 0 (1 / 2)) batThenPropInputs
              (initHealth 10 0 0 false) 52)).map (fun st => (st.testState, st.tick))
          = some (TestState.configureAcc, 51)
      ∧ (runTestsCallState (batThenPropInputs 52)
            (runTicks (exampleConfig 50 950 0 (1 / 2)) batThenPropInputs
              (initHealth 10 0 0 false) 52)).bind noiseFloorWriteIndex = some 51 := by
  obtain ⟨h1, h2⟩ := runTicks_batThenProp
  have hcall := runTestsCallState_prop (batThenPropInputs 52)
    (runTicks (exampleConfig 50 950 0 (1 / 2)) batThenPropInputs
      (initHealth 10 0 0 false) 52) rfl
  refine ⟨h1, h2, ?_, ?_⟩
  · rw [hcall, Option.map_some']
    dsimp only
    rw [(paramWrite_fields _ _).2.1, h2]
  · rw [hcall]
    simp only [Option.some_bind]
    rw [noiseFloorWriteIndex_configureAcc _ rfl]
    dsimp only
    rw [(paramWrite_fields _ _).2.1, h2]

/-! ## A write past the sample buffers in `measureNoiseFloor` -/

theorem runTicks_retrigger :
    (runTicks (exampleConfig 50 950 0 (1 / 2)) retriggerInputs (initHealth 10 0 0 false)
          201).testState = TestState.measureProp
      ∧ (runTicks (exampleConfig 50 950 0 (1 / 2)) retriggerInputs (initHealth 10 0 0 false)
          201).tick = 101 := by
  have e := runTicks_after_trigger (exampleConfig 50 950 0 (1 / 2)) retriggerInputs
    (initHealth 10 0 0 false)
    propStartExample 200
    (schedulerTick_prop _ _ _ _ rfl) rfl rfl
    (fun k h1 h2 => by
      unfold retriggerInputs
      dsimp only
      rw [if_neg (by omega)]
      exact ⟨rfl, rfl⟩)
  obtain ⟨n1, n2, n3, _⟩ := noiseFloor_final (exampleConfig 50 950 0 (1 / 2))
    (fun k => (retriggerInputs k).sensors) (fun k => (retriggerInputs k).vbat)
    propStartExample rfl rfl
  obtain ⟨m1, _, m3⟩ := measureProp_invariant (exampleConfig 50 950 0 (1 / 2))
    (fun k => (retriggerInputs (100 + k)).sensors) (fun k => (retriggerInputs (100 + k)).vbat)
    _ 0 n1 n2 n3 101 (by decide)
  rw [e, show (200 + 1 : Nat) = 100 + 101 from rfl, runCalls_add]
  exact ⟨m1, m3⟩

/-- Claim C17 on the code, when `startPropTest` is set during `measureProp`:
with a motor phase of 1000 ticks, `startPropTest` at tick 0 and again at tick
201 (101 ticks into the first motor), the call of `healthRunTests` of tick 201
is made in `configureAcc` with `tick = 101` and its branch `measureNoiseFloor`
writes `accX[101]`, `accY[101]`, `accZ[101]`. -/
theorem noiseFloor_write_out_of_bounds :
    (runTicks (exampleConfig 50 950 0 (1 / 2)) retriggerInputs (initHealth 10 0 0 false)
          201).testState = TestState.measureProp
      ∧ (runTicks (exampleConfig 50 950 0 (1 / 2)) retriggerInputs (initHealth 10 0 0 false)
          201).tick = 101
      ∧ (runTestsCallState (retriggerInputs 201)
            (runTicks (exampleConfig 50 950 0 (1 / 2)) retriggerInputs
              (initHealth 10 0 0 false) 201)).map (fun st => (st.testState, st.tick))
          = some (TestState.configureAcc, 101)
      ∧ (runTestsCallState (retriggerInputs 201)
            (runTicks (exampleConfig 50 950 0 (1 / 2)) retriggerInputs
              (initHealth 10 0 0 false) 201)).bind noiseFloorWriteIndex = some 101
      ∧ ¬ (101 < PROPTEST_NBR_OF_VARIANCE_VALUES) := by
  obtain ⟨h1, h2⟩ := runTicks_retrigger
  have hcall := runTestsCallState_prop (retriggerInputs 201)
    (runTicks (exampleConfig 50 950 0 (1 / 2)) retriggerInputs
      (initHealth 10 0 0 false) 201) rfl
  refine ⟨h1, h2, ?_, ?_, by decide⟩
  · rw [hcall, Option.map_some']
    dsimp only
    rw [(paramWrite_fields _ _).2.1, h2]
  · rw [hcall]
    simp only [Option.some_bind]
    rw [noiseFloorWriteIndex_configureAcc _ rfl]
    dsimp only
    rw [(paramWrite_fields _ _).2.1, h2]

/-! ## A reachable state in `measureProp` -/

theorem applyCalls_replicate (cfg : Config) (sensors : SensorData) (vbat : ℚ) (s : Health)
    (n : Nat) :
    applyCalls cfg s (List.replicate n (Call.runTests sensors vbat))
      = runCalls cfg (fun _ => sensors) (fun _ => vbat) s n := by
  induction n with
  | zero => rfl
  | succ n ih =>
    rw [List.replicate_succ', runCalls_succ, ← ih]
    simp [applyCalls, List.foldl_append, applyCall]

theorem applyCalls_noiseFloorCalls :
    (applyCalls (exampleConfig 2 1 1000 (1 / 2)) (initHealth 10 0 0 true) noiseFloorCalls).testState
      = TestState.measureProp := by
  rw [noiseFloorCalls, applyCalls_replicate]
  exact (noiseFloor_final (exampleConfig 2 1 1000 (1 / 2)) (fun _ => ⟨⟨0, 0, 1⟩⟩) (fun _ => 4)
    (initHealth 10 0 0 true) rfl rfl).1

theorem indices_in_bounds_witness :
    (applyCalls (exampleConfig 2 1 1000 (1 / 2)) (initHealth 10 0 0 true) noiseFloorCalls).testState
        = TestState.measureProp
      ∧ (∀ i, PROPTEST_NBR_OF_VARIANCE_VALUES ≤ i →
          (healthRunTests (exampleConfig 2 1 1000 (1 / 2)) ⟨⟨0, 0, 1⟩⟩ 4
              (applyCalls (exampleConfig 2 1 1000 (1 / 2)) (initHealth 10 0 0 true)
                noiseFloorCalls)).accX i
            = (applyCalls (exampleConfig 2 1 1000 (1 / 2)) (initHealth 10 0 0 true)
                noiseFloorCalls).accX i
          ∧ (healthRunTests (exampleConfig 2 1 1000 (1 / 2)) ⟨⟨0, 0, 1⟩⟩ 4
              (applyCalls (exampleConfig 2 1 1000 (1 / 2)) (initHealth 10 0 0 true)
                noiseFloorCalls)).accY i
            = (applyCalls (exampleConfig 2 1 1000 (1 / 2)) (initHealth 10 0 0 true)
                noiseFloorCalls).accY i
          ∧ (healthRunTests (exampleConfig 2 1 1000 (1 / 2)) ⟨⟨0, 0, 1⟩⟩ 4
              (applyCalls (exampleConfig 2 1 1000 (1 / 2)) (initHealth 10 0 0 true)
                noiseFloorCalls)).accZ i
            = (applyCalls (exampleConfig 2 1 1000 (1 / 2)) (initHealth 10 0 0 true)
                noiseFloorCalls).accZ i) :=
  ⟨applyCalls_noiseFloorCalls,
    ((indices_in_bounds (exampleConfig 2 1 1000 (1 / 2)) 10 0 0 true noiseFloorCalls
      ⟨⟨0, 0, 1⟩⟩ 4).2.2.2.1 applyCalls_noiseFloorCalls).2.1⟩

/-! ## The sample window of a motor phase -/

theorem toInt32_of_lt (k : Nat) (h : k < 2 ^ 31) : toInt32 k = (k : Int) := by
  unfold toInt32
  have h1 : k % 2 ^ 32 = k := Nat.mod_eq_of_lt (by omega)
  rw [h1, if_pos h]

theorem measurePropSample_at (p : MotorHealthTestDef) (sensors : SensorData) (vbat : ℚ)
    (s : Health) (hk : s.tick < 2 ^ 31) :
    (∀ i, i < PROPTEST_NBR_OF_VARIANCE_VALUES → p.varianceMeasurementStartMsec.val + i = s.tick →
        (measurePropSample p sensors vbat s).accX = Function.update s.accX i sensors.acc.x
          ∧ (measurePropSample p sensors vbat s).accY = Function.update s.accY i sensors.acc.y
          ∧ (measurePropSample p sensors vbat s).accZ = Function.update s.accZ i sensors.acc.z)
      ∧ ((s.tick < p.varianceMeasurementStartMsec.val
            ∨ p.varianceMeasurementStartMsec.val + PROPTEST_NBR_OF_VARIANCE_VALUES ≤ s.tick) →
          (measurePropSample p sensors vbat s).accX = s.accX
            ∧ (measurePropSample p sensors vbat s).accY = s.accY
            ∧ (measurePropSample p sensors vbat s).accZ = s.accZ)
      ∧ (s.tick = p.varianceMeasurementStartMsec.val + PROPTEST_NBR_OF_VARIANCE_VALUES →
          (measurePropSample p sensors vbat s).accVarX
              = Function.update s.accVarX s.motorToTest.toNat
                  (variance s.accX PROPTEST_NBR_OF_VARIANCE_VALUES)
            ∧ (measurePropSample p sensors vbat s).accVarY
              = Function.update s.accVarY s.motorToTest.toNat
                  (variance s.accY PROPTEST_NBR_OF_VARIANCE_VALUES)
            ∧ (measurePropSample p sensors vbat s).accVarZ
              = Function.update s.accVarZ s.motorToTest.toNat
                  (variance s.accZ PROPTEST_NBR_OF_VARIANCE_VALUES))
      ∧ (s.tick ≠ p.varianceMeasurementStartMsec.val + PROPTEST_NBR_OF_VARIANCE_VALUES →
          (measurePropSample p sensors vbat s).accVarX = s.accVarX
            ∧ (measurePropSample p sensors vbat s).accVarY = s.accVarY
            ∧ (measurePropSample p sensors vbat s).accVarZ = s.accVarZ) := by
  have hN : PROPTEST_NBR_OF_VARIANCE_VALUES = 100 := rfl
  obtain ⟨hA, hB⟩ := measurePropSample_arrays p sensors vbat s
  rw [toInt32_of_lt _ hk] at hA hB
  refine ⟨fun i hi hik => ?_, fun hout => ?_, fun heq => ?_, fun hne => ?_⟩
  · have hw : ((s.tick : Int) - (p.varianceMeasurementStartMsec.val : Int)) ≥ 0
        ∧ ((s.tick : Int) - (p.varianceMeasurementStartMsec.val : Int))
            < (PROPTEST_NBR_OF_VARIANCE_VALUES : Int) := by
      rw [hN] at hi ⊢
      omega
    have hne : ¬ ((s.tick : Int) - (p.varianceMeasurementStartMsec.val : Int))
        = (PROPTEST_NBR_OF_VARIANCE_VALUES : Int) := fun h => by omega
    have hi' : ((s.tick : Int) - (p.varianceMeasurementStartMsec.val : Int)).toNat = i := by
      omega
    unfold measurePropSample
    dsimp only
    rw [toInt32_of_lt _ hk, if_pos hw, if_neg hne, hi']
    split_ifs <;> exact ⟨rfl, rfl, rfl⟩
  · rcases hA with ⟨a1, a2, a3, _⟩ | ⟨i, hi, hidx, _⟩
    · exact ⟨a1, a2, a3⟩
    · exfalso
      rw [hN] at hi hout
      omega
  · have hw : ¬ (((s.tick : Int) - (p.varianceMeasurementStartMsec.val : Int)) ≥ 0
        ∧ ((s.tick : Int) - (p.varianceMeasurementStartMsec.val : Int))
            < (PROPTEST_NBR_OF_VARIANCE_VALUES : Int)) := by
      rw [hN] at heq ⊢
      omega
    have he : ((s.tick : Int) - (p.varianceMeasurementStartMsec.val : Int))
        = (PROPTEST_NBR_OF_VARIANCE_VALUES : Int) := by
      rw [hN] at heq ⊢
      omega
    unfold measurePropSample
    dsimp only
    rw [toInt32_of_lt _ hk, if_neg hw, if_pos he]
    exact ⟨rfl, rfl, rfl⟩
  · rcases hB with ⟨b1, b2, b3⟩ | ⟨he, _⟩
    · exact ⟨b1, b2, b3⟩
    · exfalso
      rw [hN] at hne he
      omega

theorem measureProp_step_arrays (cfg : Config) (sensors : Nat → SensorData) (vbat : Nat → ℚ)
    (s : Health) (m : Nat) (hst : s.testState = TestState.measureProp) (ht : s.tick = 0)
    (hmt : s.motorToTest = (m : Int)) (k : Nat)
    (hk : k < (cfg.motorsGetHealthTestSettings m).onPeriodMsec.val
                + (cfg.motorsGetHealthTestSettings m).offPeriodMsec.val) :
    (runCalls cfg sensors vbat s k).tick = k
      ∧ (runCalls cfg sensors vbat s k).motorToTest.toNat = m
      ∧ (runCalls cfg sensors vbat s (k + 1)).accX
          = (measurePropSample (cfg.motorsGetHealthTestSettings m) (sensors k) (vbat k)
              (runCalls cfg sensors vbat s k)).accX
      ∧ (runCalls cfg sensors vbat s (k + 1)).accY
          = (measurePropSample (cfg.motorsGetHealthTestSettings m) (sensors k) (vbat k)
              (runCalls cfg sensors vbat s k)).accY
      ∧ (runCalls cfg sensors vbat s (k + 1)).accZ
          = (measurePropSample (cfg.motorsGetHealthTestSettings m) (sensors k) (vbat k)
              (runCalls cfg sensors vbat s k)).accZ
      ∧ (runCalls cfg sensors vbat s (k + 1)).accVarX
          = (measurePropSample (cfg.motorsGetHealthTestSettings m) (sensors k) (vbat k)
              (runCalls cfg sensors vbat s k)).accVarX
      ∧ (runCalls cfg sensors vbat s (k + 1)).accVarY
          = (measurePropSample (cfg.motorsGetHealthTestSettings m) (sensors k) (vbat k)
              (runCalls cfg sensors vbat s k)).accVarY
      ∧ (runCalls cfg sensors vbat s (k + 1)).accVarZ
          = (measurePropSample (cfg.motorsGetHealthTestSettings m) (sensors k) (vbat k)
              (runCalls cfg sensors vbat s k)).accVarZ := by
  obtain ⟨i1, i2, i3⟩ := measureProp_invariant cfg sensors vbat s m hst ht hmt k hk
  have hp : (runCalls cfg sensors vbat s k).motorToTest.toNat = m := by rw [i2]; simp
  obtain ⟨c1, c2, c3, c4, c5, c6, _⟩ := measurePropControl_arrays
    (cfg.motorsGetHealthTestSettings m)
    (measurePropSample (cfg.motorsGetHealthTestSettings m) (sensors k) (vbat k)
      (runCalls cfg sensors vbat s k))
  have e : runCalls cfg sensors vbat s (k + 1)
      = measurePropControl (cfg.motorsGetHealthTestSettings m)
          (measurePropSample (cfg.motorsGetHealthTestSettings m) (sensors k) (vbat k)
            (runCalls cfg sensors vbat s k)) := by
    rw [runCalls_succ, healthRunTests_measureProp _ _ _ _ i1, measurePropBody, hp]
  rw [e]
  exact ⟨i3, hp, c1, c2, c3, c4, c5, c6⟩

theorem measureProp_window_invariant (cfg : Config) (sensors : Nat → SensorData)
    (vbat : Nat → ℚ) (s : Health) (m : Nat) (hst : s.testState = TestState.measureProp)
    (ht : s.tick = 0) (hmt : s.motorToTest = (m : Int)) (p : MotorHealthTestDef)
    (hp : cfg.motorsGetHealthTestSettings m = p) :
    ∀ k, k ≤ p.onPeriodMsec.val + p.offPeriodMsec.val →
      (∀ i, i < PROPTEST_NBR_OF_VARIANCE_VALUES → p.varianceMeasurementStartMsec.val + i < k →
          (runCalls cfg sensors vbat s k).accX i
              = (sensors (p.varianceMeasurementStartMsec.val + i)).acc.x
            ∧ (runCalls cfg sensors vbat s k).accY i
              = (sensors (p.varianceMeasurementStartMsec.val + i)).acc.y
            ∧ (runCalls cfg sensors vbat s k).accZ i
              = (sensors (p.varianceMeasurementStartMsec.val + i)).acc.z)
        ∧ (k ≤ p.varianceMeasurementStartMsec.val + PROPTEST_NBR_OF_VARIANCE_VALUES →
            (runCalls cfg sensors vbat s k).accVarX = s.accVarX
              ∧ (runCalls cfg sensors vbat s k).accVarY = s.accVarY
              ∧ (runCalls cfg sensors vbat s k).accVarZ = s.accVarZ)
        ∧ (p.varianceMeasurementStartMsec.val + PROPTEST_NBR_OF_VARIANCE_VALUES < k →
            (runCalls cfg sensors vbat s k).accVarX
                = Function.update s.accVarX m
                    (variance (fun i => (sensors (p.varianceMeasurementStartMsec.val + i)).acc.x)
                      PROPTEST_NBR_OF_VARIANCE_VALUES)
              ∧ (runCalls cfg sensors vbat s k).accVarY
                = Function.update s.accVarY m
                    (variance (fun i => (sensors (p.varianceMeasurementStartMsec.val + i)).acc.y)
                      PROPTEST_NBR_OF_VARIANCE_VALUES)
              ∧ (runCalls cfg sensors vbat s k).accVarZ
                = Function.update s.accVarZ m
                    (variance (fun i => (sensors (p.varianceMeasurementStartMsec.val + i)).acc.z)
                      PROPTEST_NBR_OF_VARIANCE_VALUES)) := by
  have hN : PROPTEST_NBR_OF_VARIANCE_VALUES = 100 := rfl
  have hon := p.onPeriodMsec.isLt
  have hoff := p.offPeriodMsec.isLt
  intro k
  induction k with
  | zero =>
    intro _
    exact ⟨fun i _ h => absurd h (Nat.not_lt_zero _), fun _ => ⟨rfl, rfl, rfl⟩,
      fun h => absurd h (Nat.not_lt_zero _)⟩
  | succ k ih =>
    intro hk
    obtain ⟨j1, j2, j3⟩ := ih (by omega)
    obtain ⟨t1, t2, e1, e2, e3, e4, e5, e6⟩ :=
      measureProp_step_arrays cfg sensors vbat s m hst ht hmt k (by rw [hp]; omega)
    rw [hp] at e1 e2 e3 e4 e5 e6
    obtain ⟨w1, w2, w3, w4⟩ := measurePropSample_at p (sensors k) (vbat k)
      (runCalls cfg sensors vbat s k) (by rw [t1]; omega)
    rw [t1] at w1 w2 w3 w4
    rw [t2] at w3
    rw [e1, e2, e3, e4, e5, e6]
    refine ⟨fun i hi hik => ?_, fun hle => ?_, fun hlt => ?_⟩
    · by_cases hnow : p.varianceMeasurementStartMsec.val + i = k
      · obtain ⟨u1, u2, u3⟩ := w1 i hi hnow
        rw [u1, u2, u3, hnow]
        simp
      · have hprev := j1 i hi (by omega)
        by_cases hin : k < p.varianceMeasurementStartMsec.val
            ∨ p.varianceMeasurementStartMsec.val + PROPTEST_NBR_OF_VARIANCE_VALUES ≤ k
        · obtain ⟨u1, u2, u3⟩ := w2 hin
          rw [u1, u2, u3]
          exact hprev
        · obtain ⟨u1, u2, u3⟩ := w1 (k - p.varianceMeasurementStartMsec.val)
            (by rw [hN] at hin ⊢; omega) (by omega)
          have hne : i ≠ k - p.varianceMeasurementStartMsec.val := by omega
          rw [u1, u2, u3]
          simp only [Function.update_noteq hne]
          exact hprev
    · obtain ⟨u1, u2, u3⟩ := w4 (by omega)
      rw [u1, u2, u3]
      exact j2 (by omega)
    · by_cases hnow : k = p.varianceMeasurementStartMsec.val + PROPTEST_NBR_OF_VARIANCE_VALUES
      · obtain ⟨u1, u2, u3⟩ := w3 hnow
        obtain ⟨v1, v2, v3⟩ := j2 (by omega)
        have hx := variance_congr (runCalls cfg sensors vbat s k).accX
          (fun i => (sensors (p.varianceMeasurementStartMsec.val + i)).acc.x)
          PROPTEST_NBR_OF_VARIANCE_VALUES (fun i hi => (j1 i hi (by omega)).1)
        have hy := variance_congr (runCalls cfg sensors vbat s k).accY
          (fun i => (sensors (p.varianceMeasurementStartMsec.val + i)).acc.y)
          PROPTEST_NBR_OF_VARIANCE_VALUES (fun i hi => (j1 i hi (by omega)).2.1)
        have hz := variance_congr (runCalls cfg sensors vbat s k).accZ
          (fun i => (sensors (p.varianceMeasurementStartMsec.val + i)).acc.z)
          PROPTEST_NBR_OF_VARIANCE_VALUES (fun i hi => (j1 i hi (by omega)).2.2)
        rw [u1, u2, u3, v1, v2, v3, hx, hy, hz]
        exact ⟨rfl, rfl, rfl⟩
      · obtain ⟨u1, u2, u3⟩ := w4 hnow
        rw [u1, u2, u3]
        exact j3 (by omega)

/-- Claim C11: for motor `m` with a profile `p` such that `offPeriodMsec > 0`
and `onPeriodMsec + offPeriodMsec >= varianceMeasurementStartMsec + 101`, in the
phase of motor `m` started with `tick = 0` the samples of the calls made with
`tick = s, ..., s + 99` (`s = varianceMeasurementStartMsec`) are stored at the
window positions 0 to 99; `accVarX[m]`, `accVarY[m]`, `accVarZ[m]` keep their
old values up to the call made with `tick = s + 100`, which sets them to
`variance` of exactly those 100 samples, and they are not written again in
the phase; the entries of the other motors are unchanged. -/
theorem measureProp_window (cfg : Config) (sensors : Nat → SensorData) (vbat : Nat → ℚ)
    (s : Health) (m : Nat) (p : MotorHealthTestDef)
    (hp : cfg.motorsGetHealthTestSettings m = p) (hm : m < NBR_OF_MOTORS)
    (hst : s.testState = TestState.measureProp) (ht : s.tick = 0)
    (hmt : s.motorToTest = (m : Int)) (hoff : 0 < p.offPeriodMsec.val)
    (hlen : p.varianceMeasurementStartMsec.val + 101 ≤ p.onPeriodMsec.val + p.offPeriodMsec.val) :
    (∀ k, k < p.onPeriodMsec.val + p.offPeriodMsec.val →
        (runCalls cfg sensors vbat s k).testState = TestState.measureProp
          ∧ (runCalls cfg sensors vbat s k).motorToTest = (m : Int)
          ∧ (runCalls cfg sensors vbat s k).tick = k)
      ∧ (runCalls cfg sensors vbat s (p.onPeriodMsec.val + p.offPeriodMsec.val)).tick = 0
      ∧ (∀ i, i < 100 → ∀ k, p.varianceMeasurementStartMsec.val + i < k →
          k ≤ p.onPeriodMsec.val + p.offPeriodMsec.val →
          (runCalls cfg sensors vbat s k).accX i
              = (sensors (p.varianceMeasurementStartMsec.val + i)).acc.x
            ∧ (runCalls cfg sensors vbat s k).accY i
              = (sensors (p.varianceMeasurementStartMsec.val + i)).acc.y
            ∧ (runCalls cfg sensors vbat s k).accZ i
              = (sensors (p.varianceMeasurementStartMsec.val + i)).acc.z)
      ∧ (∀ k, k ≤ p.varianceMeasurementStartMsec.val + 100 →
          (runCalls cfg sensors vbat s k).accVarX = s.accVarX
            ∧ (runCalls cfg sensors vbat s k).accVarY = s.accVarY
            ∧ (runCalls cfg sensors vbat s k).accVarZ = s.accVarZ)
      ∧ (∀ k, p.varianceMeasurementStartMsec.val + 100 < k →
          k ≤ p.onPeriodMsec.val + p.offPeriodMsec.val →
          (runCalls cfg sensors vbat s k).accVarX
              = Function.update s.accVarX m
                  (variance (fun i => (sensors (p.varianceMeasurementStartMsec.val + i)).acc.x)
                    100)
            ∧ (runCalls cfg sensors vbat s k).accVarY
              = Function.update s.accVarY m
                  (variance (fun i => (sensors (p.varianceMeasurementStartMsec.val + i)).acc.y)
                    100)
            ∧ (runCalls cfg sensors vbat s k).accVarZ
              = Function.update s.accVarZ m
                  (variance (fun i => (sensors (p.varianceMeasurementStartMsec.val + i)).acc.z)
                    100))
      ∧ (∀ k, k ≤ p.onPeriodMsec.val + p.offPeriodMsec.val → ∀ j, j ≠ m →
          (runCalls cfg sensors vbat s k).accVarX j = s.accVarX j
            ∧ (runCalls cfg sensors vbat s k).accVarY j = s.accVarY j
            ∧ (runCalls cfg sensors vbat s k).accVarZ j = s.accVarZ j) := by
  have _ := hm
  have _ := hlen
  have hinv := measureProp_window_invariant cfg sensors vbat s m hst ht hmt p hp
  have hN : PROPTEST_NBR_OF_VARIANCE_VALUES = 100 := rfl
  have hphase := measureProp_invariant cfg sensors vbat s m hst ht hmt
  rw [hp] at hphase
  obtain ⟨k0, hk0⟩ : ∃ k0, k0 + 1 = p.onPeriodMsec.val + p.offPeriodMsec.val :=
    ⟨p.onPeriodMsec.val + p.offPeriodMsec.val - 1, by omega⟩
  have hlast := (measureProp_last_call cfg sensors vbat s m hst ht hmt (by rw [hp]; exact hoff)
    k0 (by rw [hp]; exact hk0)).1
  rw [hk0] at hlast
  refine ⟨hphase, hlast, fun i hi k h1 h2 => (hinv k h2).1 i hi h1,
    fun k h1 => ?_, fun k h1 h2 => (hinv k h2).2.2 (by rw [hN]; exact h1),
    fun k h1 j hj => ?_⟩
  · exact (hinv k (by omega)).2.1 (by rw [hN]; exact h1)
  · by_cases hc : k ≤ p.varianceMeasurementStartMsec.val + 100
    · obtain ⟨a1, a2, a3⟩ := (hinv k h1).2.1 (by rw [hN]; exact hc)
      rw [a1, a2, a3]
      exact ⟨rfl, rfl, rfl⟩
    · obtain ⟨a1, a2, a3⟩ := (hinv k h1).2.2 (by rw [hN]; omega)
      rw [a1, a2, a3]
      simp only [Function.update_noteq hj]
      exact ⟨trivial, trivial, trivial⟩

theorem measureProp_window_witness :
    (exampleConfig 50 950 0 (1 / 2)).motorsGetHealthTestSettings 0 = constProfile 50 950 0 0
      ∧ 0 < NBR_OF_MOTORS
      ∧ (measureStartExample 0).testState = TestState.measureProp
      ∧ (measureStartExample 0).tick = 0
      ∧ (measureStartExample 0).motorToTest = ((0 : Nat) : Int)
      ∧ 0 < (constProfile 50 950 0 0).offPeriodMsec.val
      ∧ (constProfile 50 950 0 0).varianceMeasurementStartMsec.val + 101
          ≤ (constProfile 50 950 0 0).onPeriodMsec.val + (constProfile 50 950 0 0).offPeriodMsec.val
      ∧ (runCalls (exampleConfig 50 950 0 (1 / 2)) rampSensors (fun _ => 4)
            (measureStartExample 0)
            ((constProfile 50 950 0 0).onPeriodMsec.val
              + (constProfile 50 950 0 0).offPeriodMsec.val)).tick = 0
      ∧ (runCalls (exampleConfig 50 950 0 (1 / 2)) rampSensors (fun _ => 4)
            (measureStartExample 0) 101).accVarX
          = Function.update (measureStartExample 0).accVarX 0
              (variance (fun i => (rampSensors
                  ((constProfile 50 950 0 0).varianceMeasurementStartMsec.val + i)).acc.x) 100) := by
  have h := measureProp_window (exampleConfig 50 950 0 (1 / 2)) rampSensors
    (fun _ => 4) (measureStartExample 0) 0 (constProfile 50 950 0 0) rfl (by decide) rfl rfl rfl
    (by decide) (by decide)
  exact ⟨rfl, by decide, rfl, rfl, rfl, by decide, by decide, h.2.1,
    (h.2.2.2.2.1 101 (by decide) (by decide)).1⟩

/-! ## Commanded motor ratios during a propeller test -/

theorem motorRatios_append (r : Nat → Nat) (l1 l2 : List Cmd) :
    motorRatios r (l1 ++ l2) = motorRatios (motorRatios r l1) l2 := by
  simp [motorRatios, List.foldl_append]

theorem motorRatios_neutral (r : Nat → Nat) (cs : List Cmd)
    (h : ∀ c, c ∈ cs → ∀ q, applyCmd q c = q) : motorRatios r cs = r := by
  induction cs generalizing r with
  | nil => rfl
  | cons c cs ih =>
    rw [motorRatios, List.foldl_cons, h c (List.mem_cons_self _ _)]
    exact ih r (fun d hd => h d (List.mem_cons_of_mem _ hd))

theorem beepCmds_neutral (cfg : Config) (m pause : Nat) :
    ∀ c, c ∈ beepCmds cfg m pause → ∀ q, applyCmd q c = q := by
  intro c hc q
  simp only [beepCmds, List.mem_cons, List.mem_singleton, List.not_mem_nil, or_false] at hc
  rcases hc with h | h | h | h <;> rw [h] <;> rfl

theorem configureAccBody_cmds (vbat : ℚ) (s : Health) :
    (configureAccBody vbat s).cmds
        = s.cmds ++ [Cmd.sensorsSetAccMode AccMode.ACC_MODE_PROPTEST, Cmd.motorsStop]
      ∧ (configureAccBody vbat s).propTestPWMRatio = s.propTestPWMRatio := by
  simp [configureAccBody, emit]

theorem measureNoiseFloorBody_cmds (sensors : SensorData) (s : Health) :
    (measureNoiseFloorBody sensors s).cmds = s.cmds
      ∧ (measureNoiseFloorBody sensors s).propTestPWMRatio = s.propTestPWMRatio := by
  unfold measureNoiseFloorBody
  dsimp only
  constructor <;> split_ifs <;> rfl

theorem measurePropSample_cmds (p : MotorHealthTestDef) (sensors : SensorData) (vbat : ℚ)
    (s : Health) :
    (measurePropSample p sensors vbat s).cmds = s.cmds
      ∧ (measurePropSample p sensors vbat s).propTestPWMRatio = s.propTestPWMRatio := by
  unfold measurePropSample
  dsimp only
  constructor <;> split_ifs <;> rfl

theorem evaluatePropResultBody_ratios (cfg : Config) (s : Health) (r : Nat → Nat) :
    motorRatios r (evaluatePropResultBody cfg s).cmds = motorRatios r s.cmds := by
  have hiter : ∀ (m : Nat) (t : Health),
      motorRatios r (evaluatePropIter cfg m t).cmds = motorRatios r t.cmds := by
    intro m t
    rw [(evaluatePropIter_counts cfg m t).2.1, motorRatios_append]
    apply motorRatios_neutral
    intro c hc
    split_ifs at hc with hf
    · simp only [failureBeepCmds, List.mem_flatten, List.mem_replicate] at hc
      obtain ⟨l, ⟨_, hl⟩, hcl⟩ := hc
      rw [hl] at hcl
      exact beepCmds_neutral cfg m 100 c hcl
    · exact absurd hc (List.not_mem_nil c)
  have hloop : ∀ (n m0 : Nat) (t : Health),
      motorRatios r (evaluatePropLoop cfg n m0 t).cmds = motorRatios r t.cmds := by
    intro n
    induction n with
    | zero => intro m0 t; rfl
    | succ n ih =>
      intro m0 t
      rw [evaluatePropLoop, ih, hiter]
  have hmel : ∀ t : Health,
      motorRatios r (melodyLoop cfg NBR_OF_MOTORS 0 t).cmds = motorRatios r t.cmds := by
    intro t
    rw [melodyLoop_eq]
    simp only [emit]
    rw [motorRatios_append]
    apply motorRatios_neutral
    intro c hc
    simp only [List.mem_flatten, List.mem_map] at hc
    obtain ⟨l, ⟨k, _, hl⟩, hcl⟩ := hc
    rw [← hl] at hcl
    exact beepCmds_neutral cfg k _ c hcl
  unfold evaluatePropResultBody
  dsimp only
  split_ifs
  · exact (hmel _).trans (hloop _ _ _)
  · exact hloop _ _ _

theorem measurePropControl_cases (p : MotorHealthTestDef) (s : Health) :
    (s.tick = 1 ∧ p.onPeriodMsec.val > 0
        ∧ measurePropControl p s
          = emit [Cmd.motorsSetRatio s.motorToTest.toNat
              (if s.propTestPWMRatio > 0 then s.propTestPWMRatio
               else p.onPeriodPWMRatioProp.val)] s)
      ∨ (¬ (s.tick = 1 ∧ p.onPeriodMsec.val > 0) ∧ s.tick = p.onPeriodMsec.val
          ∧ measurePropControl p s = emit [Cmd.motorsSetRatio s.motorToTest.toNat 0] s)
      ∨ (¬ (s.tick = 1 ∧ p.onPeriodMsec.val > 0) ∧ s.tick ≠ p.onPeriodMsec.val
          ∧ s.tick ≥ p.onPeriodMsec.val + p.offPeriodMsec.val
          ∧ ¬ s.motorToTest + 1 ≥ (NBR_OF_MOTORS : Int)
          ∧ measurePropControl p s = { s with tick := 0, motorToTest := s.motorToTest + 1 })
      ∨ (¬ (s.tick = 1 ∧ p.onPeriodMsec.val > 0) ∧ s.tick ≠ p.onPeriodMsec.val
          ∧ s.tick ≥ p.onPeriodMsec.val + p.offPeriodMsec.val
          ∧ s.motorToTest + 1 ≥ (NBR_OF_MOTORS : Int)
          ∧ measurePropControl p s
            = emit [Cmd.sensorsSetAccMode AccMode.ACC_MODE_FLIGHT]
                { s with tick := 0, motorToTest := 0,
                         testState := TestState.evaluatePropResult })
      ∨ (¬ (s.tick = 1 ∧ p.onPeriodMsec.val > 0) ∧ s.tick ≠ p.onPeriodMsec.val
          ∧ ¬ s.tick ≥ p.onPeriodMsec.val + p.offPeriodMsec.val
          ∧ measurePropControl p s = s) := by
  unfold measurePropControl
  dsimp only
  by_cases h1 : s.tick = 1 ∧ p.onPeriodMsec.val > 0
  · exact Or.inl ⟨h1.1, h1.2, by rw [if_pos h1]⟩
  · by_cases h2 : s.tick = p.onPeriodMsec.val
    · exact Or.inr (Or.inl ⟨h1, h2, by rw [if_neg h1, if_pos h2]⟩)
    · by_cases h3 : s.tick ≥ p.onPeriodMsec.val + p.offPeriodMsec.val
      · by_cases h4 : s.motorToTest + 1 ≥ (NBR_OF_MOTORS : Int)
        · exact Or.inr (Or.inr (Or.inr (Or.inl ⟨h1, h2, h3, h4, by
            rw [if_neg h1, if_neg h2, if_pos h3, if_pos h4]⟩)))
        · exact Or.inr (Or.inr (Or.inl ⟨h1, h2, h3, h4, by
            rw [if_neg h1, if_neg h2, if_pos h3, if_neg h4]⟩))
      · exact Or.inr (Or.inr (Or.inr (Or.inr ⟨h1, h2, h3, by
          rw [if_neg h1, if_neg h2, if_neg h3]⟩)))

theorem motorRatios_stop (r : Nat → Nat) (l : List Cmd) :
    motorRatios r (l ++ [Cmd.sensorsSetAccMode AccMode.ACC_MODE_PROPTEST, Cmd.motorsStop])
      = fun _ => 0 := by
  rw [motorRatios_append]
  rfl

theorem motorRatios_setRatio (r : Nat → Nat) (l : List Cmd) (id ratio : Nat) :
    motorRatios r (l ++ [Cmd.motorsSetRatio id ratio])
      = Function.update (motorRatios r l) id ratio := by
  rw [motorRatios_append]
  rfl

theorem motorRatios_accMode (r : Nat → Nat) (l : List Cmd) (mode : AccMode) :
    motorRatios r (l ++ [Cmd.sensorsSetAccMode mode]) = motorRatios r l := by
  rw [motorRatios_append]
  rfl

theorem ratioInvariant_noiseFloor (cfg : Config) (ratios : Nat → Nat) (sensors : SensorData)
    (t : Health) (hst : t.testState = TestState.measureNoiseFloor)
    (hz : ∀ j, motorRatios ratios t.cmds j = 0) :
    ratioInvariant cfg ratios (measureNoiseFloorBody sensors t) := by
  obtain ⟨_, _, _, _, f5, f6⟩ := measureNoiseFloorBody_fields sensors t
  obtain ⟨c1, _⟩ := measureNoiseFloorBody_cmds sensors t
  unfold ratioInvariant
  rw [c1]
  by_cases hc : (t.tick + 1) % 2 ^ 32 ≥ PROPTEST_NBR_OF_VARIANCE_VALUES
  · obtain ⟨g1, g2, _⟩ := f5 hc
    rw [g1, g2]
    exact ⟨Or.inr (Or.inl rfl), fun _ => hz, fun _ => ⟨fun j _ => hz j, Nat.zero_le _,
      fun _ => hz _⟩⟩
  · obtain ⟨g1, _⟩ := f6 hc
    rw [g1, hst]
    exact ⟨Or.inl rfl, fun _ => hz, fun h => absurd h (by simp)⟩

theorem ratioInvariant_first (cfg : Config) (ratios : Nat → Nat) (sensors : SensorData)
    (vbat : ℚ) (s : Health) (hst : s.testState = TestState.configureAcc) :
    ratioInvariant cfg ratios (healthRunTests cfg sensors vbat s) := by
  obtain ⟨c1, _⟩ := configureAccBody_fields vbat s
  obtain ⟨d1, _⟩ := configureAccBody_cmds vbat s
  rw [healthRunTests_configureAcc _ _ _ _ hst]
  apply ratioInvariant_noiseFloor cfg ratios sensors _ c1
  intro j
  rw [d1, motorRatios_stop]

theorem ratioInvariant_step (cfg : Config) (ratios : Nat → Nat) (sensors : SensorData)
    (vbat : ℚ) (s : Health)
    (hon : ∀ m, 2 ≤ (cfg.motorsGetHealthTestSettings m).onPeriodMsec.val)
    (h : ratioInvariant cfg ratios s) :
    ratioInvariant cfg ratios (healthRunTests cfg sensors vbat s) := by
  obtain ⟨h1, h2, h3⟩ := h
  rcases h1 with hst | hst | hst | hst
  · rw [healthRunTests_measureNoiseFloor _ _ _ _ hst]
    exact ratioInvariant_noiseFloor cfg ratios sensors s hst (h2 (by simp [hst]))
  · obtain ⟨i1, i2, i3⟩ := h3 hst
    have hp2 := hon s.motorToTest.toNat
    have hlt1 := (cfg.motorsGetHealthTestSettings s.motorToTest.toNat).onPeriodMsec.isLt
    have hlt2 := (cfg.motorsGetHealthTestSettings s.motorToTest.toNat).offPeriodMsec.isLt
    obtain ⟨p, hp⟩ : ∃ p, cfg.motorsGetHealthTestSettings s.motorToTest.toNat = p := ⟨_, rfl⟩
    rw [hp] at i2 i3 hp2 hlt1 hlt2
    rw [healthRunTests_measureProp _ _ _ _ hst, measurePropBody, hp]
    obtain ⟨f1, f2, f3⟩ := measurePropSample_fields p sensors vbat s
    obtain ⟨f4, _⟩ := measurePropSample_cmds p sensors vbat s
    rw [Nat.mod_eq_of_lt (by omega)] at f1
    rw [hst] at f2
    rcases measurePropControl_cases p (measurePropSample p sensors vbat s) with
      ⟨c1, _, hc⟩ | ⟨_, c2, hc⟩ | ⟨c1, c2, c3, _, hc⟩ | ⟨c1, c2, c3, _, hc⟩ | ⟨c1, c2, c3, hc⟩
    · have e1 : (measurePropControl p (measurePropSample p sensors vbat s)).testState
          = TestState.measureProp := by rw [hc]; exact f2
      have e2 : (measurePropControl p (measurePropSample p sensors vbat s)).motorToTest
          = s.motorToTest := by rw [hc]; exact f3
      have e3 : (measurePropControl p (measurePropSample p sensors vbat s)).tick = s.tick + 1 := by
        rw [hc]; exact f1
      have e4 : (measurePropControl p (measurePropSample p sensors vbat s)).cmds
          = s.cmds ++ [Cmd.motorsSetRatio s.motorToTest.toNat
              (if s.propTestPWMRatio > 0 then s.propTestPWMRatio
               else p.onPeriodPWMRatioProp.val)] := by
        rw [hc]
        simp only [emit]
        rw [f4, f3, (measurePropSample_cmds p sensors vbat s).2]
      rw [f1] at c1
      unfold ratioInvariant
      rw [e1, e2, e3, e4, hp, motorRatios_setRatio]
      refine ⟨Or.inr (Or.inl rfl), fun h => absurd rfl h, fun _ => ⟨fun j hj => ?_, by omega,
        fun h0 => ?_⟩⟩
      · rw [Function.update_noteq hj]
        exact i1 j hj
      · exfalso
        omega
    · have e1 : (measurePropControl p (measurePropSample p sensors vbat s)).testState
          = TestState.measureProp := by rw [hc]; exact f2
      have e2 : (measurePropControl p (measurePropSample p sensors vbat s)).motorToTest
          = s.motorToTest := by rw [hc]; exact f3
      have e3 : (measurePropControl p (measurePropSample p sensors vbat s)).tick = s.tick + 1 := by
        rw [hc]; exact f1
      have e4 : (measurePropControl p (measurePropSample p sensors vbat s)).cmds
          = s.cmds ++ [Cmd.motorsSetRatio s.motorToTest.toNat 0] := by
        rw [hc]
        simp only [emit]
        rw [f4, f3]
      rw [f1] at c2
      unfold ratioInvariant
      rw [e1, e2, e3, e4, hp, motorRatios_setRatio]
      refine ⟨Or.inr (Or.inl rfl), fun h => absurd rfl h, fun _ => ⟨fun j hj => ?_, by omega,
        fun _ => ?_⟩⟩
      · rw [Function.update_noteq hj]
        exact i1 j hj
      · simp
    · rw [f1] at c1 c2 c3
      have hzero : ∀ j, motorRatios ratios s.cmds j = 0 := by
        intro j
        by_cases hj : j = s.motorToTest.toNat
        · rw [hj]
          exact i3 (Or.inr (by omega))
        · exact i1 j hj
      unfold ratioInvariant
      rw [hc]
      dsimp only
      rw [f2, f4]
      exact ⟨Or.inr (Or.inl rfl), fun h => absurd rfl h,
        fun _ => ⟨fun j _ => hzero j, Nat.zero_le _, fun _ => hzero _⟩⟩
    · rw [f1] at c1 c2 c3
      have hzero : ∀ j, motorRatios ratios s.cmds j = 0 := by
        intro j
        by_cases hj : j = s.motorToTest.toNat
        · rw [hj]
          exact i3 (Or.inr (by omega))
        · exact i1 j hj
      have e1 : (measurePropControl p (measurePropSample p sensors vbat s)).testState
          = TestState.evaluatePropResult := by rw [hc]; rfl
      have e4 : (measurePropControl p (measurePropSample p sensors vbat s)).cmds
          = s.cmds ++ [Cmd.sensorsSetAccMode AccMode.ACC_MODE_FLIGHT] := by
        rw [hc]
        simp only [emit]
        rw [f4]
      unfold ratioInvariant
      rw [e1, e4, motorRatios_accMode]
      exact ⟨Or.inr (Or.inr (Or.inl rfl)), fun _ => hzero, fun h => absurd h (by simp)⟩
    · rw [f1] at c1 c2 c3
      unfold ratioInvariant
      rw [hc, f1, f2, f3, f4, hp]
      refine ⟨Or.inr (Or.inl rfl), fun h => absurd rfl h, fun _ => ⟨i1, by omega, fun h0 => ?_⟩⟩
      exact i3 (Or.inr (by omega))
  · obtain ⟨f1, _, _⟩ := evaluatePropResultBody_ctrl cfg s
    rw [healthRunTests_evaluatePropResult _ _ _ _ hst]
    unfold ratioInvariant
    rw [f1, evaluatePropResultBody_ratios]
    exact ⟨Or.inr (Or.inr (Or.inr rfl)), fun _ => h2 (by simp [hst]),
      fun h => absurd h (by simp)⟩
  · rw [healthRunTests_testDone _ _ _ _ hst]
    exact ⟨Or.inr (Or.inr (Or.inr hst)), h2, h3⟩

theorem ratioInvariant_runCalls (cfg : Config) (ratios : Nat → Nat) (sensors : Nat → SensorData)
    (vbat : Nat → ℚ) (s : Health) (hst : s.testState = TestState.configureAcc)
    (hon : ∀ m, 2 ≤ (cfg.motorsGetHealthTestSettings m).onPeriodMsec.val) :
    ∀ k, ratioInvariant cfg ratios (runCalls cfg sensors vbat s (k + 1)) := by
  intro k
  induction k with
  | zero => exact ratioInvariant_first cfg ratios (sensors 0) (vbat 0) s hst
  | succ k ih =>
    rw [runCalls_succ]
    exact ratioInvariant_step cfg ratios _ _ _ hon ih

/-- Claim C14, as the code has it: with the commanded ratios obtained from the
record of `motorsSetRatio` and `motorsStop` calls, for profiles with
`onPeriodMsec > 1`, after every call of an uninterrupted propeller test started
in `configureAcc` at most one motor has a nonzero commanded ratio: outside
`measureProp` all ratios are 0, and in `measureProp` only the motor under test
can have a nonzero ratio, which is 0 when its phase begins (`tick = 0`) and
from `tick = onPeriodMsec` on, hence before `motorToTest` advances. -/
theorem one_motor_at_a_time (cfg : Config) (ratios : Nat → Nat) (sensors : Nat → SensorData)
    (vbat : Nat → ℚ) (s : Health) (hst : s.testState = TestState.configureAcc)
    (hon : ∀ m, 1 < (cfg.motorsGetHealthTestSettings m).onPeriodMsec.val) (k : Nat)
    (hk : 1 ≤ k) :
    (∀ i j, motorRatios ratios (runCalls cfg sensors vbat s k).cmds i ≠ 0 →
        motorRatios ratios (runCalls cfg sensors vbat s k).cmds j ≠ 0 → i = j)
      ∧ ((runCalls cfg sensors vbat s k).testState ≠ TestState.measureProp →
          ∀ j, motorRatios ratios (runCalls cfg sensors vbat s k).cmds j = 0)
      ∧ ((runCalls cfg sensors vbat s k).testState = TestState.measureProp →
          (∀ j, j ≠ (runCalls cfg sensors vbat s k).motorToTest.toNat →
              motorRatios ratios (runCalls cfg sensors vbat s k).cmds j = 0)
            ∧ ((runCalls cfg sensors vbat s k).tick = 0
                  ∨ (cfg.motorsGetHealthTestSettings
                        (runCalls cfg sensors vbat s k).motorToTest.toNat).onPeriodMsec.val
                      ≤ (runCalls cfg sensors vbat s k).tick →
                motorRatios ratios (runCalls cfg sensors vbat s k).cmds
                  (runCalls cfg sensors vbat s k).motorToTest.toNat = 0)) := by
  obtain ⟨k0, rfl⟩ : ∃ k0, k = k0 + 1 := ⟨k - 1, by omega⟩
  obtain ⟨_, h2, h3⟩ := ratioInvariant_runCalls cfg ratios sensors vbat s hst hon k0
  refine ⟨fun i j hi hj => ?_, h2, fun h => ⟨(h3 h).1, (h3 h).2.2⟩⟩
  by_cases hmp : (runCalls cfg sensors vbat s (k0 + 1)).testState = TestState.measureProp
  · obtain ⟨o1, _, _⟩ := h3 hmp
    have e1 : i = (runCalls cfg sensors vbat s (k0 + 1)).motorToTest.toNat := by
      by_contra hne
      exact hi (o1 i hne)
    have e2 : j = (runCalls cfg sensors vbat s (k0 + 1)).motorToTest.toNat := by
      by_contra hne
      exact hj (o1 j hne)
    rw [e1, e2]
  · exact absurd (h2 hmp i) hi

theorem one_motor_at_a_time_witness :
    propStartRatioExample.testState = TestState.configureAcc
      ∧ (∀ m, 1 < ((exampleConfig 2 1 1000 (1 / 2)).motorsGetHealthTestSettings m).onPeriodMsec.val)
      ∧ 1 ≤ 101
      ∧ (∀ i j,
          motorRatios (fun _ => 7) (runCalls (exampleConfig 2 1 1000 (1 / 2)) rampSensors
              (fun _ => 4) propStartRatioExample 101).cmds i ≠ 0 →
          motorRatios (fun _ => 7) (runCalls (exampleConfig 2 1 1000 (1 / 2)) rampSensors
              (fun _ => 4) propStartRatioExample 101).cmds j ≠ 0 → i = j) :=
  ⟨rfl, fun _ => (by decide : 1 < (2 : Fin 65536).val), by decide,
    (one_motor_at_a_time (exampleConfig 2 1 1000 (1 / 2)) (fun _ => 7) rampSensors (fun _ => 4)
      propStartRatioExample rfl (fun _ => (by decide : 1 < (2 : Fin 65536).val)) 101
      (by decide)).1⟩

theorem noiseFloor_cmds (cfg : Config) (sensors : Nat → SensorData) (vbat : Nat → ℚ)
    (s : Health) (hst : s.testState = TestState.configureAcc) (ht : s.tick = 0) :
    ∀ k, k ≤ 99 →
      (runCalls cfg sensors vbat s (k + 1)).cmds
          = s.cmds ++ [Cmd.sensorsSetAccMode AccMode.ACC_MODE_PROPTEST, Cmd.motorsStop]
        ∧ (runCalls cfg sensors vbat s (k + 1)).propTestPWMRatio = s.propTestPWMRatio := by
  intro k
  induction k with
  | zero =>
    intro _
    obtain ⟨d1, d2⟩ := configureAccBody_cmds (vbat 0) s
    obtain ⟨e1, e2⟩ := measureNoiseFloorBody_cmds (sensors 0) (configureAccBody (vbat 0) s)
    rw [runCalls_succ]
    simp only [runCalls]
    rw [healthRunTests_configureAcc _ _ _ _ hst]
    exact ⟨e1.trans d1, e2.trans d2⟩
  | succ k ih =>
    intro hk
    obtain ⟨i1, i2⟩ := ih (by omega)
    obtain ⟨n1, _⟩ := noiseFloor_invariant cfg sensors vbat s hst ht (k + 1) (by omega) (by omega)
    obtain ⟨e1, e2⟩ := measureNoiseFloorBody_cmds (sensors (k + 1))
      (runCalls cfg sensors vbat s (k + 1))
    rw [runCalls_succ, healthRunTests_measureNoiseFloor _ _ _ _ n1]
    exact ⟨e1.trans i1, e2.trans i2⟩

theorem measureProp_engage (cfg : Config) (sensors : SensorData) (vbat : ℚ) (s : Health)
    (hst : s.testState = TestState.measureProp) (ht : s.tick = 0)
    (hon : 0 < (cfg.motorsGetHealthTestSettings s.motorToTest.toNat).onPeriodMsec.val) :
    (healthRunTests cfg sensors vbat s).testState = TestState.measureProp
      ∧ (healthRunTests cfg sensors vbat s).tick = 1
      ∧ (healthRunTests cfg sensors vbat s).motorToTest = s.motorToTest
      ∧ (healthRunTests cfg sensors vbat s).propTestPWMRatio = s.propTestPWMRatio
      ∧ (healthRunTests cfg sensors vbat s).cmds
          = s.cmds ++ [Cmd.motorsSetRatio s.motorToTest.toNat
              (if s.propTestPWMRatio > 0 then s.propTestPWMRatio
               else (cfg.motorsGetHealthTestSettings
                      s.motorToTest.toNat).onPeriodPWMRatioProp.val)] := by
  obtain ⟨p, hp⟩ : ∃ p, cfg.motorsGetHealthTestSettings s.motorToTest.toNat = p := ⟨_, rfl⟩
  rw [hp] at hon ⊢
  obtain ⟨f1, f2, f3⟩ := measurePropSample_fields p sensors vbat s
  obtain ⟨f4, f5⟩ := measurePropSample_cmds p sensors vbat s
  rw [ht] at f1
  have hc : measurePropControl p (measurePropSample p sensors vbat s)
      = emit [Cmd.motorsSetRatio (measurePropSample p sensors vbat s).motorToTest.toNat
          (if (measurePropSample p sensors vbat s).propTestPWMRatio > 0 then
            (measurePropSample p sensors vbat s).propTestPWMRatio
           else p.onPeriodPWMRatioProp.val)] (measurePropSample p sensors vbat s) := by
    unfold measurePropControl
    rw [if_pos ⟨f1, hon⟩]
  rw [healthRunTests_measureProp _ _ _ _ hst, measurePropBody, hp, hc]
  simp only [emit]
  rw [f2, f3, f4, f5, hst]
  exact ⟨rfl, f1, rfl, rfl, rfl⟩

theorem measureProp_advance (cfg : Config) (sensors : SensorData) (vbat : ℚ) (s : Health)
    (hst : s.testState = TestState.measureProp) (ht : s.tick + 1 < 2 ^ 32)
    (h1 : ¬ (s.tick + 1 = 1
      ∧ (cfg.motorsGetHealthTestSettings s.motorToTest.toNat).onPeriodMsec.val > 0))
    (h2 : s.tick + 1 ≠ (cfg.motorsGetHealthTestSettings s.motorToTest.toNat).onPeriodMsec.val)
    (h3 : s.tick + 1 ≥ (cfg.motorsGetHealthTestSettings s.motorToTest.toNat).onPeriodMsec.val
      + (cfg.motorsGetHealthTestSettings s.motorToTest.toNat).offPeriodMsec.val)
    (h4 : ¬ s.motorToTest + 1 ≥ (NBR_OF_MOTORS : Int)) :
    (healthRunTests cfg sensors vbat s).testState = TestState.measureProp
      ∧ (healthRunTests cfg sensors vbat s).tick = 0
      ∧ (healthRunTests cfg sensors vbat s).motorToTest = s.motorToTest + 1
      ∧ (healthRunTests cfg sensors vbat s).propTestPWMRatio = s.propTestPWMRatio
      ∧ (healthRunTests cfg sensors vbat s).cmds = s.cmds := by
  obtain ⟨p, hp⟩ : ∃ p, cfg.motorsGetHealthTestSettings s.motorToTest.toNat = p := ⟨_, rfl⟩
  rw [hp] at h1 h2 h3
  obtain ⟨f1, f2, f3⟩ := measurePropSample_fields p sensors vbat s
  obtain ⟨f4, f5⟩ := measurePropSample_cmds p sensors vbat s
  rw [Nat.mod_eq_of_lt ht] at f1
  have hc : measurePropControl p (measurePropSample p sensors vbat s)
      = { measurePropSample p sensors vbat s with
          tick := 0, motorToTest := (measurePropSample p sensors vbat s).motorToTest + 1 } := by
    unfold measurePropControl
    dsimp only
    rw [if_neg (by rw [f1]; exact h1), if_neg (by rw [f1]; exact h2),
      if_pos (by rw [f1]; exact h3), if_neg (by rw [f3]; exact h4)]
  rw [healthRunTests_measureProp _ _ _ _ hst, measurePropBody, hp, hc]
  dsimp only
  rw [f2, f3, f4, f5, hst]
  exact ⟨rfl, rfl, rfl, rfl, rfl⟩

/-- Claim C14 fails on the code for a profile with `onPeriodMsec = 1`: the
motor is engaged on the call that makes `tick` 1, and the arm
`tick == onPeriodMsec` of the else-if chain is then never taken, so motor 0 still
has the test ratio when motor 1 is engaged: after 103 calls both commanded
ratios are 30000. -/
theorem one_motor_at_a_time_counterexample :
    propStartRatioExample.testState = TestState.configureAcc
      ∧ (∀ m, 0 < ((exampleConfig 1 1 1000 (1 / 2)).motorsGetHealthTestSettings m).onPeriodMsec.val)
      ∧ motorRatios (fun _ => 0) (runCalls (exampleConfig 1 1 1000 (1 / 2)) rampSensors
            (fun _ => 4) propStartRatioExample 103).cmds 0 = 30000
      ∧ motorRatios (fun _ => 0) (runCalls (exampleConfig 1 1 1000 (1 / 2)) rampSensors
            (fun _ => 4) propStartRatioExample 103).cmds 1 = 30000
      ∧ ¬ (∀ i j,
          motorRatios (fun _ => 0) (runCalls (exampleConfig 1 1 1000 (1 / 2)) rampSensors
              (fun _ => 4) propStartRatioExample 103).cmds i ≠ 0 →
          motorRatios (fun _ => 0) (runCalls (exampleConfig 1 1 1000 (1 / 2)) rampSensors
              (fun _ => 4) propStartRatioExample 103).cmds j ≠ 0 → i = j) := by
  obtain ⟨a1, a2, a3, _⟩ := noiseFloor_final (exampleConfig 1 1 1000 (1 / 2)) rampSensors
    (fun _ => 4) propStartRatioExample rfl rfl
  obtain ⟨a4, a5⟩ := noiseFloor_cmds (exampleConfig 1 1 1000 (1 / 2)) rampSensors
    (fun _ => 4) propStartRatioExample rfl rfl 99 (le_refl _)
  have a3' : (runCalls (exampleConfig 1 1 1000 (1 / 2)) rampSensors (fun _ => 4)
      propStartRatioExample 100).motorToTest = 0 := a3
  obtain ⟨b1, b2, b3, b4, b5⟩ := measureProp_engage (exampleConfig 1 1 1000 (1 / 2))
    (rampSensors 100) 4 _ a1 a2 (by decide)
  rw [← runCalls_succ (exampleConfig 1 1 1000 (1 / 2)) rampSensors (fun _ => 4)
    propStartRatioExample 100] at b1 b2 b3 b4 b5
  rw [a3'] at b3 b5
  rw [a4, a5] at b5
  rw [a5] at b4
  obtain ⟨c1, c2, c3, c4, c5⟩ := measureProp_advance (exampleConfig 1 1 1000 (1 / 2))
    (rampSensors 101) 4 _ b1 (by rw [b2]; decide) (by rw [b2]; decide) (by rw [b2, b3]; decide)
    (by rw [b2, b3]; decide) (by rw [b3]; decide)
  rw [← runCalls_succ (exampleConfig 1 1 1000 (1 / 2)) rampSensors (fun _ => 4)
    propStartRatioExample 101] at c1 c2 c3 c4 c5
  rw [b3] at c3
  rw [b4] at c4
  rw [b5] at c5
  obtain ⟨d1, d2, d3, d4, d5⟩ := measureProp_engage (exampleConfig 1 1 1000 (1 / 2))
    (rampSensors 102) 4 _ c1 c2 (by decide)
  rw [← runCalls_succ (exampleConfig 1 1 1000 (1 / 2)) rampSensors (fun _ => 4)
    propStartRatioExample 102] at d5
  rw [c3, c4, c5] at d5
  have e0 : motorRatios (fun _ => 0) (runCalls (exampleConfig 1 1 1000 (1 / 2)) rampSensors
      (fun _ => 4) propStartRatioExample 103).cmds 0 = 30000 := by
    rw [d5]; decide
  have e1 : motorRatios (fun _ => 0) (runCalls (exampleConfig 1 1 1000 (1 / 2)) rampSensors
      (fun _ => 4) propStartRatioExample 103).cmds 1 = 30000 := by
    rw [d5]; decide
  refine ⟨rfl, fun _ => (by decide : 0 < (1 : Fin 65536).val), e0, e1, fun h => ?_⟩
  have := h 0 1 (by rw [e0]; decide) (by rw [e1]; decide)
  exact absurd this (by decide)

/-! ## The noise floor does not influence the outcome -/

theorem sameOutcome_fields (a b : Health) (h : sameOutcome a b) :
    b.testState = a.testState ∧ b.tick = a.tick ∧ b.motorToTest = a.motorToTest
      ∧ b.accVarX = a.accVarX ∧ b.accVarY = a.accVarY ∧ b.accVarZ = a.accVarZ
      ∧ b.motorPass = a.motorPass ∧ b.nrFailedTests = a.nrFailedTests
      ∧ b.motorTestCount = a.motorTestCount ∧ b.cmds = a.cmds
      ∧ b.minSingleLoadedVoltage = a.minSingleLoadedVoltage
      ∧ b.idleVoltage = a.idleVoltage ∧ b.minLoadedVoltage = a.minLoadedVoltage
      ∧ b.batteryPass = a.batteryPass ∧ b.batterySag = a.batterySag := by
  obtain ⟨x, y, z, nx, ny, nz, rfl⟩ := h
  exact ⟨rfl, rfl, rfl, rfl, rfl, rfl, rfl, rfl, rfl, rfl, rfl, rfl, rfl, rfl, rfl⟩

theorem sameOutcome_refl (a : Health) : sameOutcome a a :=
  ⟨a.accX, a.accY, a.accZ, a.accVarXnf, a.accVarYnf, a.accVarZnf, rfl⟩

theorem configureAccBody_scratch (vbat : ℚ) (a : Health) (x y z : Nat → ℚ) (nx ny nz : ℚ) :
    configureAccBody vbat (withScratch a x y z nx ny nz)
      = withScratch (configureAccBody vbat a) x y z nx ny nz := rfl

theorem measureNoiseFloorBody_scratch (sa sb : SensorData) (a : Health) (x y z : Nat → ℚ)
    (nx ny nz : ℚ) :
    sameOutcome (measureNoiseFloorBody sa a)
      (measureNoiseFloorBody sb (withScratch a x y z nx ny nz)) := by
  unfold sameOutcome measureNoiseFloorBody withScratch
  dsimp only
  split_ifs
  · exact ⟨_, _, _, _, _, _, rfl⟩
  · exact ⟨_, _, _, _, _, _, rfl⟩

theorem testBatteryBody_scratch (cfg : Config) (vbat : ℚ) (a : Health) (x y z : Nat → ℚ)
    (nx ny nz : ℚ) :
    testBatteryBody cfg vbat (withScratch a x y z nx ny nz)
      = withScratch (testBatteryBody cfg vbat a) x y z nx ny nz := by
  unfold testBatteryBody withScratch emit
  dsimp only
  split_ifs <;> rfl

theorem restartBatTestBody_scratch (a : Health) (x y z : Nat → ℚ) (nx ny nz : ℚ) :
    restartBatTestBody (withScratch a x y z nx ny nz)
      = withScratch (restartBatTestBody a) x y z nx ny nz := by
  unfold restartBatTestBody withScratch
  dsimp only
  split_ifs <;> rfl

theorem evaluateBatResultBody_scratch (cfg : Config) (a : Health) (x y z : Nat → ℚ)
    (nx ny nz : ℚ) :
    evaluateBatResultBody cfg (withScratch a x y z nx ny nz)
      = withScratch (evaluateBatResultBody cfg a) x y z nx ny nz := by
  unfold evaluateBatResultBody withScratch
  dsimp only
  split_ifs <;> rfl

theorem measurePropControl_scratch (p : MotorHealthTestDef) (a : Health) (x y z : Nat → ℚ)
    (nx ny nz : ℚ) :
    measurePropControl p (withScratch a x y z nx ny nz)
      = withScratch (measurePropControl p a) x y z nx ny nz := by
  unfold measurePropControl withScratch emit
  dsimp only
  split_ifs <;> rfl

theorem emit_scratch (cs : List Cmd) (a : Health) (x y z : Nat → ℚ) (nx ny nz : ℚ) :
    emit cs (withScratch a x y z nx ny nz) = withScratch (emit cs a) x y z nx ny nz := rfl

theorem evaluatePropIter_scratch (cfg : Config) (m : Nat) (a : Health) (x y z : Nat → ℚ)
    (nx ny nz : ℚ) :
    evaluatePropIter cfg m (withScratch a x y z nx ny nz)
      = withScratch (evaluatePropIter cfg m a) x y z nx ny nz := by
  unfold evaluatePropIter
  simp only [failBeeps_eq]
  unfold evaluatePropTest withScratch emit
  dsimp only
  split_ifs <;> rfl

theorem evaluatePropLoop_scratch (cfg : Config) (n : Nat) :
    ∀ (m0 : Nat) (a : Health) (x y z : Nat → ℚ) (nx ny nz : ℚ),
      evaluatePropLoop cfg n m0 (withScratch a x y z nx ny nz)
        = withScratch (evaluatePropLoop cfg n m0 a) x y z nx ny nz := by
  induction n with
  | zero => intro m0 a x y z nx ny nz; rfl
  | succ n ih =>
    intro m0 a x y z nx ny nz
    rw [evaluatePropLoop, evaluatePropLoop, evaluatePropIter_scratch, ih]

theorem evaluatePropResultBody_scratch (cfg : Config) (a : Health) (x y z : Nat → ℚ)
    (nx ny nz : ℚ) :
    evaluatePropResultBody cfg (withScratch a x y z nx ny nz)
      = withScratch (evaluatePropResultBody cfg a) x y z nx ny nz := by
  unfold evaluatePropResultBody
  simp only [melodyLoop_eq, evaluatePropLoop_scratch]
  unfold withScratch emit
  dsimp only
  split_ifs <;> rfl

theorem toInt32_succ_le (t : Nat) : toInt32 ((t + 1) % 2 ^ 32) ≤ toInt32 t + 1 := by
  unfold toInt32
  rw [Nat.mod_mod]
  split_ifs <;> omega

theorem toInt32_zero_sub_nonpos (start : Nat) : toInt32 0 - (start : Int) ≤ 0 := by
  have : toInt32 0 = 0 := by decide
  rw [this]
  omega

theorem measurePropSample_scratch (p : MotorHealthTestDef) (sensors : SensorData) (vbat : ℚ)
    (a : Health) (x y z : Nat → ℚ) (nx ny nz : ℚ)
    (hagree : ∀ i : Nat, i < PROPTEST_NBR_OF_VARIANCE_VALUES →
      (i : Int) < toInt32 a.tick - (p.varianceMeasurementStartMsec.val : Int) →
      a.accX i = x i ∧ a.accY i = y i ∧ a.accZ i = z i) :
    sameOutcome (measurePropSample p sensors vbat a)
        (measurePropSample p sensors vbat (withScratch a x y z nx ny nz))
      ∧ ∀ i : Nat, i < PROPTEST_NBR_OF_VARIANCE_VALUES →
          (i : Int) < toInt32 a.tick - (p.varianceMeasurementStartMsec.val : Int) + 1 →
          (measurePropSample p sensors vbat a).accX i
              = (measurePropSample p sensors vbat (withScratch a x y z nx ny nz)).accX i
            ∧ (measurePropSample p sensors vbat a).accY i
              = (measurePropSample p sensors vbat (withScratch a x y z nx ny nz)).accY i
            ∧ (measurePropSample p sensors vbat a).accZ i
              = (measurePropSample p sensors vbat (withScratch a x y z nx ny nz)).accZ i := by
  have hN : (PROPTEST_NBR_OF_VARIANCE_VALUES : Int) = 100 := rfl
  by_cases hw : toInt32 a.tick - (p.varianceMeasurementStartMsec.val : Int) ≥ 0
      ∧ toInt32 a.tick - (p.varianceMeasurementStartMsec.val : Int)
          < (PROPTEST_NBR_OF_VARIANCE_VALUES : Int)
  · have hne : ¬ toInt32 a.tick - (p.varianceMeasurementStartMsec.val : Int)
        = (PROPTEST_NBR_OF_VARIANCE_VALUES : Int) := fun h => by omega
    constructor
    · unfold sameOutcome measurePropSample withScratch
      simp only [if_pos hw, if_neg hne]
      split_ifs <;> exact ⟨_, _, _, _, _, _, rfl⟩
    · intro i hi hlt
      unfold measurePropSample withScratch
      simp only [if_pos hw, if_neg hne]
      by_cases hidx : i = (toInt32 a.tick - (p.varianceMeasurementStartMsec.val : Int)).toNat
      · split_ifs <;> (rw [hidx]; simp only [Function.update_same]; exact ⟨trivial, trivial, trivial⟩)
      · have hprev := hagree i hi (by omega)
        split_ifs <;> simp [Function.update_noteq hidx, hprev]
  · have hstay : ∀ i : Nat, i < PROPTEST_NBR_OF_VARIANCE_VALUES →
        (i : Int) < toInt32 a.tick - (p.varianceMeasurementStartMsec.val : Int) + 1 →
        a.accX i = x i ∧ a.accY i = y i ∧ a.accZ i = z i := by
      intro i hi hlt
      apply hagree i hi
      have hi' : (i : Int) < (PROPTEST_NBR_OF_VARIANCE_VALUES : Int) := by exact_mod_cast hi
      omega
    by_cases he : toInt32 a.tick - (p.varianceMeasurementStartMsec.val : Int)
        = (PROPTEST_NBR_OF_VARIANCE_VALUES : Int)
    · have hx := variance_congr a.accX x PROPTEST_NBR_OF_VARIANCE_VALUES
        (fun i hi => (hagree i hi (by rw [he]; exact_mod_cast hi)).1)
      have hy := variance_congr a.accY y PROPTEST_NBR_OF_VARIANCE_VALUES
        (fun i hi => (hagree i hi (by rw [he]; exact_mod_cast hi)).2.1)
      have hz := variance_congr a.accZ z PROPTEST_NBR_OF_VARIANCE_VALUES
        (fun i hi => (hagree i hi (by rw [he]; exact_mod_cast hi)).2.2)
      constructor
      · unfold sameOutcome measurePropSample withScratch
        simp only [if_neg hw, if_pos he]
        rw [← hx, ← hy, ← hz]
        exact ⟨_, _, _, _, _, _, rfl⟩
      · intro i hi hlt
        unfold measurePropSample withScratch
        simp only [if_neg hw, if_pos he]
        exact hstay i hi hlt
    · constructor
      · unfold sameOutcome measurePropSample withScratch
        simp only [if_neg hw, if_neg he]
        exact ⟨_, _, _, _, _, _, rfl⟩
      · intro i hi hlt
        unfold measurePropSample withScratch
        simp only [if_neg hw, if_neg he]
        exact hstay i hi hlt

theorem windowAgrees_of_not (cfg : Config) (a b : Health)
    (h : a.testState ≠ TestState.measureProp) : windowAgrees cfg a b :=
  fun hst => absurd hst h

theorem windowAgrees_of_tick_zero (cfg : Config) (a b : Health) (h : a.tick = 0) :
    windowAgrees cfg a b := by
  intro _ i _ hlt
  exfalso
  rw [h] at hlt
  have := toInt32_zero_sub_nonpos
    (cfg.motorsGetHealthTestSettings a.motorToTest.toNat).varianceMeasurementStartMsec.val
  omega

theorem measurePropControl_tick (p : MotorHealthTestDef) (t : Health) :
    ((measurePropControl p t).tick = t.tick ∧ (measurePropControl p t).motorToTest = t.motorToTest)
      ∨ (measurePropControl p t).tick = 0 := by
  rcases measurePropControl_cases p t with
    ⟨_, _, hc⟩ | ⟨_, _, hc⟩ | ⟨_, _, _, _, hc⟩ | ⟨_, _, _, _, hc⟩ | ⟨_, _, _, hc⟩
  · rw [hc]; exact Or.inl ⟨rfl, rfl⟩
  · rw [hc]; exact Or.inl ⟨rfl, rfl⟩
  · rw [hc]; exact Or.inr rfl
  · rw [hc]; exact Or.inr rfl
  · rw [hc]; exact Or.inl ⟨rfl, rfl⟩

theorem noiseFloor_outcome (cfg : Config) (sa sb : SensorData) (a : Health)
    (hst : a.testState = TestState.measureNoiseFloor) (x y z : Nat → ℚ) (nx ny nz : ℚ) :
    sameOutcome (measureNoiseFloorBody sa a)
        (measureNoiseFloorBody sb (withScratch a x y z nx ny nz))
      ∧ windowAgrees cfg (measureNoiseFloorBody sa a)
          (measureNoiseFloorBody sb (withScratch a x y z nx ny nz)) := by
  refine ⟨measureNoiseFloorBody_scratch sa sb a x y z nx ny nz, ?_⟩
  obtain ⟨_, _, _, _, f5, f6⟩ := measureNoiseFloorBody_fields sa a
  by_cases hc : (a.tick + 1) % 2 ^ 32 ≥ PROPTEST_NBR_OF_VARIANCE_VALUES
  · exact windowAgrees_of_tick_zero cfg _ _ (f5 hc).2.1
  · exact windowAgrees_of_not cfg _ _ (by rw [(f6 hc).1, hst]; simp)

theorem outcome_step (cfg : Config) (sa sb : SensorData) (vbat : ℚ) (a b : Health)
    (hso : sameOutcome a b) (hwa : windowAgrees cfg a b)
    (hs : a.testState = TestState.measureProp → sa = sb) :
    sameOutcome (healthRunTests cfg sa vbat a) (healthRunTests cfg sb vbat b)
      ∧ windowAgrees cfg (healthRunTests cfg sa vbat a) (healthRunTests cfg sb vbat b) := by
  obtain ⟨x, y, z, nx, ny, nz, rfl⟩ := hso
  cases hst : a.testState with
  | testDone =>
    rw [healthRunTests_testDone _ _ _ _ hst,
      healthRunTests_testDone cfg sb vbat (withScratch a x y z nx ny nz) hst]
    exact ⟨⟨x, y, z, nx, ny, nz, rfl⟩, hwa⟩
  | configureAcc =>
    rw [healthRunTests_configureAcc _ _ _ _ hst,
      healthRunTests_configureAcc cfg sb vbat (withScratch a x y z nx ny nz) hst,
      configureAccBody_scratch]
    exact noiseFloor_outcome cfg sa sb _ (configureAccBody_fields vbat a).1 x y z nx ny nz
  | measureNoiseFloor =>
    rw [healthRunTests_measureNoiseFloor _ _ _ _ hst,
      healthRunTests_measureNoiseFloor cfg sb vbat (withScratch a x y z nx ny nz) hst]
    exact noiseFloor_outcome cfg sa sb a hst x y z nx ny nz
  | measureProp =>
    have hsab := hs hst
    subst hsab
    obtain ⟨p, hp⟩ : ∃ p, cfg.motorsGetHealthTestSettings a.motorToTest.toNat = p := ⟨_, rfl⟩
    have hp2 : cfg.motorsGetHealthTestSettings (withScratch a x y z nx ny nz).motorToTest.toNat
        = p := hp
    have hag := hwa hst
    rw [hp] at hag
    obtain ⟨⟨x2, y2, z2, nx2, ny2, nz2, hb⟩, hbuf⟩ :=
      measurePropSample_scratch p sa vbat a x y z nx ny nz hag
    obtain ⟨f1, _, f3⟩ := measurePropSample_fields p sa vbat a
    obtain ⟨c1, c2, c3, _⟩ := measurePropControl_arrays p (measurePropSample p sa vbat a)
    obtain ⟨d1, d2, d3, _⟩ := measurePropControl_arrays p
      (measurePropSample p sa vbat (withScratch a x y z nx ny nz))
    rw [healthRunTests_measureProp _ _ _ _ hst,
      healthRunTests_measureProp cfg sa vbat (withScratch a x y z nx ny nz) hst,
      measurePropBody, measurePropBody, hp, hp2]
    refine ⟨⟨x2, y2, z2, nx2, ny2, nz2, by rw [hb, measurePropControl_scratch]⟩, ?_⟩
    rcases measurePropControl_tick p (measurePropSample p sa vbat a) with ⟨t1, t2⟩ | t0
    · intro _ i hi hlt
      rw [t1, t2, f1, f3, hp] at hlt
      have hle := toInt32_succ_le a.tick
      rw [c1, c2, c3, d1, d2, d3]
      exact hbuf i hi (by omega)
    · exact windowAgrees_of_tick_zero cfg _ _ t0
  | testBattery =>
    rw [healthRunTests_testBattery _ _ _ _ hst,
      healthRunTests_testBattery cfg sb vbat (withScratch a x y z nx ny nz) hst,
      testBatteryBody_scratch]
    refine ⟨⟨x, y, z, nx, ny, nz, rfl⟩, windowAgrees_of_not cfg _ _ ?_⟩
    rw [(testBatteryBody_fields cfg vbat a).2.1, hst]
    split_ifs <;> simp
  | restartBatTest =>
    have e : ∀ (s : SensorData) (t : Health), t.testState = TestState.restartBatTest →
        healthRunTests cfg s vbat t = restartBatTestBody t := by
      intro s t ht
      simp [healthRunTests, ht]
    rw [e sa a hst, e sb (withScratch a x y z nx ny nz) hst, restartBatTestBody_scratch]
    refine ⟨⟨x, y, z, nx, ny, nz, rfl⟩, windowAgrees_of_not cfg _ _ ?_⟩
    unfold restartBatTestBody
    dsimp only
    split_ifs
    · simp
    · rw [hst]; simp
  | evaluatePropResult =>
    rw [healthRunTests_evaluatePropResult _ _ _ _ hst,
      healthRunTests_evaluatePropResult cfg sb vbat (withScratch a x y z nx ny nz) hst,
      evaluatePropResultBody_scratch]
    refine ⟨⟨x, y, z, nx, ny, nz, rfl⟩, windowAgrees_of_not cfg _ _ ?_⟩
    rw [evaluatePropResultBody_testState]
    simp
  | evaluateBatResult =>
    rw [healthRunTests_evaluateBatResult _ _ _ _ hst,
      healthRunTests_evaluateBatResult cfg sb vbat (withScratch a x y z nx ny nz) hst,
      evaluateBatResultBody_scratch]
    refine ⟨⟨x, y, z, nx, ny, nz, rfl⟩, windowAgrees_of_not cfg _ _ ?_⟩
    rw [evaluateBatResultBody_eq]
    simp

theorem phaseCalls_bounds (p : MotorHealthTestDef) :
    1 ≤ phaseCalls p ∧ phaseCalls p < 2 ^ 32
      ∧ (∀ k, k + 1 < phaseCalls p →
          (k + 1 = 1 ∧ p.onPeriodMsec.val > 0) ∨ k + 1 = p.onPeriodMsec.val
            ∨ k + 1 < p.onPeriodMsec.val + p.offPeriodMsec.val)
      ∧ ¬ (phaseCalls p = 1 ∧ p.onPeriodMsec.val > 0)
      ∧ phaseCalls p ≠ p.onPeriodMsec.val
      ∧ phaseCalls p ≥ p.onPeriodMsec.val + p.offPeriodMsec.val := by
  have hon := p.onPeriodMsec.isLt
  have hoff := p.offPeriodMsec.isLt
  unfold phaseCalls
  split_ifs with h1 h2
  · refine ⟨by omega, by omega, fun k hk => ?_, by omega, by omega, by omega⟩
    omega
  · refine ⟨by omega, by omega, fun k hk => ?_, by omega, by omega, by omega⟩
    omega
  · refine ⟨by omega, by omega, fun k hk => ?_, by omega, by omega, by omega⟩
    omega

theorem phase_invariant (cfg : Config) (sensors : Nat → SensorData) (vbat : Nat → ℚ)
    (s : Health) (hst : s.testState = TestState.measureProp) (ht : s.tick = 0) :
    ∀ k, k < phaseCalls (cfg.motorsGetHealthTestSettings s.motorToTest.toNat) →
      (runCalls cfg sensors vbat s k).testState = TestState.measureProp
        ∧ (runCalls cfg sensors vbat s k).motorToTest = s.motorToTest
        ∧ (runCalls cfg sensors vbat s k).tick = k := by
  intro k
  induction k with
  | zero => intro _; exact ⟨hst, rfl, ht⟩
  | succ k ih =>
    intro hk
    obtain ⟨i1, i2, i3⟩ := ih (by omega)
    obtain ⟨_, b2, b3, _⟩ := phaseCalls_bounds (cfg.motorsGetHealthTestSettings s.motorToTest.toNat)
    rw [runCalls_succ, healthRunTests_measureProp _ _ _ _ i1, measurePropBody, i2]
    obtain ⟨f1, f2, f3⟩ := measurePropSample_fields
      (cfg.motorsGetHealthTestSettings s.motorToTest.toNat)
      (sensors k) (vbat k) (runCalls cfg sensors vbat s k)
    rw [i3, Nat.mod_eq_of_lt (by omega)] at f1
    obtain ⟨g1, g2, g3⟩ := measurePropControl_stay
      (cfg.motorsGetHealthTestSettings s.motorToTest.toNat)
      (measurePropSample (cfg.motorsGetHealthTestSettings s.motorToTest.toNat) (sensors k)
        (vbat k) (runCalls cfg sensors vbat s k)) (by rw [f1]; exact b3 k hk)
    exact ⟨g2.trans (f2.trans i1), g3.trans (f3.trans i2), g1.trans f1⟩

theorem phase_end (cfg : Config) (sensors : Nat → SensorData) (vbat : Nat → ℚ)
    (s : Health) (hst : s.testState = TestState.measureProp) (ht : s.tick = 0) :
    (runCalls cfg sensors vbat s
        (phaseCalls (cfg.motorsGetHealthTestSettings s.motorToTest.toNat))).tick = 0
      ∧ (s.motorToTest + 1 ≥ (NBR_OF_MOTORS : Int) →
          (runCalls cfg sensors vbat s
            (phaseCalls (cfg.motorsGetHealthTestSettings s.motorToTest.toNat))).testState
              = TestState.evaluatePropResult)
      ∧ (¬ s.motorToTest + 1 ≥ (NBR_OF_MOTORS : Int) →
          (runCalls cfg sensors vbat s
            (phaseCalls (cfg.motorsGetHealthTestSettings s.motorToTest.toNat))).motorToTest
              = s.motorToTest + 1
            ∧ (runCalls cfg sensors vbat s
                (phaseCalls (cfg.motorsGetHealthTestSettings s.motorToTest.toNat))).testState
                = TestState.measureProp) := by
  obtain ⟨b1, b2, _, b4, b5, b6⟩ :=
    phaseCalls_bounds (cfg.motorsGetHealthTestSettings s.motorToTest.toNat)
  obtain ⟨k, hk⟩ : ∃ k, phaseCalls (cfg.motorsGetHealthTestSettings s.motorToTest.toNat) = k + 1 :=
    ⟨phaseCalls (cfg.motorsGetHealthTestSettings s.motorToTest.toNat) - 1, by omega⟩
  obtain ⟨i1, i2, i3⟩ := phase_invariant cfg sensors vbat s hst ht k (by omega)
  rw [hk] at b2 b4 b5 b6 ⊢
  rw [runCalls_succ, healthRunTests_measureProp _ _ _ _ i1, measurePropBody, i2]
  obtain ⟨f1, f2, f3⟩ := measurePropSample_fields
    (cfg.motorsGetHealthTestSettings s.motorToTest.toNat)
    (sensors k) (vbat k) (runCalls cfg sensors vbat s k)
  rw [i3, Nat.mod_eq_of_lt (by omega)] at f1
  obtain ⟨g1, g2, g3⟩ := measurePropControl_advance
    (cfg.motorsGetHealthTestSettings s.motorToTest.toNat)
    (measurePropSample (cfg.motorsGetHealthTestSettings s.motorToTest.toNat) (sensors k)
      (vbat k) (runCalls cfg sensors vbat s k))
    (by rw [f1]; exact b4) (by rw [f1]; exact b5) (by rw [f1]; exact b6)
  rw [f3, i2] at g2 g3
  rw [f2, i1] at g3
  exact ⟨g1, fun h => (g2 h).2, fun h => g3 h⟩

theorem measureProp_terminates (cfg : Config) (d : Nat) :
    ∀ (sensors : Nat → SensorData) (vbat : Nat → ℚ) (s : Health),
      s.testState = TestState.measureProp → s.tick = 0 →
      (3 - s.motorToTest).toNat ≤ d →
      ∃ n, (runCalls cfg sensors vbat s n).testState = TestState.evaluatePropResult := by
  have hN : (NBR_OF_MOTORS : Int) = 4 := rfl
  induction d with
  | zero =>
    intro sensors vbat s hst ht hd
    obtain ⟨_, e2, _⟩ := phase_end cfg sensors vbat s hst ht
    exact ⟨_, e2 (by rw [hN]; omega)⟩
  | succ d ih =>
    intro sensors vbat s hst ht hd
    obtain ⟨e1, e2, e3⟩ := phase_end cfg sensors vbat s hst ht
    by_cases hm : s.motorToTest + 1 ≥ (NBR_OF_MOTORS : Int)
    · exact ⟨_, e2 hm⟩
    · obtain ⟨n, hn⟩ := ih
        (fun k => sensors
          (phaseCalls (cfg.motorsGetHealthTestSettings s.motorToTest.toNat) + k))
        (fun k => vbat (phaseCalls (cfg.motorsGetHealthTestSettings s.motorToTest.toNat) + k))
        _ (e3 hm).2 e1 (by rw [(e3 hm).1]; rw [hN] at hm; omega)
      exact ⟨phaseCalls (cfg.motorsGetHealthTestSettings s.motorToTest.toNat) + n, by
        rw [runCalls_add]; exact hn⟩

theorem runCalls_testDone (cfg : Config) (sensors : Nat → SensorData) (vbat : Nat → ℚ)
    (s : Health) (N : Nat) (h : (runCalls cfg sensors vbat s N).testState = TestState.testDone) :
    ∀ n, N ≤ n → runCalls cfg sensors vbat s n = runCalls cfg sensors vbat s N := by
  intro n hn
  induction n with
  | zero =>
    have : N = 0 := by omega
    subst this
    rfl
  | succ n ih =>
    by_cases hN : N = n + 1
    · rw [hN]
    · have e := ih (by omega)
      rw [runCalls_succ, e, healthRunTests_testDone _ _ _ _ h]

theorem propTest_terminates (cfg : Config) (sensors : Nat → SensorData) (vbat : Nat → ℚ)
    (s : Health) (hst : s.testState = TestState.configureAcc) (ht : s.tick = 0) :
    ∃ N, ∀ n, N ≤ n → (runCalls cfg sensors vbat s n).testState = TestState.testDone := by
  obtain ⟨n1, n2, _⟩ := noiseFloor_final cfg sensors vbat s hst ht
  obtain ⟨n, hn⟩ := measureProp_terminates cfg (3 - (runCalls cfg sensors vbat s 100).motorToTest).toNat
    (fun k => sensors (100 + k)) (fun k => vbat (100 + k)) _ n1 n2 (le_refl _)
  rw [← runCalls_add] at hn
  have hd : (runCalls cfg sensors vbat s (100 + n + 1)).testState = TestState.testDone := by
    rw [runCalls_succ, healthRunTests_evaluatePropResult _ _ _ _ hn]
    exact evaluatePropResultBody_testState cfg _
  exact ⟨100 + n + 1, fun m hm => by rw [runCalls_testDone cfg sensors vbat s _ hd m hm]; exact hd⟩

theorem runCalls_outcome (cfg : Config) (sensors sensors2 : Nat → SensorData) (vbat : Nat → ℚ)
    (s : Health) (hst : s.testState = TestState.configureAcc) (ht : s.tick = 0)
    (hsame : ∀ k, PROPTEST_NBR_OF_VARIANCE_VALUES ≤ k → sensors k = sensors2 k) :
    ∀ n, sameOutcome (runCalls cfg sensors vbat s n) (runCalls cfg sensors2 vbat s n)
      ∧ windowAgrees cfg (runCalls cfg sensors vbat s n) (runCalls cfg sensors2 vbat s n) := by
  intro n
  induction n with
  | zero =>
    exact ⟨sameOutcome_refl s, windowAgrees_of_not cfg _ _ (by
      show s.testState ≠ TestState.measureProp
      rw [hst]; simp)⟩
  | succ n ih =>
    rw [runCalls_succ, runCalls_succ]
    refine outcome_step cfg _ _ _ _ _ ih.1 ih.2 (fun hmp => ?_)
    by_cases hn : PROPTEST_NBR_OF_VARIANCE_VALUES ≤ n
    · exact hsame n hn
    · exfalso
      unfold PROPTEST_NBR_OF_VARIANCE_VALUES at hn
      by_cases h0 : n = 0
      · subst h0
        have : s.testState = TestState.measureProp := hmp
        rw [hst] at this
        exact absurd this (by simp)
      · have := (noiseFloor_invariant cfg sensors vbat s hst ht n (by omega) (by omega)).1
        rw [this] at hmp
        exact absurd hmp (by simp)

/-! ## The sample buffers after a run whose windows are never reached -/

theorem buffers_kept_step (cfg : Config) (p : MotorHealthTestDef)
    (hcfg : ∀ m, cfg.motorsGetHealthTestSettings m = p)
    (h1 : 1 < p.varianceMeasurementStartMsec.val)
    (h2 : p.onPeriodMsec.val + p.offPeriodMsec.val < p.varianceMeasurementStartMsec.val)
    (sensors : SensorData) (vbat : ℚ) (r : Health)
    (hst : r.testState = TestState.measureProp ∨ r.testState = TestState.evaluatePropResult
      ∨ r.testState = TestState.testDone)
    (ht : r.testState = TestState.measureProp → r.tick < p.varianceMeasurementStartMsec.val) :
    (healthRunTests cfg sensors vbat r).accX = r.accX
      ∧ (healthRunTests cfg sensors vbat r).accY = r.accY
      ∧ (healthRunTests cfg sensors vbat r).accZ = r.accZ
      ∧ ((healthRunTests cfg sensors vbat r).testState = TestState.measureProp
          ∨ (healthRunTests cfg sensors vbat r).testState = TestState.evaluatePropResult
          ∨ (healthRunTests cfg sensors vbat r).testState = TestState.testDone)
      ∧ ((healthRunTests cfg sensors vbat r).testState = TestState.measureProp →
          (healthRunTests cfg sensors vbat r).tick < p.varianceMeasurementStartMsec.val) := by
  have hs := p.varianceMeasurementStartMsec.isLt
  rcases hst with hst | hst | hst
  · have htk := ht hst
    obtain ⟨_, a2, _, _⟩ := measurePropSample_at p sensors vbat r (by omega)
    obtain ⟨x1, x2, x3⟩ := a2 (Or.inl htk)
    obtain ⟨f1, f2, _⟩ := measurePropSample_fields p sensors vbat r
    rw [Nat.mod_eq_of_lt (by omega)] at f1
    obtain ⟨c1, c2, c3, _⟩ := measurePropControl_arrays p (measurePropSample p sensors vbat r)
    rw [healthRunTests_measureProp _ _ _ _ hst, measurePropBody, hcfg]
    refine ⟨c1.trans x1, c2.trans x2, c3.trans x3, ?_⟩
    rcases measurePropControl_cases p (measurePropSample p sensors vbat r) with
      ⟨k1, _, hc⟩ | ⟨_, k2, hc⟩ | ⟨_, _, _, _, hc⟩ | ⟨_, _, _, _, hc⟩ | ⟨_, _, k3, hc⟩
    · have e1 : (measurePropControl p (measurePropSample p sensors vbat r)).testState
          = (measurePropSample p sensors vbat r).testState := by rw [hc]; rfl
      have e2 : (measurePropControl p (measurePropSample p sensors vbat r)).tick
          = (measurePropSample p sensors vbat r).tick := by rw [hc]; rfl
      exact ⟨Or.inl (e1.trans (f2.trans hst)), fun _ => by rw [e2, k1]; exact h1⟩
    · have e1 : (measurePropControl p (measurePropSample p sensors vbat r)).testState
          = (measurePropSample p sensors vbat r).testState := by rw [hc]; rfl
      have e2 : (measurePropControl p (measurePropSample p sensors vbat r)).tick
          = (measurePropSample p sensors vbat r).tick := by rw [hc]; rfl
      exact ⟨Or.inl (e1.trans (f2.trans hst)), fun _ => by rw [e2, k2]; omega⟩
    · have e1 : (measurePropControl p (measurePropSample p sensors vbat r)).testState
          = (measurePropSample p sensors vbat r).testState := by rw [hc]
      have e2 : (measurePropControl p (measurePropSample p sensors vbat r)).tick = 0 := by
        rw [hc]
      exact ⟨Or.inl (e1.trans (f2.trans hst)), fun _ => by rw [e2]; omega⟩
    · have e1 : (measurePropControl p (measurePropSample p sensors vbat r)).testState
          = TestState.evaluatePropResult := by rw [hc]; rfl
      exact ⟨Or.inr (Or.inl e1), fun h => by rw [e1] at h; exact absurd h (by simp)⟩
    · have e1 : (measurePropControl p (measurePropSample p sensors vbat r)).testState
          = (measurePropSample p sensors vbat r).testState := by rw [hc]
      have e2 : (measurePropControl p (measurePropSample p sensors vbat r)).tick
          = (measurePropSample p sensors vbat r).tick := by rw [hc]
      exact ⟨Or.inl (e1.trans (f2.trans hst)), fun _ => by rw [e2]; omega⟩
  · obtain ⟨x1, x2, x3, _⟩ := evaluatePropResultBody_arrays cfg r
    have e1 := evaluatePropResultBody_testState cfg r
    rw [healthRunTests_evaluatePropResult _ _ _ _ hst]
    exact ⟨x1, x2, x3, Or.inr (Or.inr e1), fun h => by rw [e1] at h; exact absurd h (by simp)⟩
  · rw [healthRunTests_testDone _ _ _ _ hst]
    exact ⟨rfl, rfl, rfl, Or.inr (Or.inr hst), fun h => by rw [hst] at h; exact absurd h (by simp)⟩

theorem buffers_kept (cfg : Config) (p : MotorHealthTestDef)
    (hcfg : ∀ m, cfg.motorsGetHealthTestSettings m = p)
    (h1 : 1 < p.varianceMeasurementStartMsec.val)
    (h2 : p.onPeriodMsec.val + p.offPeriodMsec.val < p.varianceMeasurementStartMsec.val)
    (sensors : Nat → SensorData) (vbat : Nat → ℚ) (t : Health)
    (hst : t.testState = TestState.measureProp) (ht : t.tick = 0) :
    ∀ n, (runCalls cfg sensors vbat t n).accX = t.accX
      ∧ (runCalls cfg sensors vbat t n).accY = t.accY
      ∧ (runCalls cfg sensors vbat t n).accZ = t.accZ
      ∧ ((runCalls cfg sensors vbat t n).testState = TestState.measureProp
          ∨ (runCalls cfg sensors vbat t n).testState = TestState.evaluatePropResult
          ∨ (runCalls cfg sensors vbat t n).testState = TestState.testDone)
      ∧ ((runCalls cfg sensors vbat t n).testState = TestState.measureProp →
          (runCalls cfg sensors vbat t n).tick < p.varianceMeasurementStartMsec.val) := by
  intro n
  induction n with
  | zero => exact ⟨rfl, rfl, rfl, Or.inl hst, fun _ => by rw [show (runCalls cfg sensors vbat t 0).tick = t.tick from rfl, ht]; omega⟩
  | succ n ih =>
    obtain ⟨i1, i2, i3, i4, i5⟩ := ih
    obtain ⟨s1, s2, s3, s4, s5⟩ := buffers_kept_step cfg p hcfg h1 h2 (sensors n) (vbat n)
      (runCalls cfg sensors vbat t n) i4 i5
    rw [runCalls_succ]
    exact ⟨s1.trans i1, s2.trans i2, s3.trans i3, s4, s5⟩

theorem noiseFloor_buffers_left (cfg : Config) (p : MotorHealthTestDef)
    (hcfg : ∀ m, cfg.motorsGetHealthTestSettings m = p)
    (h1 : 1 < p.varianceMeasurementStartMsec.val)
    (h2 : p.onPeriodMsec.val + p.offPeriodMsec.val < p.varianceMeasurementStartMsec.val)
    (sensors : Nat → SensorData) (vbat : Nat → ℚ) (s : Health)
    (hst : s.testState = TestState.configureAcc) (ht : s.tick = 0) :
    ∀ n, 100 ≤ n → ∀ i, i < 99 →
      (runCalls cfg sensors vbat s n).accX i = (sensors i).acc.x := by
  intro n hn i hi
  obtain ⟨i1, i2, _, i4⟩ := noiseFloor_invariant cfg sensors vbat s hst ht 99 (by decide)
    (le_refl _)
  obtain ⟨_, f2, _⟩ := measureNoiseFloorBody_fields (sensors 99) (runCalls cfg sensors vbat s 99)
  have e100 : (runCalls cfg sensors vbat s 100).accX i = (sensors i).acc.x := by
    rw [show (100 : Nat) = 99 + 1 from rfl, runCalls_succ,
      healthRunTests_measureNoiseFloor _ _ _ _ i1, f2, i2,
      Function.update_noteq (by omega)]
    exact (i4 i hi).1
  obtain ⟨n1, n2, _⟩ := noiseFloor_final cfg sensors vbat s hst ht
  obtain ⟨m, rfl⟩ : ∃ m, n = 100 + m := ⟨n - 100, by omega⟩
  rw [runCalls_add, (buffers_kept cfg p hcfg h1 h2 _ _ _ n1 n2 m).1]
  exact e100

theorem noisySensors_run_variance (amp : ℚ) :
    (runCalls (exampleConfig 100 100 50 (1 / 2)) (noisySensors amp) (fun _ => 4)
        propStartExample 251).accVarX 0
      = variance (fun i => (noisySensors amp (100 + (50 + i))).acc.x)
          PROPTEST_NBR_OF_VARIANCE_VALUES := by
  obtain ⟨n1, n2, n3, _⟩ := noiseFloor_final (exampleConfig 100 100 50 (1 / 2))
    (noisySensors amp) (fun _ => 4) propStartExample rfl rfl
  obtain ⟨_, _, w3⟩ := measureProp_window_invariant (exampleConfig 100 100 50 (1 / 2))
    (fun k => noisySensors amp (100 + k)) (fun _ => 4) _ 0 n1 n2 n3
    (constProfile 100 100 50 0) rfl 151 (by decide)
  rw [show (251 : Nat) = 100 + 151 from rfl, runCalls_add, (w3 (by decide)).1,
    Function.update_same]
  rfl

/-- Claim C16, as the code has it: the noise-floor measurement does not
influence the test outcome.  Take any configuration (profiles) and any state in
`configureAcc` with `tick = 0` (so any threshold), and two uninterrupted runs
of `healthRunTests` from it that read the same voltages and, from call number
100 on (the `measureProp` phase), the same accelerometer samples, while the
samples of the 100 noise-floor calls are arbitrary in both.  Then there is a
number of calls after which both runs are in `testDone` for good, and there
`accVarX`, `accVarY`, `accVarZ`, `motorPass`, `nrFailedTests` and
`motorTestCount` are identical in the two runs; the two final states agree on
every variable other than `accVarXnf`, `accVarYnf`, `accVarZnf` and the sample
buffers `accX`, `accY`, `accZ`. -/
theorem noiseFloor_no_influence (cfg : Config) (sensors sensors2 : Nat → SensorData)
    (vbat : Nat → ℚ) (s : Health)
    (hst : s.testState = TestState.configureAcc) (ht : s.tick = 0)
    (hsame : ∀ k, PROPTEST_NBR_OF_VARIANCE_VALUES ≤ k → sensors k = sensors2 k) :
    ∃ N, ∀ n, N ≤ n →
      (runCalls cfg sensors vbat s n).testState = TestState.testDone
        ∧ (runCalls cfg sensors2 vbat s n).testState = TestState.testDone
        ∧ (runCalls cfg sensors2 vbat s n).accVarX = (runCalls cfg sensors vbat s n).accVarX
        ∧ (runCalls cfg sensors2 vbat s n).accVarY = (runCalls cfg sensors vbat s n).accVarY
        ∧ (runCalls cfg sensors2 vbat s n).accVarZ = (runCalls cfg sensors vbat s n).accVarZ
        ∧ (runCalls cfg sensors2 vbat s n).motorPass = (runCalls cfg sensors vbat s n).motorPass
        ∧ (runCalls cfg sensors2 vbat s n).nrFailedTests
            = (runCalls cfg sensors vbat s n).nrFailedTests
        ∧ (runCalls cfg sensors2 vbat s n).motorTestCount
            = (runCalls cfg sensors vbat s n).motorTestCount
        ∧ sameOutcome (runCalls cfg sensors vbat s n) (runCalls cfg sensors2 vbat s n) := by
  obtain ⟨N, hN⟩ := propTest_terminates cfg sensors vbat s hst ht
  refine ⟨N, fun n hn => ?_⟩
  have hso := (runCalls_outcome cfg sensors sensors2 vbat s hst ht hsame n).1
  obtain ⟨f1, _, _, f4, f5, f6, f7, f8, f9, _⟩ := sameOutcome_fields _ _ hso
  exact ⟨hN n hn, f1.trans (hN n hn), f4, f5, f6, f7, f8, f9, hso⟩

theorem noiseFloor_no_influence_witness :
    propStartExample.testState = TestState.configureAcc ∧ propStartExample.tick = 0
      ∧ (∀ k, PROPTEST_NBR_OF_VARIANCE_VALUES ≤ k → noisySensors 1 k = noisySensors 2 k)
      ∧ (runCalls (exampleConfig 100 100 50 (1 / 2)) (noisySensors 1) (fun _ => 4)
              propStartExample 251).accVarX 0
          = variance (fun i => (noisySensors 1 (100 + (50 + i))).acc.x)
              PROPTEST_NBR_OF_VARIANCE_VALUES
      ∧ (runCalls (exampleConfig 100 100 50 (1 / 2)) (noisySensors 2) (fun _ => 4)
              propStartExample 251).accVarX 0
          = variance (fun i => (noisySensors 2 (100 + (50 + i))).acc.x)
              PROPTEST_NBR_OF_VARIANCE_VALUES
      ∧ ∃ N, ∀ n, N ≤ n →
        (runCalls (exampleConfig 100 100 50 (1 / 2)) (noisySensors 1) (fun _ => 4)
              propStartExample n).testState = TestState.testDone
          ∧ (runCalls (exampleConfig 100 100 50 (1 / 2)) (noisySensors 2) (fun _ => 4)
              propStartExample n).testState = TestState.testDone
          ∧ (runCalls (exampleConfig 100 100 50 (1 / 2)) (noisySensors 2) (fun _ => 4)
              propStartExample n).accVarX
            = (runCalls (exampleConfig 100 100 50 (1 / 2)) (noisySensors 1) (fun _ => 4)
              propStartExample n).accVarX
          ∧ (runCalls (exampleConfig 100 100 50 (1 / 2)) (noisySensors 2) (fun _ => 4)
              propStartExample n).accVarY
            = (runCalls (exampleConfig 100 100 50 (1 / 2)) (noisySensors 1) (fun _ => 4)
              propStartExample n).accVarY
          ∧ (runCalls (exampleConfig 100 100 50 (1 / 2)) (noisySensors 2) (fun _ => 4)
              propStartExample n).accVarZ
            = (runCalls (exampleConfig 100 100 50 (1 / 2)) (noisySensors 1) (fun _ => 4)
              propStartExample n).accVarZ
          ∧ (runCalls (exampleConfig 100 100 50 (1 / 2)) (noisySensors 2) (fun _ => 4)
              propStartExample n).motorPass
            = (runCalls (exampleConfig 100 100 50 (1 / 2)) (noisySensors 1) (fun _ => 4)
              propStartExample n).motorPass
          ∧ (runCalls (exampleConfig 100 100 50 (1 / 2)) (noisySensors 2) (fun _ => 4)
              propStartExample n).nrFailedTests
            = (runCalls (exampleConfig 100 100 50 (1 / 2)) (noisySensors 1) (fun _ => 4)
              propStartExample n).nrFailedTests
          ∧ (runCalls (exampleConfig 100 100 50 (1 / 2)) (noisySensors 2) (fun _ => 4)
              propStartExample n).motorTestCount
            = (runCalls (exampleConfig 100 100 50 (1 / 2)) (noisySensors 1) (fun _ => 4)
              propStartExample n).motorTestCount
          ∧ sameOutcome
              (runCalls (exampleConfig 100 100 50 (1 / 2)) (noisySensors 1) (fun _ => 4)
              propStartExample n)
              (runCalls (exampleConfig 100 100 50 (1 / 2)) (noisySensors 2) (fun _ => 4)
              propStartExample n) :=
  have h : ∀ k, PROPTEST_NBR_OF_VARIANCE_VALUES ≤ k → noisySensors 1 k = noisySensors 2 k :=
    fun k hk => by
      unfold noisySensors
      rw [if_neg (by omega), if_neg (by omega)]
  ⟨rfl, rfl, h, noisySensors_run_variance 1, noisySensors_run_variance 2,
    noiseFloor_no_influence (exampleConfig 100 100 50 (1 / 2)) (noisySensors 1) (noisySensors 2)
      (fun _ => 4) propStartExample rfl rfl h⟩

/-- Claim C16 fails on the code as it is worded, because the noise floor and
the motor windows share the sample buffers.  With the profile (on 2, off 1,
window start 1000) no motor phase reaches its window, so the buffers keep the
noise-floor samples: two runs from the same state in `configureAcc` with
`tick = 0`, reading the same samples from call 100 on and the x samples `k` and
`2 * k` during the noise floor, both end in `testDone`, and there `accX[5]` is
5 in the first run and 10 in the second. -/
theorem noiseFloor_no_influence_counterexample :
    propStartExample.testState = TestState.configureAcc ∧ propStartExample.tick = 0
      ∧ (∀ k, PROPTEST_NBR_OF_VARIANCE_VALUES ≤ k → noisySensors 1 k = noisySensors 2 k)
      ∧ ∃ N, ∀ n, N ≤ n →
        (runCalls (exampleConfig 2 1 1000 (1 / 2)) (noisySensors 1) (fun _ => 4)
            propStartExample n).testState = TestState.testDone
          ∧ (runCalls (exampleConfig 2 1 1000 (1 / 2)) (noisySensors 2) (fun _ => 4)
              propStartExample n).testState = TestState.testDone
          ∧ (runCalls (exampleConfig 2 1 1000 (1 / 2)) (noisySensors 1) (fun _ => 4)
              propStartExample n).accX 5 = 5
          ∧ (runCalls (exampleConfig 2 1 1000 (1 / 2)) (noisySensors 2) (fun _ => 4)
              propStartExample n).accX 5 = 10 := by
  have h : ∀ k, PROPTEST_NBR_OF_VARIANCE_VALUES ≤ k → noisySensors 1 k = noisySensors 2 k :=
    fun k hk => by
      unfold noisySensors
      rw [if_neg (by omega), if_neg (by omega)]
  obtain ⟨N1, hN1⟩ := propTest_terminates (exampleConfig 2 1 1000 (1 / 2)) (noisySensors 1)
    (fun _ => 4) propStartExample rfl rfl
  obtain ⟨N2, hN2⟩ := propTest_terminates (exampleConfig 2 1 1000 (1 / 2)) (noisySensors 2)
    (fun _ => 4) propStartExample rfl rfl
  have b1 := noiseFloor_buffers_left (exampleConfig 2 1 1000 (1 / 2)) (constProfile 2 1 1000 0)
    (fun _ => rfl) (by decide) (by decide) (noisySensors 1) (fun _ => 4) propStartExample rfl rfl
  have b2 := noiseFloor_buffers_left (exampleConfig 2 1 1000 (1 / 2)) (constProfile 2 1 1000 0)
    (fun _ => rfl) (by decide) (by decide) (noisySensors 2) (fun _ => 4) propStartExample rfl rfl
  have v1 : (noisySensors 1 5).acc.x = 5 := by
    norm_num [noisySensors, PROPTEST_NBR_OF_VARIANCE_VALUES]
  have v2 : (noisySensors 2 5).acc.x = 10 := by
    norm_num [noisySensors, PROPTEST_NBR_OF_VARIANCE_VALUES]
  refine ⟨rfl, rfl, h, N1 + N2 + 100, fun n hn => ?_⟩
  exact ⟨hN1 n (by omega), hN2 n (by omega),
    (b1 n (by omega) 5 (by decide)).trans v1, (b2 n (by omega) 5 (by decide)).trans v2⟩

end Crazyflie
